import Mathlib

/-! # SRAMS backend: authentication and session core

A shallow embedding of the security core of the SRAMS backend
(`backend/internal/auth`, `backend/internal/middleware`,
`backend/internal/handlers/auth_handler.go` and `user_handler.go`,
`backend/internal/db/postgres/user_service.go` and `system_service.go`, the
routes of `backend/cmd/server/main.go`, and the SQLite sibling
`backend/internal/services/user_service.go`), followed by theorems about it.

Conventions of the embedding.

* A Go `string` is a Lean `String`; byte slices are lists of `Byte`.
* `time.Time` is an `Int` count of nanoseconds since the Unix epoch and
  `time.Duration` an `Int` count of nanoseconds.  Every handler invocation reads
  one instant `now`; the database `NOW()` of that invocation is the same instant.
* A Go function that can panic returns `Run α`.
* Library primitives whose bit-level behaviour is irrelevant here
  (Argon2id, HMAC, SHA-256, TOTP) are fields of the structures `Argon2` and
  `Crypto`; the code is embedded over an arbitrary value of them.
* Storage statements are embedded as pure functions on the record `DB`;
  transport failures of the database connection are outside the model.
-/

namespace SRAMS

/-! ## Basic types -/

/-- One octet. -/
abbrev Byte := Fin 256

/-- Nanoseconds since the Unix epoch (`time.Time`). -/
abbrev Time := Int

/-- Nanoseconds (`time.Duration`). -/
abbrev Duration := Int

/-- The constant `time.Second`. -/
def Second : Duration := 1000000000

/-- The constant `time.Minute`. -/
def Minute : Duration := 60 * Second

/-- The constant `time.Hour`. -/
def Hour : Duration := 60 * Minute

/-- Result of running Go code that may panic. -/
inductive Run (α : Type) where
  | ret (a : α)
  | panic (msg : String)
  deriving DecidableEq, Repr

deriving instance DecidableEq for Except

/-! ## `encoding/base64`, `RawStdEncoding` -/

/-- The standard alphabet `encodeStd`. -/
def encodeStd : List Char :=
  "ABCDEFGHIJKLMNOPQRSTUVWXYZabcdefghijklmnopqrstuvwxyz0123456789+/".toList

/-- Table lookup `enc.encode[v]` for a six-bit value. -/
def encodeSextet (v : Nat) : Char := encodeStd.getD v 'A'

/-- Table lookup `enc.decodeMap[c]`; `none` stands for the entry `0xff`. -/
def decodeChar (c : Char) : Option Nat :=
  let i := encodeStd.indexOf c
  if i < 64 then some i else none

/-- `RawStdEncoding.EncodeToString`: three octets become four characters, a
remainder of one or two octets becomes two or three characters, no padding.
`val` is `b0<<16 | b1<<8 | b2`; the fields are disjoint, so the sum equals the
bitwise or, and `val>>k & 0x3F` is `val / 2^k % 64`. -/
def EncodeToString : List Byte → List Char
  | b0 :: b1 :: b2 :: rest =>
    let val := b0.val * 65536 + b1.val * 256 + b2.val
    encodeSextet (val / 262144 % 64) :: encodeSextet (val / 4096 % 64) ::
      encodeSextet (val / 64 % 64) :: encodeSextet (val % 64) :: EncodeToString rest
  | [b0, b1] =>
    let val := b0.val * 65536 + b1.val * 256
    [encodeSextet (val / 262144 % 64), encodeSextet (val / 4096 % 64),
      encodeSextet (val / 64 % 64)]
  | [b0] =>
    let val := b0.val * 65536
    [encodeSextet (val / 262144 % 64), encodeSextet (val / 4096 % 64)]
  | [] => []

/-- The six-bit values `EncodeToString` looks up, in order. -/
def sextetsOf : List Byte → List Nat
  | b0 :: b1 :: b2 :: rest =>
    let val := b0.val * 65536 + b1.val * 256 + b2.val
    (val / 262144 % 64) :: (val / 4096 % 64) :: (val / 64 % 64) :: (val % 64) :: sextetsOf rest
  | [b0, b1] =>
    let val := b0.val * 65536 + b1.val * 256
    [val / 262144 % 64, val / 4096 % 64, val / 64 % 64]
  | [b0] =>
    let val := b0.val * 65536
    [val / 262144 % 64, val / 4096 % 64]
  | [] => []

/-- Conversion `byte(x)`. -/
def toByte (x : Nat) : Byte := ⟨x % 256, Nat.mod_lt _ (by decide)⟩

/-- The quantum loop of `Encoding.Decode` on already looked-up six-bit values, for
an encoding without padding and without strict mode: four values give three
octets, a final group of three gives two, of two gives one, and a final group of
one is a `CorruptInputError` (`none`). -/
def decodeQuanta : List Nat → Option (List Byte)
  | d0 :: d1 :: d2 :: d3 :: rest =>
    let val := d0 * 262144 + d1 * 4096 + d2 * 64 + d3
    (decodeQuanta rest).map
      (fun tl => toByte (val / 65536) :: toByte (val / 256) :: toByte val :: tl)
  | [d0, d1, d2] =>
    let val := d0 * 262144 + d1 * 4096 + d2 * 64
    some [toByte (val / 65536), toByte (val / 256)]
  | [d0, d1] =>
    let val := d0 * 262144 + d1 * 4096
    some [toByte (val / 65536)]
  | [_] => none
  | [] => some []

/-- The table lookups of `Encoding.Decode` along the input; one character outside
the alphabet makes the whole input corrupt. -/
def decodeChars : List Char → Option (List Nat)
  | [] => some []
  | c :: cs =>
    match decodeChar c with
    | none => none
    | some d => (decodeChars cs).map (fun ds => d :: ds)

/-- `RawStdEncoding.DecodeString`: carriage returns and line feeds are skipped, any
other character outside the alphabet (the padding character included) is a
`CorruptInputError` (`none`). -/
def DecodeString (s : List Char) : Option (List Byte) :=
  match decodeChars (s.filter (fun c => c != '\n' && c != '\r')) with
  | none => none
  | some ds => decodeQuanta ds

/-! ## `fmt.Sscanf` for the format `"m=%d,t=%d,p=%d"` -/

/-- The table `space` of `fmt/scan.go` (`isSpace`). -/
def isSpace (c : Char) : Bool :=
  let r := c.toNat
  (0x0009 ≤ r && r ≤ 0x000d) || r == 0x0020 || r == 0x0085 || r == 0x00a0 ||
  r == 0x1680 || (0x2000 ≤ r && r ≤ 0x200a) || (0x2028 ≤ r && r ≤ 0x2029) ||
  r == 0x202f || r == 0x205f || r == 0x3000

/-- `ss.SkipSpace` with `nlIsSpace = false`: spaces are consumed, a line feed is the
error "unexpected newline" (`none`). -/
def skipSpace : List Char → Option (List Char)
  | [] => some []
  | c :: cs =>
    if c = '\n' then none
    else if isSpace c then skipSpace cs
    else some (c :: cs)

/-- `ss.advance` on a run of literal, non-space format characters: each must be
the next input character; a different character is "input does not match
format" and the end of input "unexpected EOF" (both `none`). -/
def matchLiteral : List Char → List Char → Option (List Char)
  | [], inp => some inp
  | _ :: _, [] => none
  | f :: fs, c :: cs => if f = c then matchLiteral fs cs else none

/-- `strconv.ParseUint(tok, 10, 64)` on a token of decimal digits, as a number. -/
def parseDecimal (tok : List Char) : Nat :=
  tok.foldl (fun acc c => acc * 10 + (c.toNat - 48)) 0

/-- The verb `%d` into an unsigned integer of `bitSize` bits (`ss.scanUint` after
the `SkipSpace` of `doScanf`): leading space is skipped, at least one decimal
digit is required, the maximal run of digits is the token, and a value that does
not fit `bitSize` bits is an error. -/
def scanUint (bitSize : Nat) (inp : List Char) : Option (Nat × List Char) :=
  match skipSpace inp with
  | none => none
  | some inp1 =>
    let tok := inp1.takeWhile Char.isDigit
    if tok = [] then none
    else
      let i := parseDecimal tok
      if i < 2 ^ bitSize then some (i, inp1.dropWhile Char.isDigit) else none

/-- `fmt.Sscanf(s, "m=%d,t=%d,p=%d", &memory, &time, &threads)` with
`memory, time uint32` and `threads uint8`; `none` is a non-nil error.  Input left
over after the last verb is not an error. -/
def SscanfParams (s : List Char) : Option (Nat × Nat × Nat) :=
  match matchLiteral "m=".toList s with
  | none => none
  | some s1 =>
    match scanUint 32 s1 with
    | none => none
    | some (memory, s2) =>
      match matchLiteral ",t=".toList s2 with
      | none => none
      | some s3 =>
        match scanUint 32 s3 with
        | none => none
        | some (time, s4) =>
          match matchLiteral ",p=".toList s4 with
          | none => none
          | some s5 =>
            match scanUint 8 s5 with
            | none => none
            | some (threads, _) => some (memory, time, threads)

/-- The verb `%d` of `fmt.Sprintf` on a non-negative integer. -/
def formatUint (n : Nat) : List Char := Nat.toDigits 10 n

/-- The parameter segment `m=<m>,t=<t>,p=<p>` of an encoded hash. -/
def paramSegment (m t p : Nat) : List Char :=
  "m=".toList ++ formatUint m ++ ",t=".toList ++ formatUint t ++ ",p=".toList ++ formatUint p

/-! ## `golang.org/x/crypto/argon2` and `crypto/subtle` -/

/-- The Argon2id derivation on accepted parameters: password, salt, time, memory,
threads, key length.  The derived key has the requested length. -/
structure Argon2 where
  derive : String → List Byte → Nat → Nat → Nat → Nat → List Byte
  length_derive : ∀ pw salt t m p L, (derive pw salt t m p L).length = L

/-- `argon2.IDKey`: the library panics when `time < 1` or `threads < 1`, and, through
`blake2b.New(0, nil)`, when the key length is zero. -/
def IDKey (kdf : Argon2) (password : String) (salt : List Byte)
    (time memory threads keyLen : Nat) : Run (List Byte) :=
  if time < 1 then .panic "argon2: number of rounds too small"
  else if threads < 1 then .panic "argon2: parallelism degree too low"
  else if keyLen < 1 then .panic "runtime error: invalid memory address or nil pointer dereference"
  else .ret (kdf.derive password salt time memory threads keyLen)

/-- `subtle.ConstantTimeCompare`: 1 when the slices have equal contents, else 0. -/
def ConstantTimeCompare (x y : List Byte) : Nat := if x = y then 1 else 0

/-! ## `auth.Service`: password hashing (`internal/auth/auth.go`) -/

def argonTime : Nat := 1
def argonMemory : Nat := 64 * 1024
def argonThreads : Nat := 4
def argonKeyLen : Nat := 32
def saltLen : Nat := 16

/-- `fmt.Sprintf("$argon2id$v=19$m=%d,t=%d,p=%d$%s$%s", m, t, p, salt, hash)`. -/
def encodeHash (m t p : Nat) (b64Salt b64Hash : List Char) : String :=
  String.mk ("$argon2id$v=19$m=".toList ++ formatUint m ++ ",t=".toList ++ formatUint t ++
    ",p=".toList ++ formatUint p ++ "$".toList ++ b64Salt ++ "$".toList ++ b64Hash)

/-- `Service.HashPassword`.  `rnd` is what `rand.Read` did to the `saltLen`-byte
buffer: `some salt` or `none` for a read error. -/
def HashPassword (kdf : Argon2) (rnd : Option (List Byte)) (password : String) :
    Run (Except String String) :=
  match rnd with
  | none => .ret (.error "failed to generate salt")
  | some salt =>
    match IDKey kdf password salt argonTime argonMemory argonThreads argonKeyLen with
    | .panic msg => .panic msg
    | .ret hash =>
      .ret (.ok (encodeHash argonMemory argonTime argonThreads
        (EncodeToString salt) (EncodeToString hash)))

/-- `Service.VerifyPassword`. -/
def VerifyPassword (kdf : Argon2) (password hash : String) : Run Bool :=
  match hash.toList.splitOn '$' with
  | [_, p1, p2, p3, p4, p5] =>
    if p1 ≠ "argon2id".toList ∨ p2 ≠ "v=19".toList then .ret false
    else
      match SscanfParams p3 with
      | none => .ret false
      | some (memory, time, threads) =>
        match DecodeString p4 with
        | none => .ret false
        | some saltBytes =>
          match DecodeString p5 with
          | none => .ret false
          | some keyBytes =>
            match IDKey kdf password saltBytes time memory threads
                (keyBytes.length % 2 ^ 32) with
            | .panic msg => .panic msg
            | .ret computedHash => .ret (ConstantTimeCompare keyBytes computedHash == 1)
  | _ => .ret false

/-! ## Models (`internal/models/models.go`) -/

/-- A `uuid.UUID`. -/
abbrev UUID := Nat

/-- The value `uuid.Nil`. -/
def uuidNil : UUID := 0

def RoleSuperAdmin : String := "super_admin"
def RoleAdmin : String := "admin"
def RoleUser : String := "user"

/-- The struct `models.User`; a nil pointer field is `none`. -/
structure User where
  ID : UUID
  Email : String
  PasswordHash : String
  FullName : String
  Mobile : String
  Role : String
  IsActive : Bool
  CreatedAt : Time
  UpdatedAt : Time
  LastLogin : Option Time
  TOTPSecret : Option String
  TOTPEnabled : Bool
  BackupCodes : List String
  FailedLoginAttempts : Int
  LockedUntil : Option Time
  MustChangePassword : Bool
  MustEnrollMFA : Bool
  deriving DecidableEq, Repr

/-- The struct `models.Session`, one row of `auth.sessions`. -/
structure Session where
  ID : UUID
  UserID : UUID
  TokenHash : String
  RefreshTokenHash : String
  IPAddress : String
  DeviceFingerprint : String
  UserAgent : String
  CreatedAt : Time
  ExpiresAt : Time
  LastActivity : Time
  IsActive : Bool
  deriving DecidableEq, Repr

/-- One row of `auth.device_certificates`. -/
structure DeviceCertificate where
  ID : UUID
  UserID : UUID
  Fingerprint : String
  MachineID : String
  OSInfo : String
  CreatedAt : Time
  LastUsedAt : Option Time
  RevokedAt : Option Time
  deriving DecidableEq, Repr

/-- A value of the audit metadata map. -/
inductive MetaValue where
  | str (s : String)
  | bool (b : Bool)
  | time (t : Option Time)
  deriving DecidableEq, Repr

/-- The struct `models.CreateAuditLogInput`, which is also what one row of
`audit.logs` records. -/
structure CreateAuditLogInput where
  ActorID : Option UUID
  ActorRole : String
  ActionType : String
  TargetType : String
  TargetID : Option UUID
  Metadata : List (String × MetaValue)
  IPAddress : String
  DeviceID : String
  UserAgent : String
  deriving DecidableEq, Repr

def ActionLogin : String := "login"
def ActionLoginFailed : String := "login_failed"

/-- The stored state: the tables the authentication core reads and writes. -/
structure DB where
  users : List User
  sessions : List Session
  deviceCertificates : List DeviceCertificate
  auditLogs : List CreateAuditLogInput
  deriving DecidableEq, Repr

/-! ## `github.com/golang-jwt/jwt/v5` -/

/-- The struct `jwt.RegisteredClaims` (the fields this code sets). -/
structure RegisteredClaims where
  Issuer : String
  Subject : String
  ExpiresAt : Option Time
  NotBefore : Option Time
  IssuedAt : Option Time
  deriving DecidableEq, Repr

/-- The struct `auth.TokenClaims`. -/
structure TokenClaims where
  UserID : UUID
  Email : String
  Role : String
  SessionID : UUID
  Registered : RegisteredClaims
  deriving DecidableEq, Repr

/-- A token string.  A compact JWS is represented by what its three segments
decode to (the `alg` header, the claims, the signature octets); every other
string is `malformed`.  The compact serialisation is injective, so equality of
these values is equality of the strings. -/
inductive TokenString where
  | jws (alg : String) (claims : TokenClaims) (sig : List Byte)
  | malformed (raw : String)
  deriving DecidableEq, Repr

/-- The primitives behind `auth.Service`, kept abstract. -/
structure Crypto where
  /-- Argon2id. -/
  argon2 : Argon2
  /-- HMAC with the hash of `alg` under `key` over the signing input (header and
  claims segments). -/
  hmac : (alg : String) → (key : String) → String × TokenClaims → List Byte
  /-- Hex of SHA-256 of a token string. -/
  sha256Hex : TokenString → String
  /-- The check `totp.Validate(code, secret)` at an instant. -/
  totpValidate : (code secret : String) → Time → Bool

/-- The constructor `jwt.NewNumericDate`: the instant truncated to
`jwt.TimePrecision`, which is one second. -/
def NewNumericDate (t : Time) : Time := t - t % Second

/-- `jwt.NewWithClaims(jwt.SigningMethodHS256, claims).SignedString(key)`. -/
def SignedString (cr : Crypto) (claims : TokenClaims) (key : String) : TokenString :=
  .jws "HS256" claims (cr.hmac "HS256" key ("HS256", claims))

/-- The errors of `jwt.Parser.ParseWithClaims`; for invalid claims the flags say
which of `ErrTokenExpired` and `ErrTokenNotValidYet` are joined in. -/
inductive JwtError where
  | malformed
  | unverifiable
  | signatureInvalid
  | invalidClaims (expired notValidYet : Bool)
  deriving DecidableEq, Repr

/-- The test `errors.Is(err, jwt.ErrTokenExpired)`. -/
def JwtError.isExpired : JwtError → Bool
  | .invalidClaims expired _ => expired
  | _ => false

/-- The type assertion `token.Method.(*jwt.SigningMethodHMAC)` of the key function. -/
def isHMAC (alg : String) : Bool := alg == "HS256" || alg == "HS384" || alg == "HS512"

/-- `jwt.Validator.Validate` with the default options: `exp` must be after `now`
when present, `nbf` must not be after `now` when present. -/
def validateClaims (now : Time) (c : RegisteredClaims) : Option JwtError :=
  let expired : Bool := match c.ExpiresAt with
    | some exp => !decide (now < exp)
    | none => false
  let notValidYet : Bool := match c.NotBefore with
    | some nbf => decide (now < nbf)
    | none => false
  if expired || notValidYet then some (.invalidClaims expired notValidYet) else none

/-- `jwt.ParseWithClaims(tokenStr, &TokenClaims{}, keyFunc)` where `keyFunc` accepts
HMAC methods only and returns `secret`: segments are decoded, the key is looked
up, the signature is verified, then the claims are validated. -/
def ParseWithClaims (cr : Crypto) (now : Time) (secret : String) (tokenStr : TokenString) :
    Except JwtError TokenClaims :=
  match tokenStr with
  | .malformed _ => .error .malformed
  | .jws alg claims sig =>
    if !isHMAC alg then .error .unverifiable
    else if sig ≠ cr.hmac alg secret (alg, claims) then .error .signatureInvalid
    else
      match validateClaims now claims.Registered with
      | some e => .error e
      | none => .ok claims

/-! ## `auth.Service`: tokens (`internal/auth/auth.go`) -/

/-- The sentinel errors of package `auth` that token validation returns. -/
inductive AuthError where
  | ErrTokenExpired
  | ErrInvalidToken
  deriving DecidableEq, Repr

/-- The struct `config.JWTConfig`. -/
structure JWTConfig where
  AccessSecret : String
  RefreshSecret : String
  AccessExpiry : Duration
  RefreshExpiry : Duration
  deriving DecidableEq, Repr

/-- The struct `auth.TokenPair`. -/
structure TokenPair where
  AccessToken : TokenString
  RefreshToken : TokenString
  ExpiresAt : Time
  deriving DecidableEq, Repr

/-- Rendering `uuid.UUID.String()`, as the decimal of the identifier. -/
def uuidString (u : UUID) : String := String.mk (Nat.toDigits 10 u)

/-- `Service.GenerateTokenPair`, with `now` the instant read by `time.Now()`.
Signing with HS256 and a byte-slice key returns no error, so both error returns
of the source are unreachable and the result is the pair. -/
def GenerateTokenPair (cr : Crypto) (cfg : JWTConfig) (now : Time) (user : User)
    (sessionID : UUID) : Except String TokenPair :=
  let accessExpiry := now + cfg.AccessExpiry
  let refreshExpiry := now + cfg.RefreshExpiry
  let accessClaims : TokenClaims :=
    { UserID := user.ID, Email := user.Email, Role := user.Role, SessionID := sessionID,
      Registered :=
        { ExpiresAt := some (NewNumericDate accessExpiry), IssuedAt := some (NewNumericDate now),
          NotBefore := some (NewNumericDate now), Issuer := "srams",
          Subject := uuidString user.ID } }
  let accessTokenStr := SignedString cr accessClaims cfg.AccessSecret
  let refreshClaims : TokenClaims :=
    { UserID := user.ID, Email := "", Role := "", SessionID := sessionID,
      Registered :=
        { ExpiresAt := some (NewNumericDate refreshExpiry), IssuedAt := some (NewNumericDate now),
          NotBefore := none, Issuer := "srams", Subject := uuidString user.ID } }
  let refreshTokenStr := SignedString cr refreshClaims cfg.RefreshSecret
  .ok { AccessToken := accessTokenStr, RefreshToken := refreshTokenStr, ExpiresAt := accessExpiry }

/-- `Service.ValidateAccessToken`. -/
def ValidateAccessToken (cr : Crypto) (cfg : JWTConfig) (now : Time) (tokenStr : TokenString) :
    Except AuthError TokenClaims :=
  match ParseWithClaims cr now cfg.AccessSecret tokenStr with
  | .error err => if err.isExpired then .error .ErrTokenExpired else .error .ErrInvalidToken
  | .ok claims => .ok claims

/-- `Service.ValidateRefreshToken`. -/
def ValidateRefreshToken (cr : Crypto) (cfg : JWTConfig) (now : Time) (tokenStr : TokenString) :
    Except AuthError TokenClaims :=
  match ParseWithClaims cr now cfg.RefreshSecret tokenStr with
  | .error err => if err.isExpired then .error .ErrTokenExpired else .error .ErrInvalidToken
  | .ok claims => .ok claims

/-- `Service.HashToken`. -/
def HashToken (cr : Crypto) (token : TokenString) : String := cr.sha256Hex token

/-- `Service.ValidateTOTP`. -/
def ValidateTOTP (cr : Crypto) (now : Time) (secret code : String) : Bool :=
  cr.totpValidate code secret now

/-- `Service.GenerateCSRFToken`: `rnd` is what `rand.Read` did to the 32-byte
buffer; the result is the token and whether an error was returned.  The URL-safe
padded encoding of the octets is kept abstract as `enc`. -/
def GenerateCSRFToken (enc : List Byte → String) (rnd : Option (List Byte)) : String × Bool :=
  match rnd with
  | none => ("", true)
  | some bytes => (enc bytes, false)

/-! ## `postgres.AuditService` (`internal/db/postgres/audit_service.go`) -/

/-- `AuditService.Create`: one row is appended to `audit.logs`. -/
def AuditCreate (db : DB) (input : CreateAuditLogInput) : DB :=
  { db with auditLogs := db.auditLogs ++ [input] }

/-- `AuditService.LogLogin`. -/
def LogLogin (db : DB) (userID : UUID) (role ip deviceID userAgent : String) (success : Bool) : DB :=
  let actionType := if !success then ActionLoginFailed else ActionLogin
  AuditCreate db
    { ActorID := some userID, ActorRole := role, ActionType := actionType, TargetType := "user",
      TargetID := some userID, Metadata := [("success", .bool success)], IPAddress := ip,
      DeviceID := deviceID, UserAgent := userAgent }

/-! ## `postgres.UserService` (`internal/db/postgres/user_service.go`) -/

namespace postgres

/-- `UserService.GetByID`; `none` is `ErrUserNotFound`. -/
def GetByID (db : DB) (id : UUID) : Option User :=
  db.users.find? (fun u => u.ID == id)

/-- `UserService.GetByEmail`; `none` is `ErrUserNotFound`. -/
def GetByEmail (db : DB) (email : String) : Option User :=
  db.users.find? (fun u => u.Email == email)

/-- `UserService.UpdateLastLogin`. -/
def UpdateLastLogin (db : DB) (now : Time) (id : UUID) : DB :=
  { db with users := db.users.map (fun u => if u.ID = id then { u with LastLogin := some now } else u) }

/-- `UserService.CreateSession`.  The migration declaring `auth.sessions` is not
among the sources; as in the schema of `internal/db/sqlite.go`, `id` is taken to
be the primary key, so inserting an identifier already present is an error, and
`created_at` and `last_activity` default to the current instant. -/
def CreateSession (db : DB) (now : Time) (sessionID userID : UUID)
    (tokenHash refreshTokenHash ipAddress deviceFingerprint userAgent : String)
    (expiresAt : Time) : Except String Session × DB :=
  let session : Session :=
    { ID := sessionID, UserID := userID, TokenHash := tokenHash,
      RefreshTokenHash := refreshTokenHash, IPAddress := ipAddress,
      DeviceFingerprint := deviceFingerprint, UserAgent := userAgent, CreatedAt := now,
      ExpiresAt := expiresAt, LastActivity := now, IsActive := true }
  if db.sessions.any (fun s => s.ID == sessionID) then
    (.error "failed to create session", db)
  else (.ok session, { db with sessions := db.sessions ++ [session] })

/-- `UserService.InvalidateSession`. -/
def InvalidateSession (db : DB) (sessionID : UUID) : DB :=
  { db with sessions :=
      db.sessions.map (fun s => if s.ID = sessionID then { s with IsActive := false } else s) }

/-- `UserService.IsSessionValid`. -/
def IsSessionValid (db : DB) (now : Time) (sessionID : UUID) : Bool :=
  match db.sessions.find? (fun s => s.ID == sessionID) with
  | none => false
  | some s => s.IsActive && decide (now < s.ExpiresAt)

/-- `UserService.RotateRefreshToken`. -/
def RotateRefreshToken (db : DB) (now : Time) (sessionID : UUID) (newTokenHash : String) : DB :=
  { db with sessions :=
      db.sessions.map (fun s =>
        if s.ID = sessionID then
          { s with RefreshTokenHash := newTokenHash, LastActivity := now,
                   ExpiresAt := now + 7 * 24 * Hour }
        else s) }

/-- `UserService.ValidateRefreshTokenHash`: the flag and the session row, if any.
The error result is nil on every path of the model. -/
def ValidateRefreshTokenHash (db : DB) (sessionID : UUID) (hash : String) :
    Bool × Option Session :=
  match db.sessions.find? (fun s => s.ID == sessionID) with
  | none => (false, none)
  | some session =>
    if session.RefreshTokenHash ≠ hash then (false, some session)
    else (true, some session)

/-- `UserService.IncrementFailedLoginAttempts`. -/
def IncrementFailedLoginAttempts (db : DB) (now : Time) (userID : UUID)
    (maxAttempts lockoutMinutes : Int) : DB :=
  { db with users :=
      db.users.map (fun u =>
        if u.ID = userID then
          { u with
            FailedLoginAttempts := u.FailedLoginAttempts + 1,
            LockedUntil :=
              if u.FailedLoginAttempts + 1 ≥ maxAttempts then some (now + Minute * lockoutMinutes)
              else u.LockedUntil,
            UpdatedAt := now }
        else u) }

/-- `UserService.ResetFailedLoginAttempts`. -/
def ResetFailedLoginAttempts (db : DB) (now : Time) (userID : UUID) : DB :=
  { db with users :=
      db.users.map (fun u =>
        if u.ID = userID then
          { u with FailedLoginAttempts := 0, LockedUntil := none, UpdatedAt := now }
        else u) }

/-- Modelled from the spec: the uniqueness rule of the table
`auth.device_certificates`, whose migration is not among the sources.  The data
model of the spec has "fingerprint (unique per account)", as the schema of
`internal/db/sqlite.go` has `UNIQUE(user_id, fingerprint)`: a row cannot be
inserted for a (user, fingerprint) pair that already has one, revoked or not. -/
def certificateConflict (db : DB) (userID : UUID) (fingerprint : String) : Bool :=
  db.deviceCertificates.any (fun c => c.UserID == userID && c.Fingerprint == fingerprint)

/-- `UserService.VerifyDeviceCertificate`: the flag, whether an error is returned,
and the new state.  `certID` is the identifier the table generates for a new
row.  The insert of the first certificate is an error when it conflicts with a
stored row (`certificateConflict`). -/
def VerifyDeviceCertificate (db : DB) (now : Time) (certID userID : UUID)
    (fingerprint deviceID : String) : (Bool × Bool) × DB :=
  if fingerprint == "" then ((false, true), db)
  else
    let count :=
      (db.deviceCertificates.filter (fun c => c.UserID == userID && c.RevokedAt.isNone)).length
    if count == 0 then
      let machineID := if deviceID == "" then fingerprint.take 64 else deviceID
      if certificateConflict db userID fingerprint
      then ((false, true), db)
      else
        ((true, false),
          { db with deviceCertificates := db.deviceCertificates ++
              [{ ID := certID, UserID := userID, Fingerprint := fingerprint,
                 MachineID := machineID, OSInfo := "Registered via TOFU", CreatedAt := now,
                 LastUsedAt := none, RevokedAt := none }] })
    else
      let certExists := db.deviceCertificates.any
        (fun c => c.UserID == userID && c.Fingerprint == fingerprint && c.RevokedAt.isNone)
      if certExists then
        ((true, false),
          { db with deviceCertificates := db.deviceCertificates.map (fun c =>
              if c.UserID = userID ∧ c.Fingerprint = fingerprint then
                { c with LastUsedAt := some now }
              else c) })
      else ((false, true), db)

end postgres

/-! ## `services.UserService`, the SQLite sibling (`internal/services/user_service.go`)

Instants are stored as RFC 3339 text, that is, truncated to the second. -/

namespace sqlite

/-- The round trip `time.Parse(time.RFC3339, t.Format(time.RFC3339))`. -/
def storedTime (t : Time) : Time := t - t % Second

/-- `UserService.IncrementFailedLoginAttempts` of the SQLite service. -/
def IncrementFailedLoginAttempts (db : DB) (now : Time) (userID : UUID)
    (maxAttempts lockoutMinutes : Int) : DB :=
  let lockoutTime := storedTime (now + lockoutMinutes * Minute)
  let nowStr := storedTime now
  let currentAttempts : Int :=
    match db.users.find? (fun u => u.ID == userID) with
    | some u => u.FailedLoginAttempts
    | none => 0
  let newAttempts := currentAttempts + 1
  if newAttempts ≥ maxAttempts then
    { db with users := db.users.map (fun u =>
        if u.ID = userID then
          { u with FailedLoginAttempts := newAttempts, LockedUntil := some lockoutTime,
                   UpdatedAt := nowStr }
        else u) }
  else
    { db with users := db.users.map (fun u =>
        if u.ID = userID then { u with FailedLoginAttempts := newAttempts, UpdatedAt := nowStr }
        else u) }

/-- `UserService.ValidateRefreshTokenHash` of the SQLite service: an inactive or
expired session never validates. -/
def ValidateRefreshTokenHash (db : DB) (now : Time) (sessionID : UUID) (tokenHash : String) :
    Bool × Option Session :=
  match db.sessions.find? (fun s => s.ID == sessionID) with
  | none => (false, none)
  | some session =>
    if !session.IsActive || decide (session.ExpiresAt < now) then (false, some session)
    else if session.RefreshTokenHash ≠ tokenHash then (false, some session)
    else (true, some session)

/-- `UserService.RotateRefreshToken` of the SQLite service. -/
def RotateRefreshToken (db : DB) (now : Time) (sessionID : UUID) (newTokenHash : String) : DB :=
  { db with sessions :=
      db.sessions.map (fun s =>
        if s.ID = sessionID ∧ s.IsActive = true then
          { s with RefreshTokenHash := newTokenHash, LastActivity := storedTime now }
        else s) }

end sqlite

/-! ## `middleware` (`internal/middleware/middleware.go`) -/

/-- The struct `middleware.RequestMetadata`. -/
structure RequestMetadata where
  IP : String
  DeviceID : String
  UserAgent : String
  deriving DecidableEq, Repr

/-- `middleware.IsServerMachine`, with the package variable `serverIPs` as argument. -/
def IsServerMachine (serverIPs : List String) (clientIP : String) : Bool :=
  if clientIP == "127.0.0.1" || clientIP == "::1" || clientIP == "localhost" ||
      clientIP == "[::1]" then true
  else serverIPs.any (fun ip => clientIP == ip)

/-! ## `handlers.AuthHandler` (`internal/handlers/auth_handler.go`)

The handlers are embedded over the services the server wires: `auth.Service`,
`postgres.UserService` and `postgres.AuditService`.  A handler takes the bound
request (the 400 answer of a failed `ShouldBindJSON` comes before it), the request
metadata and the stored state, and returns the response and the new state.  A
request body is given as the struct it decodes to; the validation half of
`ShouldBindJSON` (the `binding` tags) is `bindLoginRequest` and
`bindRefreshRequest`.  The router installs `gin.Recovery`, so a panic inside a
handler is a 500 answer. -/

/-- What a handler invocation reads from its environment. -/
structure Env where
  /-- The instant of the invocation. -/
  now : Time
  /-- The value `uuid.New()` returns. -/
  newUUID : UUID
  /-- The identifier the database gives a new device certificate. -/
  newCertID : UUID
  /-- What `rand.Read` does for the CSRF token: octets, or `none` for an error. -/
  csrfRand : Option (List Byte)
  /-- The encoder `base64.URLEncoding.EncodeToString`. -/
  urlEncode : List Byte → String
  /-- The package variable `serverIPs` of `middleware`. -/
  serverIPs : List String
  /-- The rule `email` of the request validator. -/
  validEmail : String → Bool

/-- The struct `handlers.LoginRequest`. -/
structure LoginRequest where
  Email : String
  Password : String
  TOTPCode : String
  DeviceID : String
  DeviceFingerprint : String
  deriving DecidableEq, Repr

/-- The struct `handlers.RefreshRequest`. -/
structure RefreshRequest where
  RefreshToken : TokenString
  deriving DecidableEq, Repr

/-- The struct `handlers.LoginResponse`; a zero `time.Time` is `none`. -/
structure LoginResponse where
  User : Option User
  AccessToken : TokenString
  RefreshToken : TokenString
  ExpiresAt : Option Time
  RequiresTOTP : Bool
  RequiresPasswordChange : Bool
  RequiresMFAEnrollment : Bool
  ClientIP : String
  deriving DecidableEq, Repr

/-- The empty string as a token string. -/
def emptyToken : TokenString := .malformed ""

/-- The JSON bodies the handlers write. -/
inductive Body where
  /-- The object `{"error": msg}`. -/
  | error (msg : String)
  /-- The object `{"error": msg, "locked_until": t}`. -/
  | locked (msg : String) (lockedUntil : Option Time)
  /-- A `LoginResponse`. -/
  | login (r : LoginResponse)
  /-- The object `{"access_token", "refresh_token", "expires_at"}`. -/
  | tokens (accessToken refreshToken : TokenString) (expiresAt : Time)
  /-- The object `{"message": msg}`. -/
  | message (msg : String)
  /-- No body (the answer of `gin.Recovery`). -/
  | empty
  /-- The object `{"secret", "qr_url", "email"}`. -/
  | totpSetup (secret url email : String)
  /-- The object `{"message": msg, "backup_codes": codes}`. -/
  | backupCodes (msg : String) (codes : List String)
  /-- A `models.User`. -/
  | user (u : User)
  deriving DecidableEq, Repr

/-- An HTTP answer: status, body and cookies set (name, value). -/
structure Response where
  status : Nat
  body : Body
  cookies : List (String × String)
  deriving DecidableEq, Repr

/-- The tags `binding:"required,email"` on `Email` and `binding:"required"` on
`Password` of `LoginRequest`. -/
def bindLoginRequest (validEmail : String → Bool) (req : LoginRequest) : Bool :=
  req.Email != "" && validEmail req.Email && req.Password != ""

/-- The tag `binding:"required"` on `RefreshToken` of `RefreshRequest`. -/
def bindRefreshRequest (req : RefreshRequest) : Bool :=
  req.RefreshToken != emptyToken

/-- `AuthHandler.Login`. -/
def Login (cr : Crypto) (cfg : JWTConfig) (env : Env) (req : LoginRequest)
    (meta : RequestMetadata) (db : DB) : Response × DB :=
  if !bindLoginRequest env.validEmail req then (⟨400, .error "Invalid request", []⟩, db)
  else
  match postgres.GetByEmail db req.Email with
  | none =>
    (⟨401, .error "Invalid credentials", []⟩,
      LogLogin db uuidNil "" meta.IP meta.DeviceID meta.UserAgent false)
  | some user =>
    if (match user.LockedUntil with
        | some lockedUntil => decide (env.now < lockedUntil)
        | none => false) then
      (⟨429, .locked "Account temporarily locked due to too many failed attempts"
          user.LockedUntil, []⟩,
        AuditCreate db
          { ActorID := some user.ID, ActorRole := user.Role,
            ActionType := "login_blocked_locked", TargetType := "user",
            TargetID := some user.ID,
            Metadata := [("reason", .str "account_locked"), ("locked_until", .time user.LockedUntil)],
            IPAddress := meta.IP, DeviceID := meta.DeviceID, UserAgent := meta.UserAgent })
    else if !user.IsActive then
      (⟨401, .error "Account is disabled", []⟩, db)
    else
      match VerifyPassword cr.argon2 req.Password user.PasswordHash with
      | .panic _ => (⟨500, .empty, []⟩, db)
      | .ret false =>
        let db1 := postgres.IncrementFailedLoginAttempts db env.now user.ID 5 15
        let db2 := LogLogin db1 user.ID user.Role meta.IP meta.DeviceID meta.UserAgent false
        (⟨401, .error "Invalid credentials", []⟩, db2)
      | .ret true =>
        if user.TOTPEnabled && req.TOTPCode == "" then
          (⟨200, .login
              { User := none, AccessToken := emptyToken, RefreshToken := emptyToken,
                ExpiresAt := none, RequiresTOTP := true, RequiresPasswordChange := false,
                RequiresMFAEnrollment := false, ClientIP := "" }, []⟩, db)
        else if user.TOTPEnabled &&
            (match user.TOTPSecret with
             | none => true
             | some secret => !ValidateTOTP cr env.now secret req.TOTPCode) then
          (⟨401, .error "Invalid TOTP code", []⟩,
            postgres.IncrementFailedLoginAttempts db env.now user.ID 5 15)
        else if user.Role == RoleSuperAdmin && !IsServerMachine env.serverIPs meta.IP then
          (⟨403, .error "Login restricted: Super Admin requires local server access", []⟩,
            AuditCreate db
              { ActorID := some user.ID, ActorRole := user.Role,
                ActionType := "login_blocked_superadmin_not_localhost", TargetType := "user",
                TargetID := some user.ID,
                Metadata := [("ip", .str meta.IP), ("reason", .str "superadmin_requires_localhost")],
                IPAddress := meta.IP, DeviceID := meta.DeviceID, UserAgent := meta.UserAgent })
        else
          -- device certificate verification: the flag, the error flag, the state
          let dev : (Bool × Bool) × DB :=
            if user.Role == RoleSuperAdmin && req.DeviceFingerprint != "" then
              postgres.VerifyDeviceCertificate db env.now env.newCertID user.ID
                req.DeviceFingerprint req.DeviceID
            else ((true, false), db)
          if dev.1.2 then
            (⟨500, .error "Device verification failed", []⟩, dev.2)
          else if !dev.1.1 then
            (⟨403, .error "Device not authorized", []⟩,
              AuditCreate dev.2
                { ActorID := some user.ID, ActorRole := user.Role,
                  ActionType := "login_blocked_device_mismatch", TargetType := "user",
                  TargetID := some user.ID,
                  Metadata := [("reason", .str "device_fingerprint_mismatch"),
                    ("fingerprint", .str req.DeviceFingerprint)],
                  IPAddress := meta.IP, DeviceID := meta.DeviceID, UserAgent := meta.UserAgent })
          else
            let db1 := postgres.ResetFailedLoginAttempts dev.2 env.now user.ID
            let sessionID := env.newUUID
            match GenerateTokenPair cr cfg env.now user sessionID with
            | .error _ => (⟨500, .error "Failed to generate tokens", []⟩, db1)
            | .ok tokenPair =>
              match postgres.CreateSession db1 env.now sessionID user.ID
                  (HashToken cr tokenPair.AccessToken) (HashToken cr tokenPair.RefreshToken)
                  meta.IP req.DeviceID meta.UserAgent (tokenPair.ExpiresAt + 7 * 24 * Hour) with
              | (.error _, db2) => (⟨500, .error "Failed to create session", []⟩, db2)
              | (.ok _, db2) =>
                let db3 := postgres.UpdateLastLogin db2 env.now user.ID
                let db4 := LogLogin db3 user.ID user.Role meta.IP meta.DeviceID meta.UserAgent true
                let csrfToken := (GenerateCSRFToken env.urlEncode env.csrfRand).1
                (⟨200, .login
                    { User := some user, AccessToken := tokenPair.AccessToken,
                      RefreshToken := tokenPair.RefreshToken,
                      ExpiresAt := some tokenPair.ExpiresAt, RequiresTOTP := false,
                      RequiresPasswordChange := user.MustChangePassword,
                      RequiresMFAEnrollment := user.MustEnrollMFA && !user.TOTPEnabled,
                      ClientIP := meta.IP },
                    [("csrf_token", csrfToken)]⟩, db4)

/-- `AuthHandler.Refresh`. -/
def Refresh (cr : Crypto) (cfg : JWTConfig) (env : Env) (req : RefreshRequest)
    (meta : RequestMetadata) (db : DB) : Response × DB :=
  if !bindRefreshRequest req then (⟨400, .error "Invalid request", []⟩, db)
  else
  match ValidateRefreshToken cr cfg env.now req.RefreshToken with
  | .error _ => (⟨401, .error "Invalid refresh token", []⟩, db)
  | .ok claims =>
    let providedTokenHash := HashToken cr req.RefreshToken
    match postgres.ValidateRefreshTokenHash db claims.SessionID providedTokenHash with
    | (false, some _) =>
      let db1 := postgres.InvalidateSession db claims.SessionID
      let db2 := AuditCreate db1
        { ActorID := some claims.UserID, ActorRole := "system",
          ActionType := "refresh_token_reuse_detected", TargetType := "session",
          TargetID := some claims.SessionID,
          Metadata := [("reason", .str "potential_token_theft")],
          IPAddress := meta.IP, DeviceID := meta.DeviceID, UserAgent := meta.UserAgent }
      (⟨401, .error "Session expired or token reused", []⟩, db2)
    | (false, none) => (⟨401, .error "Session expired or token reused", []⟩, db)
    | (true, session) =>
      let db1 :=
        match session with
        | some s =>
          if s.IPAddress ≠ meta.IP then
            AuditCreate db
              { ActorID := some claims.UserID, ActorRole := "system",
                ActionType := "session_ip_mismatch", TargetType := "session",
                TargetID := some claims.SessionID,
                Metadata := [("original_ip", .str s.IPAddress), ("current_ip", .str meta.IP)],
                IPAddress := meta.IP, DeviceID := meta.DeviceID, UserAgent := meta.UserAgent }
          else db
        | none => db
      match postgres.GetByID db1 claims.UserID with
      | none => (⟨401, .error "User not found", []⟩, db1)
      | some user =>
        if !user.IsActive then (⟨401, .error "User not found", []⟩, db1)
        else
          match GenerateTokenPair cr cfg env.now user claims.SessionID with
          | .error _ => (⟨500, .error "Failed to generate tokens", []⟩, db1)
          | .ok tokenPair =>
            let db2 := postgres.RotateRefreshToken db1 env.now claims.SessionID
              (HashToken cr tokenPair.RefreshToken)
            (⟨200, .tokens tokenPair.AccessToken tokenPair.RefreshToken tokenPair.ExpiresAt, []⟩,
              db2)

/-! ## Device certificates of the SQLite sibling, `Authenticate`, `Logout` -/

namespace sqlite

/-- `UserService.VerifyDeviceCertificate` of the SQLite service: the flag, whether an
error is returned, and the new state.  The schema in `internal/db/sqlite.go`
declares `UNIQUE(user_id, fingerprint)`, so the insert fails when the user
already has a row with the fingerprint.  A mismatch returns `false` with a nil
error, and the update of `last_used_at` selects rows by fingerprint alone. -/
def VerifyDeviceCertificate (db : DB) (now : Time) (certID userID : UUID)
    (fingerprint deviceID : String) : (Bool × Bool) × DB :=
  if fingerprint == "" then ((false, true), db)
  else
    let count :=
      (db.deviceCertificates.filter (fun c => c.UserID == userID && c.RevokedAt.isNone)).length
    if count == 0 then
      let machineID := if deviceID == "" then fingerprint else deviceID
      if db.deviceCertificates.any (fun c => c.UserID == userID && c.Fingerprint == fingerprint)
      then ((false, true), db)
      else
        ((true, false),
          { db with deviceCertificates := db.deviceCertificates ++
              [{ ID := certID, UserID := userID, Fingerprint := fingerprint,
                 MachineID := machineID, OSInfo := "", CreatedAt := storedTime now,
                 LastUsedAt := none, RevokedAt := none }] })
    else
      let matching :=
        (db.deviceCertificates.filter
          (fun c => c.UserID == userID && c.Fingerprint == fingerprint && c.RevokedAt.isNone)).length
      if matching > 0 then
        ((true, false),
          { db with deviceCertificates := db.deviceCertificates.map (fun c =>
              if c.Fingerprint = fingerprint then { c with LastUsedAt := some (storedTime now) }
              else c) })
      else ((false, false), db)

end sqlite

def ActionLogout : String := "logout"

/-- `AuditService.LogLogout`. -/
def LogLogout (db : DB) (userID : UUID) (role ip deviceID userAgent : String) : DB :=
  AuditCreate db
    { ActorID := some userID, ActorRole := role, ActionType := ActionLogout, TargetType := "user",
      TargetID := some userID, Metadata := [], IPAddress := ip, DeviceID := deviceID,
      UserAgent := userAgent }

/-- `UserService.UpdateSessionActivity` of the PostgreSQL service. -/
def postgres.UpdateSessionActivity (db : DB) (now : Time) (sessionID : UUID) : DB :=
  { db with sessions :=
      db.sessions.map (fun s => if s.ID = sessionID then { s with LastActivity := now } else s) }

/-- The header `Authorization` as `strings.SplitN(authHeader, " ", 2)` sees it: empty,
without a space, or a scheme and the rest after the first space. -/
inductive AuthorizationHeader where
  | absent
  | single (value : String)
  | pair (scheme : String) (rest : TokenString)
  deriving DecidableEq, Repr

/-- What `Authenticate` reads of a request: the header and the query parameter
`token` (the empty string when absent). -/
structure AuthRequest where
  authorization : AuthorizationHeader
  queryToken : TokenString
  deriving DecidableEq, Repr

/-- The values the middleware chain has set in the gin context under
`UserContextKey` and `ClaimsContextKey`. -/
structure Context where
  user : Option User
  claims : Option TokenClaims
  deriving DecidableEq, Repr

/-- The context of a request no middleware has written to. -/
def emptyContext : Context := { user := none, claims := none }

/-- The token string `Authenticate` extracts: the bearer token of the header, else
the query parameter. -/
def presentedToken (req : AuthRequest) : TokenString :=
  let tokenString :=
    match req.authorization with
    | .pair scheme rest => if scheme == "Bearer" then rest else emptyToken
    | _ => emptyToken
  if tokenString == emptyToken then req.queryToken else tokenString

/-- `AuthMiddleware.Authenticate` over the PostgreSQL service: `.error` is the answer
written before `c.Abort()`, `.ok` the user and claims set in the context before
`c.Next()`. -/
def Authenticate (cr : Crypto) (cfg : JWTConfig) (now : Time) (req : AuthRequest) (db : DB) :
    Except Response (User × TokenClaims) × DB :=
  let tokenString := presentedToken req
  if tokenString == emptyToken then
    (.error ⟨401, .error "Authorization header or token query parameter required", []⟩, db)
  else
    match ValidateAccessToken cr cfg now tokenString with
    | .error err =>
      if err = .ErrTokenExpired then (.error ⟨401, .error "Token expired", []⟩, db)
      else (.error ⟨401, .error "Invalid token", []⟩, db)
    | .ok claims =>
      if !postgres.IsSessionValid db now claims.SessionID then
        (.error ⟨401, .error "Session expired or invalid", []⟩, db)
      else
        let db1 := postgres.UpdateSessionActivity db now claims.SessionID
        match postgres.GetByID db1 claims.UserID with
        | none => (.error ⟨401, .error "User not found or inactive", []⟩, db1)
        | some user =>
          if !user.IsActive then (.error ⟨401, .error "User not found or inactive", []⟩, db1)
          else (.ok (user, claims), db1)

/-- `AuthHandler.Logout`, given what `GetClaims` and `GetUser` find in the context. -/
def Logout (ctx : Context) (meta : RequestMetadata) (db : DB) : Response × DB :=
  let db1 :=
    match ctx.claims with
    | some claims => postgres.InvalidateSession db claims.SessionID
    | none => db
  let db2 :=
    match ctx.user with
    | some user => LogLogout db1 user.ID user.Role meta.IP meta.DeviceID meta.UserAgent
    | none => db1
  (⟨200, .message "Logged out successfully", []⟩, db2)

/-- A route registered as `rg.POST(path, authMiddleware.Authenticate(), handler)`:
the handler runs only when `Authenticate` did not abort, on the context it set. -/
def authenticatedRoute (cr : Crypto) (cfg : JWTConfig) (now : Time) (req : AuthRequest)
    (handler : Context → DB → Response × DB) (db : DB) : Response × DB :=
  match Authenticate cr cfg now req db with
  | (.error resp, db1) => (resp, db1)
  | (.ok (user, claims), db1) => handler { user := some user, claims := some claims } db1

/-- The route `POST /auth/logout` as `setupRoutes` registers it,
`auth.POST("/logout", authHandler.Logout)`: the chain holds the global
middleware (security headers, CORS, request id, logger, rate limit), none of
which writes user or claims, and then `Logout`; whatever token the request
carries is not read. -/
def logoutRoute (_req : AuthRequest) (meta : RequestMetadata) (db : DB) : Response × DB :=
  Logout emptyContext meta db

/-! ## Stand-ins for evaluating the code on concrete inputs -/

/-- A stand-in derivation for evaluating the code on concrete inputs: the key is
`L` copies of one octet computed from the inputs. -/
def toyArgon2 : Argon2 where
  derive pw salt t m p L :=
    List.replicate L (toByte (pw.length + salt.length + t + m + p))
  length_derive := by intros; simp

/-- Stand-in primitives: the signature is one octet computed from the key, the
user, the session and the issue instant; the token hash spells out the session
and the claimed instants. -/
def toyCrypto : Crypto where
  argon2 := toyArgon2
  hmac alg key input :=
    [toByte (alg.length + key.length + input.2.UserID + input.2.SessionID)]
  sha256Hex tok :=
    match tok with
    | .jws _ claims _ =>
      String.mk (Nat.toDigits 10 claims.SessionID ++ ['-'] ++
        Nat.toDigits 10 ((claims.Registered.IssuedAt.getD 0).toNat) ++ ['-'] ++
        Nat.toDigits 10 ((claims.Registered.ExpiresAt.getD 0).toNat) ++ ['-'] ++
        claims.Role.toList)
    | .malformed raw => raw
  totpValidate code secret _ := code == secret

/-- A configuration with the default expiries of `config.Load`. -/
def exampleConfig : JWTConfig :=
  { AccessSecret := "access-secret", RefreshSecret := "refresh-secret-2",
    AccessExpiry := 15 * Minute, RefreshExpiry := 7 * 24 * Hour }

/-- The password hash of `exampleUser`: password `"pw"` under `toyArgon2`, salt `"salt"`. -/
def exampleHash : String :=
  encodeHash 65536 1 4 (EncodeToString [toByte 115, toByte 97, toByte 108, toByte 116])
    (EncodeToString (toyArgon2.derive "pw" [toByte 115, toByte 97, toByte 108, toByte 116]
      1 65536 4 32))

/-- An active, unlocked account with role `user`. -/
def exampleUser : User :=
  { ID := 1, Email := "user@x.com", PasswordHash := exampleHash, FullName := "U", Mobile := "",
    Role := RoleUser, IsActive := true, CreatedAt := 0, UpdatedAt := 0, LastLogin := none,
    TOTPSecret := none, TOTPEnabled := false, BackupCodes := [], FailedLoginAttempts := 0,
    LockedUntil := none, MustChangePassword := false, MustEnrollMFA := false }

/-- A request environment at instant `now`. -/
def exampleEnv (now : Time) : Env :=
  { now := now, newUUID := 7, newCertID := 8, csrfRand := some [], urlEncode := fun _ => "csrf",
    serverIPs := [], validEmail := fun e => e.toList.contains '@' }

/-- Request metadata of a client at 10.0.0.5. -/
def exampleMeta : RequestMetadata := { IP := "10.0.0.5", DeviceID := "dev", UserAgent := "ua" }

/-- A store holding `exampleUser` and nothing else. -/
def exampleDB : DB :=
  { users := [exampleUser], sessions := [], deviceCertificates := [], auditLogs := [] }

/-- One login request as the handler sees it. -/
structure Attempt where
  env : Env
  req : LoginRequest
  meta : RequestMetadata

/-- Handling a sequence of login requests one after the other; the stored state
after the last. -/
def runLogins (cr : Crypto) (cfg : JWTConfig) (db : DB) : List Attempt → DB
  | [] => db
  | a :: rest => runLogins cr cfg (Login cr cfg a.env a.req a.meta db).2 rest

/-- Claims of a refresh token for session 7 of `exampleUser`, issued at 1 s. -/
def exampleRefreshClaims : TokenClaims :=
  { UserID := 1, Email := "", Role := "", SessionID := 7,
    Registered :=
      { ExpiresAt := some 604801000000000, IssuedAt := some 1000000000, NotBefore := none,
        Issuer := "srams", Subject := "1" } }

/-- A refresh token signed with the refresh secret of `exampleConfig`. -/
def exampleRefreshToken : TokenString :=
  SignedString toyCrypto exampleRefreshClaims exampleConfig.RefreshSecret

/-- An active, unexpired session 7 whose stored refresh hash is not that of
`exampleRefreshToken`. -/
def exampleSession : Session :=
  { ID := 7, UserID := 1, TokenHash := "t", RefreshTokenHash := "superseded",
    IPAddress := "10.0.0.5", DeviceFingerprint := "", UserAgent := "ua", CreatedAt := 0,
    ExpiresAt := 604801000000000, LastActivity := 0, IsActive := true }

/-- A store holding `exampleUser` and `exampleSession`. -/
def exampleSessionDB : DB :=
  { users := [exampleUser], sessions := [exampleSession], deviceCertificates := [],
    auditLogs := [] }

/-- A login attempt on `exampleUser` with the wrong password `"bad"` at `now`. -/
def wrongAttempt (now : Time) : Attempt :=
  { env := exampleEnv now, req := ⟨"user@x.com", "bad", "", "", ""⟩, meta := exampleMeta }

/-- A login attempt on `exampleUser` with the right password `"pw"` at `now`. -/
def rightAttempt (now : Time) : Attempt :=
  { env := exampleEnv now, req := ⟨"user@x.com", "pw", "", "", ""⟩, meta := exampleMeta }

/-- Five wrong-password attempts on `exampleUser`, at 1 s, 2 s, 3 s, 4 s and 5 s. -/
def fiveWrongAttempts : List Attempt :=
  [wrongAttempt 1000000000, wrongAttempt 2000000000, wrongAttempt 3000000000,
    wrongAttempt 4000000000, wrongAttempt 5000000000]

/-- The refresh token a response body carries, if any. -/
def Body.refreshToken : Body → TokenString
  | .login r => r.RefreshToken
  | .tokens _ refreshToken _ => refreshToken
  | _ => emptyToken

/-- Handling a refresh request for `token` at instant `now` from the client of
`exampleMeta`, with the stand-in primitives and `exampleConfig`. -/
def refreshAt (now : Time) (token : TokenString) (db : DB) : Response × DB :=
  Refresh toyCrypto exampleConfig (exampleEnv now) ⟨token⟩ exampleMeta db

/-- `exampleUser` logs in at 1.5 s with the right password; session 7 is created. -/
def afterLogin : Response × DB :=
  Login toyCrypto exampleConfig (exampleEnv 1500000000) (rightAttempt 1500000000).req exampleMeta
    exampleDB

/-- The refresh token `T1` issued by the login of `afterLogin`. -/
def tokenT1 : TokenString := afterLogin.1.body.refreshToken

/-- `T1` is refreshed at 3.5 s. -/
def afterRefresh : Response × DB := refreshAt 3500000000 tokenT1 afterLogin.2

/-- The refresh token `T2` issued by the refresh of `afterRefresh`. -/
def tokenT2 : TokenString := afterRefresh.1.body.refreshToken

/-- `T1` is replayed at 5 s. -/
def afterReplay : Response × DB := refreshAt 5000000000 tokenT1 afterRefresh.2

/-- `T1` is refreshed at 1.8 s, within the second in which it was issued. -/
def afterQuickRefresh : Response × DB := refreshAt 1800000000 tokenT1 afterLogin.2

/-- An active super_admin account with the password hash of `exampleUser`. -/
def exampleAdmin : User :=
  { exampleUser with ID := 2, Email := "root@x.com", Role := RoleSuperAdmin }

/-- An unrevoked certificate of `exampleAdmin` with fingerprint `F1`. -/
def certF1 : DeviceCertificate :=
  { ID := 20, UserID := 2, Fingerprint := "F1", MachineID := "m1", OSInfo := "", CreatedAt := 0,
    LastUsedAt := none, RevokedAt := none }

/-- A store holding `exampleAdmin` and its certificate `certF1`. -/
def exampleAdminDB : DB :=
  { users := [exampleAdmin], sessions := [], deviceCertificates := [certF1], auditLogs := [] }

/-- The store `exampleAdminDB` after `certF1` was revoked at 5 s. -/
def revokedAdminDB : DB :=
  { exampleAdminDB with deviceCertificates := [{ certF1 with RevokedAt := some 5000000000 }] }

/-- Request metadata of a client on the server machine. -/
def localMeta : RequestMetadata := { IP := "127.0.0.1", DeviceID := "dev", UserAgent := "ua" }

/-- A login request of `exampleAdmin` with the right password, presenting `fingerprint`. -/
def adminRequest (fingerprint : String) : LoginRequest :=
  ⟨"root@x.com", "pw", "", "dev", fingerprint⟩

/-- An active account with TOTP enabled and the password hash of `exampleUser`. -/
def totpUser : User :=
  { exampleUser with ID := 3, Email := "totp@x.com", TOTPEnabled := true, TOTPSecret := some "s" }

/-- A store holding `totpUser` and nothing else. -/
def totpDB : DB :=
  { users := [totpUser], sessions := [], deviceCertificates := [], auditLogs := [] }

/-- The access token a response body carries, if any. -/
def Body.accessToken : Body → TokenString
  | .login r => r.AccessToken
  | .tokens accessToken _ _ => accessToken
  | _ => emptyToken

/-- A logout request carrying, as bearer token, the access token issued by the
login of `afterLogin`. -/
def logoutRequest : AuthRequest :=
  { authorization := .pair "Bearer" afterLogin.1.body.accessToken, queryToken := emptyToken }

/-- The claims of the access token issued by the login of `afterLogin`. -/
def exampleAccessClaims : TokenClaims :=
  { UserID := 1, Email := "user@x.com", Role := "user", SessionID := 7,
    Registered :=
      { ExpiresAt := some 901000000000, IssuedAt := some 1000000000,
        NotBefore := some 1000000000, Issuer := "srams", Subject := "1" } }

/-! ## TOTP enrolment (`internal/auth/auth.go`, `internal/handlers/auth_handler.go`) -/

/-- The table `hextable` of `encoding/hex`. -/
def hextable : List Char := "0123456789abcdef".toList

/-- `hex.EncodeToString`, as a list of characters. -/
def hexEncode : List Byte → List Char
  | [] => []
  | b :: bs => hextable.getD (b.val / 16) '0' :: hextable.getD (b.val % 16) '0' :: hexEncode bs

/-- `Service.GenerateTOTPSecret`: `generate` is what `totp.Generate` produced for the
account name, the secret and the URL of the key, or `none` for an error. -/
def GenerateTOTPSecret (generate : String → Option (String × String)) (email : String) :
    Except String (String × String) :=
  match generate email with
  | none => .error "failed to generate TOTP"
  | some (secret, url) => .ok (secret, url)

/-- The loop of `Service.GenerateBackupCodes` from index `i` with `remaining` codes to
go; `rnd i` is what the `i`-th `rand.Read` did to its 4-byte buffer. -/
def backupCodesFrom (rnd : Nat → Option (List Byte)) (i : Nat) : (remaining : Nat) →
    Option (List String)
  | 0 => some []
  | remaining + 1 =>
    match rnd i with
    | none => none
    | some bytes =>
      match backupCodesFrom rnd (i + 1) remaining with
      | none => none
      | some rest => some (String.mk (hexEncode bytes) :: rest)

/-- `Service.GenerateBackupCodes`; `none` is the error return. -/
def GenerateBackupCodes (rnd : Nat → Option (List Byte)) (count : Nat) : Option (List String) :=
  backupCodesFrom rnd 0 count

/-- `UserService.SetTOTPSecret` of the PostgreSQL service. -/
def postgres.SetTOTPSecret (db : DB) (now : Time) (userID : UUID) (secret : String) : DB :=
  { db with users := db.users.map (fun u =>
      if u.ID = userID then { u with TOTPSecret := some secret, UpdatedAt := now } else u) }

/-- `UserService.StoreBackupCodes` of the PostgreSQL service. -/
def postgres.StoreBackupCodes (db : DB) (now : Time) (userID : UUID) (codes : List String) : DB :=
  { db with users := db.users.map (fun u =>
      if u.ID = userID then { u with BackupCodes := codes, UpdatedAt := now } else u) }

/-- `UserService.EnableTOTP` of the PostgreSQL service. -/
def postgres.EnableTOTP (db : DB) (now : Time) (userID : UUID) : DB :=
  { db with users := db.users.map (fun u =>
      if u.ID = userID then
        { u with TOTPEnabled := true, MustEnrollMFA := false, UpdatedAt := now }
      else u) }

/-- `AuthHandler.SetupTOTP`, given what `GetUser` finds in the context.  Without a
user the handler dereferences nil, which `gin.Recovery` answers with 500. -/
def SetupTOTP (generate : String → Option (String × String)) (ctx : Context) (db : DB) :
    Response × DB :=
  match ctx.user with
  | none => (⟨500, .empty, []⟩, db)
  | some user =>
    if user.TOTPEnabled then (⟨400, .error "TOTP already enabled", []⟩, db)
    else
      match GenerateTOTPSecret generate user.Email with
      | .error _ => (⟨500, .error "Failed to generate TOTP", []⟩, db)
      | .ok (secret, url) => (⟨200, .totpSetup secret url user.Email, []⟩, db)

/-- The struct `handlers.EnableTOTPRequest`. -/
structure EnableTOTPRequest where
  Secret : String
  Code : String
  deriving DecidableEq, Repr

/-- The tags `binding:"required"` on both fields of `EnableTOTPRequest`. -/
def bindEnableTOTPRequest (req : EnableTOTPRequest) : Bool :=
  req.Secret != "" && req.Code != ""

/-- `AuthHandler.EnableTOTP`, given what `GetUser` finds in the context; `rnd` is what
`rand.Read` does for the backup codes. -/
def EnableTOTP (cr : Crypto) (now : Time) (rnd : Nat → Option (List Byte))
    (req : EnableTOTPRequest) (ctx : Context) (db : DB) : Response × DB :=
  if !bindEnableTOTPRequest req then (⟨400, .error "Invalid request", []⟩, db)
  else if !ValidateTOTP cr now req.Secret req.Code then (⟨400, .error "Invalid code", []⟩, db)
  else
    match GenerateBackupCodes rnd 10 with
    | none => (⟨500, .error "Failed to generate backup codes", []⟩, db)
    | some codes =>
      match ctx.user with
      | none => (⟨500, .empty, []⟩, db)
      | some user =>
        let db1 := postgres.SetTOTPSecret db now user.ID req.Secret
        let db2 := postgres.StoreBackupCodes db1 now user.ID codes
        let db3 := postgres.EnableTOTP db2 now user.ID
        (⟨200, .backupCodes "TOTP enabled" codes, []⟩, db3)

/-- The route `GET /auth/totp/setup`, registered behind `Authenticate`. -/
def setupTOTPRoute (cr : Crypto) (cfg : JWTConfig) (now : Time)
    (generate : String → Option (String × String)) (areq : AuthRequest) (db : DB) :
    Response × DB :=
  authenticatedRoute cr cfg now areq (fun ctx db1 => SetupTOTP generate ctx db1) db

/-- The route `POST /auth/totp/enable`, registered behind `Authenticate`. -/
def enableTOTPRoute (cr : Crypto) (cfg : JWTConfig) (now : Time)
    (rnd : Nat → Option (List Byte)) (areq : AuthRequest) (req : EnableTOTPRequest) (db : DB) :
    Response × DB :=
  authenticatedRoute cr cfg now areq (fun ctx db1 => EnableTOTP cr now rnd req ctx db1) db

/-! ## Password change and user creation
(`internal/handlers/auth_handler.go`, `internal/handlers/user_handler.go`,
`internal/db/postgres/user_service.go`) -/

/-- The Go error values that reach a comparison in the handlers.  A value made by
`errors.New` or `fmt.Errorf` at the point of return is `made`: it is equal to
no package-level sentinel. -/
inductive GoError where
  /-- The sentinel `auth.ErrInvalidCredentials`. -/
  | authErrInvalidCredentials
  /-- The sentinel `postgres.ErrUserNotFound`. -/
  | ErrUserNotFound
  /-- The sentinel `postgres.ErrEmailExists`. -/
  | ErrEmailExists
  /-- The sentinel `postgres.ErrInvalidRole`. -/
  | ErrInvalidRole
  | made (msg : String)
  deriving DecidableEq, Repr

/-- The method `Error()` of an error value. -/
def GoError.Error : GoError → String
  | .authErrInvalidCredentials => "invalid credentials"
  | .ErrUserNotFound => "user not found"
  | .ErrEmailExists => "email already exists"
  | .ErrInvalidRole => "invalid role"
  | .made msg => msg

def ActionPasswordChange : String := "password_change"
def ActionUserCreate : String := "user_create"

namespace postgres

/-- `UserService.ChangePassword`: the error returned, if any, and the new state;
`saltRand` is what `rand.Read` does for the salt of the new hash. -/
def ChangePassword (kdf : Argon2) (db : DB) (now : Time) (saltRand : Option (List Byte))
    (id : UUID) (oldPassword newPassword : String) : Run (Option GoError × DB) :=
  match GetByID db id with
  | none => .ret (some .ErrUserNotFound, db)
  | some user =>
    match VerifyPassword kdf oldPassword user.PasswordHash with
    | .panic msg => .panic msg
    | .ret false => .ret (some (.made "current password is incorrect"), db)
    | .ret true =>
      match HashPassword kdf saltRand newPassword with
      | .panic msg => .panic msg
      | .ret (.error e) => .ret (some (.made ("failed to hash password: " ++ e)), db)
      | .ret (.ok passwordHash) =>
        .ret (none,
          { db with users := db.users.map (fun u =>
              if u.ID = id then
                { u with PasswordHash := passwordHash, MustChangePassword := false,
                         UpdatedAt := now }
              else u) })

/-- `UserService.InvalidateAllSessions`. -/
def InvalidateAllSessions (db : DB) (userID : UUID) : DB :=
  { db with sessions :=
      db.sessions.map (fun s => if s.UserID = userID then { s with IsActive := false } else s) }

/-- `UserService.InvalidateAllSessionsExcept`. -/
def InvalidateAllSessionsExcept (db : DB) (userID exceptSessionID : UUID) : DB :=
  { db with sessions :=
      db.sessions.map (fun s =>
        if s.UserID = userID ∧ s.ID ≠ exceptSessionID then { s with IsActive := false } else s) }

end postgres

/-- The struct `handlers.ChangePasswordRequest`. -/
structure ChangePasswordRequest where
  CurrentPassword : String
  NewPassword : String
  deriving DecidableEq, Repr

/-- The tags `binding:"required"` on `CurrentPassword` and `binding:"required,min=8"`
on `NewPassword`. -/
def bindChangePasswordRequest (req : ChangePasswordRequest) : Bool :=
  req.CurrentPassword != "" && req.NewPassword != "" && decide (8 ≤ req.NewPassword.length)

/-- `AuthHandler.ChangePassword`, given what `GetUser` and `GetClaims` find in the
context. -/
def ChangePassword (cr : Crypto) (now : Time) (saltRand : Option (List Byte))
    (req : ChangePasswordRequest) (ctx : Context) (meta : RequestMetadata) (db : DB) :
    Response × DB :=
  if !bindChangePasswordRequest req then (⟨400, .error "Invalid request", []⟩, db)
  else
    match ctx.user with
    | none => (⟨500, .empty, []⟩, db)
    | some user =>
      match postgres.ChangePassword cr.argon2 db now saltRand user.ID req.CurrentPassword
          req.NewPassword with
      | .panic _ => (⟨500, .empty, []⟩, db)
      | .ret (some err, db1) =>
        if err = .authErrInvalidCredentials then
          (⟨400, .error "Current password is incorrect", []⟩, db1)
        else (⟨500, .error "Failed to change password", []⟩, db1)
      | .ret (none, db1) =>
        let db2 := AuditCreate db1
          { ActorID := some user.ID, ActorRole := user.Role, ActionType := ActionPasswordChange,
            TargetType := "user", TargetID := some user.ID, Metadata := [],
            IPAddress := meta.IP, DeviceID := meta.DeviceID, UserAgent := meta.UserAgent }
        let db3 :=
          match ctx.claims with
          | some claims => postgres.InvalidateAllSessionsExcept db2 user.ID claims.SessionID
          | none => postgres.InvalidateAllSessions db2 user.ID
        (⟨200, .message "Password changed successfully", []⟩, db3)

/-- The route `POST /auth/change-password`, registered behind `Authenticate`. -/
def changePasswordRoute (cr : Crypto) (cfg : JWTConfig) (now : Time)
    (saltRand : Option (List Byte)) (areq : AuthRequest) (req : ChangePasswordRequest)
    (meta : RequestMetadata) (db : DB) : Response × DB :=
  authenticatedRoute cr cfg now areq
    (fun ctx db1 => ChangePassword cr now saltRand req ctx meta db1) db

/-- The struct `models.CreateUserInput`. -/
structure CreateUserInput where
  Email : String
  Password : String
  FullName : String
  Mobile : String
  Role : String
  MustChangePassword : Bool
  MustEnrollMFA : Bool
  deriving DecidableEq, Repr

/-- The `binding` tags of `CreateUserInput`: `required,email` on `Email`,
`required,min=8` on `Password`, `required` on `FullName` and on `Role`. -/
def bindCreateUserInput (validEmail : String → Bool) (req : CreateUserInput) : Bool :=
  req.Email != "" && validEmail req.Email && req.Password != "" &&
    decide (8 ≤ req.Password.length) && req.FullName != "" && req.Role != ""

/-- The zero value of `time.Time`, 1 January of year 1. -/
def zeroTime : Time := -62135596800 * Second

/-- `UserService.Create` of the PostgreSQL service: the user returned or the error,
and the new state.  `newID` is the value of `uuid.New()`.  The migration
declaring `srams.users` is not among the sources; as in the schema of
`internal/db/sqlite.go`, `id` is taken to be the primary key and the columns not
named in the insert to take their defaults. -/
def postgres.Create (kdf : Argon2) (db : DB) (now : Time) (saltRand : Option (List Byte))
    (newID : UUID) (input : CreateUserInput) (_createdBy : UUID) :
    Run (Except GoError User × DB) :=
  if input.Role ≠ RoleUser ∧ input.Role ≠ RoleAdmin ∧ input.Role ≠ RoleSuperAdmin then
    .ret (.error .ErrInvalidRole, db)
  else if (db.users.filter (fun u => u.Email == input.Email)).length > 0 then
    .ret (.error .ErrEmailExists, db)
  else if input.Mobile ≠ "" ∧ (db.users.filter (fun u => u.Mobile == input.Mobile)).length > 0 then
    .ret (.error (.made "mobile number already exists"), db)
  else
    match HashPassword kdf saltRand input.Password with
    | .panic msg => .panic msg
    | .ret (.error e) => .ret (.error (.made ("failed to hash password: " ++ e)), db)
    | .ret (.ok passwordHash) =>
      let user : User :=
        { ID := newID, Email := input.Email, PasswordHash := "", FullName := input.FullName,
          Mobile := input.Mobile, Role := input.Role, IsActive := true, CreatedAt := zeroTime,
          UpdatedAt := zeroTime, LastLogin := none, TOTPSecret := none, TOTPEnabled := false,
          BackupCodes := [], FailedLoginAttempts := 0, LockedUntil := none,
          MustChangePassword := input.MustChangePassword, MustEnrollMFA := input.MustEnrollMFA }
      if db.users.any (fun u => u.ID == newID) then
        .ret (.error (.made "failed to create user"), db)
      else
        .ret (.ok user,
          { db with users := db.users ++
              [{ user with PasswordHash := passwordHash, CreatedAt := now, UpdatedAt := now }] })

/-- `middleware.RequireRole(roles...)`: the answer written before `c.Abort()`, or
`none` when the chain continues. -/
def RequireRole (roles : List String) (ctx : Context) : Option Response :=
  match ctx.user with
  | none => some ⟨401, .error "Not authenticated", []⟩
  | some userModel =>
    let hasRole := roles.any (fun role => userModel.Role == role)
    let hasRole := if userModel.Role == RoleSuperAdmin then true else hasRole
    if !hasRole then some ⟨403, .error "Insufficient permissions", []⟩ else none

/-- `UserHandler.Create` over the PostgreSQL service, given what `GetUser` finds in
the context.  The body of the 400 answer also carries the validator's message,
which is left out. -/
def UserHandler.Create (cr : Crypto) (now : Time) (validEmail : String → Bool)
    (saltRand : Option (List Byte)) (newID : UUID) (req : CreateUserInput) (ctx : Context)
    (meta : RequestMetadata) (db : DB) : Response × DB :=
  if !bindCreateUserInput validEmail req then (⟨400, .error "Invalid request", []⟩, db)
  else
    match ctx.user with
    | none => (⟨500, .empty, []⟩, db)
    | some currentUser =>
      if currentUser.Role == RoleUser then (⟨403, .error "Insufficient permissions", []⟩, db)
      else if req.Role == RoleAdmin && currentUser.Role != RoleSuperAdmin then
        (⟨403, .error "Only super admin can create admins", []⟩, db)
      else
        match postgres.Create cr.argon2 db now saltRand newID req currentUser.ID with
        | .panic _ => (⟨500, .empty, []⟩, db)
        | .ret (.error err, db1) =>
          if err.Error == "email already exists" then
            (⟨409, .error "Email already exists", []⟩, db1)
          else if err.Error == "mobile number already exists" then
            (⟨409, .error "Mobile number already exists", []⟩, db1)
          else (⟨500, .error "Failed to create user", []⟩, db1)
        | .ret (.ok user, db1) =>
          let db2 := AuditCreate db1
            { ActorID := some currentUser.ID, ActorRole := currentUser.Role,
              ActionType := ActionUserCreate, TargetType := "user", TargetID := some user.ID,
              Metadata := [("email", .str user.Email), ("role", .str user.Role)],
              IPAddress := meta.IP, DeviceID := meta.DeviceID, UserAgent := meta.UserAgent }
          (⟨201, .user user, []⟩, db2)

/-- The route `POST /users` as `setupRoutes` registers it: `Authenticate` for the
group, then `RequireRole("admin", "super_admin")`, then `UserHandler.Create`. -/
def createUserRoute (cr : Crypto) (cfg : JWTConfig) (now : Time) (validEmail : String → Bool)
    (saltRand : Option (List Byte)) (newID : UUID) (areq : AuthRequest) (req : CreateUserInput)
    (meta : RequestMetadata) (db : DB) : Response × DB :=
  authenticatedRoute cr cfg now areq
    (fun ctx db1 =>
      match RequireRole ["admin", "super_admin"] ctx with
      | some resp => (resp, db1)
      | none => UserHandler.Create cr now validEmail saltRand newID req ctx meta db1) db

/-! ## Revocation of a device certificate (`internal/db/postgres/system_service.go`) -/

/-- `SystemService.RevokeDeviceCertificate`: every row with the fingerprint gets
`revoked_at = NOW()`.  The column `revoked_by` is not read by the
authentication core and is left out of `DeviceCertificate`. -/
def postgres.RevokeDeviceCertificate (db : DB) (now : Time) (fingerprint : String)
    (_revokedBy : UUID) : DB :=
  { db with deviceCertificates := db.deviceCertificates.map (fun c =>
      if c.Fingerprint = fingerprint then { c with RevokedAt := some now } else c) }

/-! ## `AuthHandler.Refresh` as two steps

The handler issues its storage statements one at a time, outside any
transaction: the reads `ValidateRefreshTokenHash` and `GetByID` come first, the
update `RotateRefreshToken` last.  `RefreshValidate` is the handler up to and
including `GenerateTokenPair`, `RefreshRotate` the rest; a second request can be
served between the two. -/

/-- What `Refresh` holds between its reads and its update: the session of the
claims and the token pair it is about to answer with. -/
structure PendingRefresh where
  sessionID : UUID
  tokenPair : TokenPair
  deriving DecidableEq, Repr

/-- The statements of `AuthHandler.Refresh` before `RotateRefreshToken`: `.error` is an
answer already written, `.ok` what the rest of the handler works with. -/
def RefreshValidate (cr : Crypto) (cfg : JWTConfig) (env : Env) (req : RefreshRequest)
    (meta : RequestMetadata) (db : DB) : Except Response PendingRefresh × DB :=
  if !bindRefreshRequest req then (.error ⟨400, .error "Invalid request", []⟩, db)
  else
  match ValidateRefreshToken cr cfg env.now req.RefreshToken with
  | .error _ => (.error ⟨401, .error "Invalid refresh token", []⟩, db)
  | .ok claims =>
    let providedTokenHash := HashToken cr req.RefreshToken
    match postgres.ValidateRefreshTokenHash db claims.SessionID providedTokenHash with
    | (false, some _) =>
      let db1 := postgres.InvalidateSession db claims.SessionID
      let db2 := AuditCreate db1
        { ActorID := some claims.UserID, ActorRole := "system",
          ActionType := "refresh_token_reuse_detected", TargetType := "session",
          TargetID := some claims.SessionID,
          Metadata := [("reason", .str "potential_token_theft")],
          IPAddress := meta.IP, DeviceID := meta.DeviceID, UserAgent := meta.UserAgent }
      (.error ⟨401, .error "Session expired or token reused", []⟩, db2)
    | (false, none) => (.error ⟨401, .error "Session expired or token reused", []⟩, db)
    | (true, session) =>
      let db1 :=
        match session with
        | some s =>
          if s.IPAddress ≠ meta.IP then
            AuditCreate db
              { ActorID := some claims.UserID, ActorRole := "system",
                ActionType := "session_ip_mismatch", TargetType := "session",
                TargetID := some claims.SessionID,
                Metadata := [("original_ip", .str s.IPAddress), ("current_ip", .str meta.IP)],
                IPAddress := meta.IP, DeviceID := meta.DeviceID, UserAgent := meta.UserAgent }
          else db
        | none => db
      match postgres.GetByID db1 claims.UserID with
      | none => (.error ⟨401, .error "User not found", []⟩, db1)
      | some user =>
        if !user.IsActive then (.error ⟨401, .error "User not found", []⟩, db1)
        else
          match GenerateTokenPair cr cfg env.now user claims.SessionID with
          | .error _ => (.error ⟨500, .error "Failed to generate tokens", []⟩, db1)
          | .ok tokenPair => (.ok { sessionID := claims.SessionID, tokenPair := tokenPair }, db1)

/-- The rest of `AuthHandler.Refresh`: `RotateRefreshToken` and the 200 answer. -/
def RefreshRotate (cr : Crypto) (env : Env) (p : PendingRefresh) (db : DB) : Response × DB :=
  let db2 := postgres.RotateRefreshToken db env.now p.sessionID
    (HashToken cr p.tokenPair.RefreshToken)
  (⟨200, .tokens p.tokenPair.AccessToken p.tokenPair.RefreshToken p.tokenPair.ExpiresAt, []⟩,
    db2)

/-- The two steps of one request run back to back. -/
def refreshSteps (cr : Crypto) (cfg : JWTConfig) (env : Env) (req : RefreshRequest)
    (meta : RequestMetadata) (db : DB) : Response × DB :=
  match RefreshValidate cr cfg env req meta db with
  | (.error resp, db1) => (resp, db1)
  | (.ok p, db1) => RefreshRotate cr env p db1

/-- Two requests served in the order validate-1, validate-2, rotate-1, rotate-2: the
answers of the first and of the second request, and the final state.  A request
whose first step already answered has no second step. -/
def interleavedRefresh (cr : Crypto) (cfg : JWTConfig) (env1 env2 : Env)
    (req1 req2 : RefreshRequest) (meta1 meta2 : RequestMetadata) (db : DB) :
    Response × Response × DB :=
  let v1 := RefreshValidate cr cfg env1 req1 meta1 db
  let v2 := RefreshValidate cr cfg env2 req2 meta2 v1.2
  let r1 : Response × DB :=
    match v1.1 with
    | .error resp => (resp, v2.2)
    | .ok p => RefreshRotate cr env1 p v2.2
  let r2 : Response × DB :=
    match v2.1 with
    | .error resp => (resp, r1.2)
    | .ok p => RefreshRotate cr env2 p r1.2
  (r1.1, r2.1, r2.2)

/-! ## Further stand-ins -/

/-- An account like `exampleUser` that has been disabled. -/
def disabledUser : User :=
  { exampleUser with ID := 5, Email := "off@x.com", IsActive := false }

/-- A store holding `disabledUser` and nothing else. -/
def disabledDB : DB :=
  { users := [disabledUser], sessions := [], deviceCertificates := [], auditLogs := [] }

/-- An active account with role `admin` and the password hash of `exampleUser`. -/
def exampleManager : User :=
  { exampleUser with ID := 4, Email := "admin@x.com", Role := RoleAdmin }

/-- A store holding `exampleManager` and nothing else. -/
def managerDB : DB :=
  { users := [exampleManager], sessions := [], deviceCertificates := [], auditLogs := [] }

/-- `exampleManager` logs in at 1.5 s with the right password; session 7 is created. -/
def afterManagerLogin : Response × DB :=
  Login toyCrypto exampleConfig (exampleEnv 1500000000) ⟨"admin@x.com", "pw", "", "", ""⟩
    exampleMeta managerDB

/-- A request carrying, as bearer token, the access token of `afterManagerLogin`. -/
def managerRequest : AuthRequest :=
  { authorization := .pair "Bearer" afterManagerLogin.1.body.accessToken,
    queryToken := emptyToken }

/-- A creation request for an account with role `super_admin`. -/
def superAdminInput : CreateUserInput :=
  { Email := "new@x.com", Password := "password1", FullName := "N", Mobile := "",
    Role := RoleSuperAdmin, MustChangePassword := false, MustEnrollMFA := false }

/-- The salt octets `rand.Read` delivers in the examples. -/
def exampleSalt : List Byte := List.replicate 16 (toByte 1)

/-- A store with two accounts and three sessions: sessions 7 and 8 of account 1,
session 9 of account 3. -/
def threeSessionsDB : DB :=
  { afterLogin.2 with
    users := [exampleUser, totpUser],
    sessions := afterLogin.2.sessions ++
      [{ exampleSession with ID := 8, RefreshTokenHash := "r8" },
       { exampleSession with ID := 9, UserID := 3, RefreshTokenHash := "r9" }] }

/-- An account like `exampleUser` that five failed attempts have locked until 905 s. -/
def lockedUser : User :=
  { exampleUser with ID := 6, Email := "locked@x.com", FailedLoginAttempts := 5,
                     LockedUntil := some 905000000000 }

/-- A store holding `lockedUser` and nothing else. -/
def lockedDB : DB :=
  { users := [lockedUser], sessions := [], deviceCertificates := [], auditLogs := [] }

/-- What `rand.Read` delivers for every backup code in the examples. -/
def exampleRand : Nat → Option (List Byte) :=
  fun _ => some [toByte 1, toByte 2, toByte 3, toByte 171]

/-- The ten backup codes made from `exampleRand`. -/
def exampleCodes : List String := List.replicate 10 "010203ab"

/-- The context `Authenticate` sets for `exampleUser` on session 7. -/
def exampleContext : Context := { user := some exampleUser, claims := some exampleAccessClaims }

theorem decodeChar_encodeSextet : ∀ n, n < 64 → decodeChar (encodeSextet n) = some n := by
  decide

theorem encodeSextet_ne_special : ∀ n, n < 64 →
    encodeSextet n ≠ '$' ∧ encodeSextet n ≠ '\n' ∧ encodeSextet n ≠ '\r' := by
  decide

theorem EncodeToString_eq_map (bs : List Byte) :
    EncodeToString bs = (sextetsOf bs).map encodeSextet := by
  induction bs using sextetsOf.induct <;> simp_all [EncodeToString, sextetsOf]

theorem sextetsOf_lt (bs : List Byte) : ∀ d ∈ sextetsOf bs, d < 64 := by
  induction bs using sextetsOf.induct with
  | case1 b0 b1 b2 rest ih =>
    intro d hd
    simp only [sextetsOf, List.mem_cons] at hd
    rcases hd with h | h | h | h | h
    · omega
    · omega
    · omega
    · omega
    · exact ih d h
  | case2 b0 b1 =>
    intro d hd
    simp only [sextetsOf, List.mem_cons, List.not_mem_nil, or_false] at hd
    rcases hd with h | h | h <;> omega
  | case3 b0 =>
    intro d hd
    simp only [sextetsOf, List.mem_cons, List.not_mem_nil, or_false] at hd
    rcases hd with h | h <;> omega
  | case4 => simp [sextetsOf]

theorem decodeQuanta_sextetsOf (bs : List Byte) : decodeQuanta (sextetsOf bs) = some bs := by
  induction bs using sextetsOf.induct with
  | case1 b0 b1 b2 rest ih =>
    have h0 := b0.isLt
    have h1 := b1.isLt
    have h2 := b2.isLt
    simp only [sextetsOf, decodeQuanta, ih, Option.map_some', Option.some.injEq, List.cons.injEq,
      and_true]
    refine ⟨?_, ?_, ?_⟩ <;> apply Fin.ext <;> simp only [toByte] <;> omega
  | case2 b0 b1 =>
    have h0 := b0.isLt
    have h1 := b1.isLt
    simp only [sextetsOf, decodeQuanta, Option.some.injEq, List.cons.injEq, and_true]
    refine ⟨?_, ?_⟩ <;> apply Fin.ext <;> simp only [toByte] <;> omega
  | case3 b0 =>
    have h0 := b0.isLt
    simp only [sextetsOf, decodeQuanta, Option.some.injEq, List.cons.injEq, and_true]
    apply Fin.ext
    simp only [toByte]
    omega
  | case4 => simp [sextetsOf, decodeQuanta]

theorem decodeChars_map (ds : List Nat) (h : ∀ d ∈ ds, d < 64) :
    decodeChars (ds.map encodeSextet) = some ds := by
  induction ds with
  | nil => rfl
  | cons d ds ih =>
    have hd : d < 64 := h d (List.mem_cons_self _ _)
    have ih2 := ih (fun x hx => h x (List.mem_cons_of_mem _ hx))
    simp [decodeChars, decodeChar_encodeSextet d hd, ih2]

theorem EncodeToString_no_special (bs : List Byte) :
    ∀ c ∈ EncodeToString bs, c ≠ '$' ∧ c ≠ '\n' ∧ c ≠ '\r' := by
  intro c hc
  rw [EncodeToString_eq_map, List.mem_map] at hc
  obtain ⟨d, hd, rfl⟩ := hc
  exact encodeSextet_ne_special d (sextetsOf_lt bs d hd)

/-- Decoding inverts encoding. -/
theorem DecodeString_EncodeToString (bs : List Byte) :
    DecodeString (EncodeToString bs) = some bs := by
  have hf : (EncodeToString bs).filter (fun c => c != '\n' && c != '\r') = EncodeToString bs := by
    rw [List.filter_eq_self]
    intro c hc
    have := EncodeToString_no_special bs c hc
    simp [this.2.1, this.2.2]
  unfold DecodeString
  rw [hf, EncodeToString_eq_map, decodeChars_map _ (sextetsOf_lt bs)]
  exact decodeQuanta_sextetsOf bs

/-! ## Lemmas: decimal numbers and `Sscanf` -/

theorem digitChar_facts : ∀ d, d < 10 →
    (Nat.digitChar d).isDigit = true ∧ (Nat.digitChar d).toNat - 48 = d ∧
    Nat.digitChar d ≠ '\n' ∧ isSpace (Nat.digitChar d) = false ∧ Nat.digitChar d ≠ '$' := by
  decide

theorem toDigitsCore_append (fuel : Nat) : ∀ (n : Nat) (ds : List Char),
    Nat.toDigitsCore 10 fuel n ds = Nat.toDigitsCore 10 fuel n [] ++ ds := by
  induction fuel with
  | zero => intro n ds; simp [Nat.toDigitsCore]
  | succ fuel ih =>
    intro n ds
    simp only [Nat.toDigitsCore]
    by_cases h : n / 10 = 0
    · simp [h]
    · simp only [h, if_false]
      rw [ih (n / 10) (Nat.digitChar (n % 10) :: ds), ih (n / 10) [Nat.digitChar (n % 10)]]
      simp

theorem toDigitsCore_mem (fuel : Nat) : ∀ (n : Nat), ∀ c ∈ Nat.toDigitsCore 10 fuel n [],
    ∃ d, d < 10 ∧ c = Nat.digitChar d := by
  induction fuel with
  | zero => intro n c hc; simp [Nat.toDigitsCore] at hc
  | succ fuel ih =>
    intro n c hc
    simp only [Nat.toDigitsCore] at hc
    by_cases h : n / 10 = 0
    · simp only [h, if_true, List.mem_singleton] at hc
      exact ⟨n % 10, Nat.mod_lt _ (by decide), hc⟩
    · simp only [h, if_false] at hc
      rw [toDigitsCore_append] at hc
      rcases List.mem_append.mp hc with h1 | h1
      · exact ih _ c h1
      · exact ⟨n % 10, Nat.mod_lt _ (by decide), List.mem_singleton.mp h1⟩

theorem parseDecimal_toDigitsCore (fuel : Nat) : ∀ (n : Nat), n < fuel →
    parseDecimal (Nat.toDigitsCore 10 fuel n []) = n := by
  induction fuel with
  | zero => intro n hn; omega
  | succ fuel ih =>
    intro n hn
    have hd := (digitChar_facts (n % 10) (Nat.mod_lt _ (by decide))).2.1
    simp only [Nat.toDigitsCore]
    by_cases h : n / 10 = 0
    · simp only [h, if_true, parseDecimal, List.foldl_cons, List.foldl_nil, hd]
      omega
    · simp only [h, if_false]
      rw [toDigitsCore_append]
      have ih2 := ih (n / 10) (by omega)
      simp only [parseDecimal] at ih2 ⊢
      rw [List.foldl_append, ih2]
      simp only [List.foldl_cons, List.foldl_nil, hd]
      omega

theorem formatUint_ne_nil (n : Nat) : formatUint n ≠ [] := by
  simp only [formatUint, Nat.toDigits, Nat.toDigitsCore]
  by_cases h : n / 10 = 0
  · simp [h]
  · simp only [h, if_false]
    rw [toDigitsCore_append]
    simp

theorem formatUint_mem (n : Nat) : ∀ c ∈ formatUint n, ∃ d, d < 10 ∧ c = Nat.digitChar d :=
  toDigitsCore_mem (n + 1) n

theorem parseDecimal_formatUint (n : Nat) : parseDecimal (formatUint n) = n :=
  parseDecimal_toDigitsCore (n + 1) n (Nat.lt_succ_self n)

theorem formatUint_no_dollar (n : Nat) : ∀ c ∈ formatUint n, c ≠ '$' := by
  intro c hc
  obtain ⟨d, hd, rfl⟩ := formatUint_mem n c hc
  exact (digitChar_facts d hd).2.2.2.2

theorem takeWhile_append_stop {α : Type} (p : α → Bool) (l r : List α)
    (hl : ∀ x ∈ l, p x = true) (hr : r.takeWhile p = []) :
    (l ++ r).takeWhile p = l ∧ (l ++ r).dropWhile p = r := by
  induction l with
  | nil =>
    refine ⟨by simpa using hr, ?_⟩
    have := List.takeWhile_append_dropWhile p r
    rw [hr] at this
    simpa using this
  | cons x xs ih =>
    have hx : p x = true := hl x (List.mem_cons_self _ _)
    have ih2 := ih (fun y hy => hl y (List.mem_cons_of_mem _ hy))
    simp [List.takeWhile_cons, List.dropWhile_cons, hx, ih2.1, ih2.2]

theorem skipSpace_formatUint (n : Nat) (rest : List Char) :
    skipSpace (formatUint n ++ rest) = some (formatUint n ++ rest) := by
  have hne := formatUint_ne_nil n
  have hmem := formatUint_mem n
  cases h : formatUint n with
  | nil => exact absurd h hne
  | cons c cs =>
    obtain ⟨d, hd, rfl⟩ := hmem c (by rw [h]; exact List.mem_cons_self _ _)
    have f := digitChar_facts d hd
    simp [skipSpace, f.2.2.1, f.2.2.2.1]

/-- Scanning what `%d` printed gives the number back, when it fits the width and
the text that follows does not start with a digit. -/
theorem scanUint_formatUint (bitSize n : Nat) (rest : List Char) (hn : n < 2 ^ bitSize)
    (hrest : rest.takeWhile Char.isDigit = []) :
    scanUint bitSize (formatUint n ++ rest) = some (n, rest) := by
  have hdig : ∀ c ∈ formatUint n, Char.isDigit c = true := by
    intro c hc
    obtain ⟨d, hd, rfl⟩ := formatUint_mem n c hc
    exact (digitChar_facts d hd).1
  have htd := takeWhile_append_stop Char.isDigit (formatUint n) rest hdig hrest
  simp only [scanUint, skipSpace_formatUint, htd.1, htd.2, formatUint_ne_nil, if_false,
    parseDecimal_formatUint, hn, if_true]

theorem matchLiteral_append (l x : List Char) : matchLiteral l (l ++ x) = some x := by
  induction l with
  | nil => rfl
  | cons c cs ih => simp [matchLiteral, ih]

/-- The parameter segment written by `Sprintf` is read back by `Sscanf`. -/
theorem SscanfParams_format (m t p : Nat) (hm : m < 2 ^ 32) (ht : t < 2 ^ 32) (hp : p < 2 ^ 8) :
    SscanfParams ("m=".toList ++ formatUint m ++ ",t=".toList ++ formatUint t ++
      ",p=".toList ++ formatUint p) = some (m, t, p) := by
  have e1 : "m=".toList ++ formatUint m ++ ",t=".toList ++ formatUint t ++
      ",p=".toList ++ formatUint p =
      "m=".toList ++ (formatUint m ++ (",t=".toList ++ (formatUint t ++
      (",p=".toList ++ (formatUint p ++ []))))) := by simp
  rw [e1]
  unfold SscanfParams
  rw [matchLiteral_append]
  simp only
  rw [scanUint_formatUint 32 m _ hm (by rfl)]
  simp only
  rw [matchLiteral_append]
  simp only
  rw [scanUint_formatUint 32 t _ ht (by rfl)]
  simp only
  rw [matchLiteral_append]
  simp only
  rw [scanUint_formatUint 8 p _ hp (by rfl)]

/-! ## Lemmas: the encoded hash string -/

theorem paramSegment_no_dollar (m t p : Nat) : '$' ∉ paramSegment m t p := by
  intro h
  simp only [paramSegment, List.mem_append] at h
  rcases h with ((((h | h) | h) | h) | h) | h
  · revert h; decide
  · exact formatUint_no_dollar m _ h rfl
  · revert h; decide
  · exact formatUint_no_dollar t _ h rfl
  · revert h; decide
  · exact formatUint_no_dollar p _ h rfl

/-- Splitting an encoded hash on `$` gives its six parts. -/
theorem split_encodeHash (m t p : Nat) (a b : List Char) (ha : '$' ∉ a) (hb : '$' ∉ b) :
    (encodeHash m t p a b).toList.splitOn '$' =
      [[], "argon2id".toList, "v=19".toList, paramSegment m t p, a, b] := by
  have e : (encodeHash m t p a b).toList =
      ['$'].intercalate [[], "argon2id".toList, "v=19".toList, paramSegment m t p, a, b] := by
    simp [encodeHash, paramSegment, List.intercalate, List.intersperse]
  rw [e]
  apply List.splitOn_intercalate
  · intro l hl
    simp only [List.mem_cons, List.mem_singleton, List.not_mem_nil, or_false] at hl
    rcases hl with h | h | h | h | h | h <;> subst h
    · simp
    · decide
    · decide
    · exact paramSegment_no_dollar m t p
    · exact ha
    · exact hb
  · simp

/-- Verification of a well-formed encoded hash re-derives the key with the stored
parameters and the stored key length and compares. -/
theorem VerifyPassword_encodeHash (kdf : Argon2) (pw : String) (m t p : Nat)
    (salt key : List Byte) (hm : m < 2 ^ 32) (ht1 : 1 ≤ t) (ht : t < 2 ^ 32)
    (hp1 : 1 ≤ p) (hp : p < 2 ^ 8) (hk1 : 1 ≤ key.length) (hk : key.length < 2 ^ 32) :
    VerifyPassword kdf pw (encodeHash m t p (EncodeToString salt) (EncodeToString key)) =
      .ret (ConstantTimeCompare key (kdf.derive pw salt t m p key.length) == 1) := by
  have hs := split_encodeHash m t p (EncodeToString salt) (EncodeToString key)
    (fun h => (EncodeToString_no_special salt _ h).1 rfl)
    (fun h => (EncodeToString_no_special key _ h).1 rfl)
  have hparams := SscanfParams_format m t p hm ht hp
  have hmod : key.length % 2 ^ 32 = key.length := Nat.mod_eq_of_lt hk
  have ht0 : ¬ t < 1 := by omega
  have hp0 : ¬ p < 1 := by omega
  have hk0 : ¬ key.length < 1 := by omega
  unfold VerifyPassword
  rw [hs]
  simp only [paramSegment] at hparams ⊢
  simp only [ne_eq, not_true_eq_false, or_self, if_false, hparams, DecodeString_EncodeToString,
    hmod, IDKey, ht0, hp0, hk0]

/-! ## Lemmas: tokens -/

theorem NewNumericDate_le (t : Time) : NewNumericDate t ≤ t := by
  simp only [NewNumericDate, Second]
  unfold Time at *
  omega

/-- The access token produced at `issue` validates at `t` exactly as its `exp` and
`nbf` claims say. -/
theorem ValidateAccessToken_issued (cr : Crypto) (cfg : JWTConfig) (issue t : Time) (user : User)
    (sessionID : UUID) (tp : TokenPair)
    (h : GenerateTokenPair cr cfg issue user sessionID = .ok tp) :
    ValidateAccessToken cr cfg t tp.AccessToken =
      if NewNumericDate (issue + cfg.AccessExpiry) ≤ t then .error .ErrTokenExpired
      else if t < NewNumericDate issue then .error .ErrInvalidToken
      else .ok
        { UserID := user.ID, Email := user.Email, Role := user.Role, SessionID := sessionID,
          Registered :=
            { ExpiresAt := some (NewNumericDate (issue + cfg.AccessExpiry)),
              IssuedAt := some (NewNumericDate issue), NotBefore := some (NewNumericDate issue),
              Issuer := "srams", Subject := uuidString user.ID } } := by
  simp only [GenerateTokenPair, Except.ok.injEq] at h
  subst h
  simp only [ValidateAccessToken, ParseWithClaims, SignedString, isHMAC, validateClaims]
  by_cases h1 : NewNumericDate (issue + cfg.AccessExpiry) ≤ t
  · have h1' : ¬ t < NewNumericDate (issue + cfg.AccessExpiry) := by
      unfold Time at *; omega
    simp [h1, h1', JwtError.isExpired]
  · have h1' : t < NewNumericDate (issue + cfg.AccessExpiry) := by
      unfold Time at *; omega
    by_cases h2 : t < NewNumericDate issue
    · simp [h1, h1', h2, JwtError.isExpired]
    · simp [h1, h1', h2]

/-- The refresh token produced at `issue` validates at `t` exactly as its `exp`
claim says; it carries no `nbf`, no email and no role. -/
theorem ValidateRefreshToken_issued (cr : Crypto) (cfg : JWTConfig) (issue t : Time) (user : User)
    (sessionID : UUID) (tp : TokenPair)
    (h : GenerateTokenPair cr cfg issue user sessionID = .ok tp) :
    ValidateRefreshToken cr cfg t tp.RefreshToken =
      if NewNumericDate (issue + cfg.RefreshExpiry) ≤ t then .error .ErrTokenExpired
      else .ok
        { UserID := user.ID, Email := "", Role := "", SessionID := sessionID,
          Registered :=
            { ExpiresAt := some (NewNumericDate (issue + cfg.RefreshExpiry)),
              IssuedAt := some (NewNumericDate issue), NotBefore := none,
              Issuer := "srams", Subject := uuidString user.ID } } := by
  simp only [GenerateTokenPair, Except.ok.injEq] at h
  subst h
  simp only [ValidateRefreshToken, ParseWithClaims, SignedString, isHMAC, validateClaims]
  by_cases h1 : NewNumericDate (issue + cfg.RefreshExpiry) ≤ t
  · have h1' : ¬ t < NewNumericDate (issue + cfg.RefreshExpiry) := by
      unfold Time at *; omega
    simp [h1, h1', JwtError.isExpired]
  · have h1' : t < NewNumericDate (issue + cfg.RefreshExpiry) := by
      unfold Time at *; omega
    simp [h1, h1']

/-- An expiry error comes only from a well-formed, correctly signed token whose
`exp` has passed. -/
theorem ParseWithClaims_expired (cr : Crypto) (now : Time) (secret : String)
    (tok : TokenString) (e : JwtError)
    (he : ParseWithClaims cr now secret tok = .error e) (hexp : e.isExpired = true) :
    ∃ alg c exp, tok = .jws alg c (cr.hmac alg secret (alg, c)) ∧ isHMAC alg = true ∧
      c.Registered.ExpiresAt = some exp ∧ exp ≤ now := by
  cases tok with
  | malformed raw =>
    simp only [ParseWithClaims, Except.error.injEq] at he
    subst he
    simp [JwtError.isExpired] at hexp
  | jws alg c sig =>
    by_cases hh : isHMAC alg = true
    · by_cases hs : sig = cr.hmac alg secret (alg, c)
      · subst hs
        simp only [ParseWithClaims, hh, validateClaims] at he
        cases hx : c.Registered.ExpiresAt with
        | none =>
          cases hnb : c.Registered.NotBefore with
          | none => simp [hx, hnb] at he
          | some nbf =>
            by_cases hb : now < nbf
            · simp [hx, hnb, hb] at he
              subst he
              simp [JwtError.isExpired] at hexp
            · simp [hx, hnb, hb] at he
        | some exp =>
          refine ⟨alg, c, exp, rfl, hh, hx, ?_⟩
          by_contra hlt
          have hlt2 : now < exp := by unfold Time at *; omega
          cases hnb : c.Registered.NotBefore with
          | none => simp [hx, hnb, hlt2] at he
          | some nbf =>
            by_cases hb : now < nbf
            · simp [hx, hnb, hb, hlt2] at he
              subst he
              simp [JwtError.isExpired] at hexp
            · simp [hx, hnb, hb, hlt2] at he
      · simp [ParseWithClaims, hh, hs] at he
        subst he
        simp [JwtError.isExpired] at hexp
    · simp only [Bool.not_eq_true] at hh
      simp [ParseWithClaims, hh] at he
      subst he
      simp [JwtError.isExpired] at hexp

/-- The errors of `ParseWithClaims` for a malformed string, a non-HMAC algorithm
and a signature that does not verify. -/
theorem ParseWithClaims_error_cases (cr : Crypto) (now : Time) (secret : String)
    (tok : TokenString) :
    (∀ raw, tok = .malformed raw → ParseWithClaims cr now secret tok = .error .malformed) ∧
    (∀ alg c sig, tok = .jws alg c sig → isHMAC alg = false →
      ParseWithClaims cr now secret tok = .error .unverifiable) ∧
    (∀ alg c sig, tok = .jws alg c sig → isHMAC alg = true → sig ≠ cr.hmac alg secret (alg, c) →
      ParseWithClaims cr now secret tok = .error .signatureInvalid) := by
  refine ⟨?_, ?_, ?_⟩
  · intro raw h; subst h; rfl
  · intro alg c sig h hh; subst h; simp [ParseWithClaims, hh]
  · intro alg c sig h hh hs; subst h; simp [ParseWithClaims, hh, hs]

/-! ## Lemmas: the store and the handlers -/

theorem find?_map_preserve {α : Type} (l : List α) (f : α → α) (p : α → Bool)
    (h : ∀ x, p (f x) = p x) : (l.map f).find? p = (l.find? p).map f := by
  induction l with
  | nil => rfl
  | cons x xs ih =>
    simp only [List.map_cons, List.find?_cons, h]
    cases p x <;> simp [ih]

theorem fifteen_minutes : Minute * 15 = 15 * Minute := by decide

/-- What one failed credential check does to the account row. -/
theorem GetByEmail_IncrementFailedLoginAttempts (db : DB) (now : Time) (email : String) (u : User)
    (hu : postgres.GetByEmail db email = some u) :
    postgres.GetByEmail (postgres.IncrementFailedLoginAttempts db now u.ID 5 15) email =
      some { u with
        FailedLoginAttempts := u.FailedLoginAttempts + 1,
        LockedUntil :=
          if u.FailedLoginAttempts + 1 ≥ 5 then some (now + 15 * Minute) else u.LockedUntil,
        UpdatedAt := now } := by
  unfold postgres.GetByEmail at hu ⊢
  simp only [postgres.IncrementFailedLoginAttempts]
  rw [find?_map_preserve, hu]
  · simp [fifteen_minutes]
  · intro x
    by_cases hx : x.ID = u.ID <;> simp [hx]

/-- The answer of `Login` to a wrong password on an active account that is not
locked. -/
theorem Login_wrong_password (cr : Crypto) (cfg : JWTConfig) (env : Env) (req : LoginRequest)
    (m : RequestMetadata) (db : DB) (u : User)
    (hb : bindLoginRequest env.validEmail req = true)
    (hu : postgres.GetByEmail db req.Email = some u)
    (hunl : ∀ t, u.LockedUntil = some t → t ≤ env.now) (hact : u.IsActive = true)
    (hw : VerifyPassword cr.argon2 req.Password u.PasswordHash = .ret false) :
    Login cr cfg env req m db =
      (⟨401, .error "Invalid credentials", []⟩,
        LogLogin (postgres.IncrementFailedLoginAttempts db env.now u.ID 5 15) u.ID u.Role
          m.IP m.DeviceID m.UserAgent false) := by
  have hlock : (match u.LockedUntil with
      | some lockedUntil => decide (env.now < lockedUntil)
      | none => false) = false := by
    cases h : u.LockedUntil with
    | none => rfl
    | some t =>
      have := hunl t h
      simp only [decide_eq_false_iff_not]
      unfold Time at *; omega
  simp only [Login, hb, hu, hlock, hact, hw]
  simp

/-- The answer of `Login` for an account that is locked at the instant of the
request. -/
theorem Login_locked_eq (cr : Crypto) (cfg : JWTConfig) (env : Env) (req : LoginRequest)
    (m : RequestMetadata) (db : DB) (u : User) (lockedUntil : Time)
    (hb : bindLoginRequest env.validEmail req = true)
    (hu : postgres.GetByEmail db req.Email = some u)
    (hl : u.LockedUntil = some lockedUntil) (hnow : env.now < lockedUntil) :
    Login cr cfg env req m db =
      (⟨429, .locked "Account temporarily locked due to too many failed attempts"
          (some lockedUntil), []⟩,
        AuditCreate db
          { ActorID := some u.ID, ActorRole := u.Role,
            ActionType := "login_blocked_locked", TargetType := "user",
            TargetID := some u.ID,
            Metadata := [("reason", .str "account_locked"), ("locked_until", .time (some lockedUntil))],
            IPAddress := m.IP, DeviceID := m.DeviceID, UserAgent := m.UserAgent }) := by
  simp only [Login, hb, hu, hl, hnow, decide_True, if_true]
  simp

/-- Wrong-password attempts below the threshold only count. -/
theorem runLogins_wrong_passwords (cr : Crypto) (cfg : JWTConfig) (email : String) (hash : String)
    (lock : Option Time) :
    ∀ (attempts : List Attempt) (db : DB) (u : User),
      postgres.GetByEmail db email = some u → u.IsActive = true → u.PasswordHash = hash →
      u.LockedUntil = lock →
      (∀ a ∈ attempts, bindLoginRequest a.env.validEmail a.req = true ∧
        a.req.Email = email ∧ VerifyPassword cr.argon2 a.req.Password hash = .ret false ∧
        ∀ t, lock = some t → t ≤ a.env.now) →
      u.FailedLoginAttempts + attempts.length < 5 →
      ∃ u2, postgres.GetByEmail (runLogins cr cfg db attempts) email = some u2 ∧
        u2.FailedLoginAttempts = u.FailedLoginAttempts + attempts.length ∧
        u2.LockedUntil = lock ∧ u2.IsActive = true ∧ u2.PasswordHash = hash ∧
        (runLogins cr cfg db attempts).sessions = db.sessions := by
  intro attempts
  induction attempts with
  | nil =>
    intro db u hu hact hhash hlock _ _
    exact ⟨u, hu, by simp, hlock, hact, hhash, rfl⟩
  | cons a rest ih =>
    intro db u hu hact hhash hlock hall hlen
    obtain ⟨hbind, hmail, hwrong, htime⟩ := hall a (List.mem_cons_self _ _)
    have hstep := Login_wrong_password cr cfg a.env a.req a.meta db u hbind (hmail ▸ hu)
      (fun t ht => htime t (hlock ▸ ht)) hact (hhash ▸ hwrong)
    have hget := GetByEmail_IncrementFailedLoginAttempts db a.env.now email u hu
    simp only [List.length_cons] at hlen
    have hlt : ¬ (u.FailedLoginAttempts + 1 ≥ 5) := by omega
    simp only [hlt, if_false] at hget
    have hget2 : postgres.GetByEmail (Login cr cfg a.env a.req a.meta db).2 email =
        some { u with FailedLoginAttempts := u.FailedLoginAttempts + 1,
                      UpdatedAt := a.env.now } := by
      rw [hstep]; exact hget
    obtain ⟨u2, h1, h2, h3, h4, h5, h6⟩ := ih (Login cr cfg a.env a.req a.meta db).2 _ hget2
      hact hhash hlock (fun b hb => hall b (List.mem_cons_of_mem _ hb)) (by simp only []; omega)
    refine ⟨u2, by simpa [runLogins] using h1, ?_, h3, h4, h5, ?_⟩
    · rw [h2]; simp only [List.length_cons]; push_cast; omega
    · simp only [runLogins]
      rw [h6, hstep]
      rfl

/-- Invalidating a session does not change the verdict of the PostgreSQL
`ValidateRefreshTokenHash` on it. -/
theorem ValidateRefreshTokenHash_InvalidateSession (db : DB) (sessionID : UUID) (hash : String) :
    (postgres.ValidateRefreshTokenHash (postgres.InvalidateSession db sessionID) sessionID
      hash).1 = (postgres.ValidateRefreshTokenHash db sessionID hash).1 := by
  simp only [postgres.ValidateRefreshTokenHash, postgres.InvalidateSession]
  rw [find?_map_preserve]
  · cases h : db.sessions.find? (fun s => s.ID == sessionID) with
    | none => rfl
    | some s =>
      simp only [Option.map_some']
      by_cases hs : s.ID = sessionID <;> by_cases hh : s.RefreshTokenHash = hash <;> simp [hs, hh]
  · intro x
    by_cases hx : x.ID = sessionID <;> simp [hx]

/-- Two token pairs issued for the same user and session within one second carry
the same refresh token. -/
theorem GenerateTokenPair_same_second (cr : Crypto) (cfg : JWTConfig) (now1 now2 : Time)
    (user : User) (sessionID : UUID) (tp1 tp2 : TokenPair)
    (h1 : GenerateTokenPair cr cfg now1 user sessionID = .ok tp1)
    (h2 : GenerateTokenPair cr cfg now2 user sessionID = .ok tp2)
    (hiat : NewNumericDate now1 = NewNumericDate now2)
    (hexp : NewNumericDate (now1 + cfg.RefreshExpiry) = NewNumericDate (now2 + cfg.RefreshExpiry)) :
    tp1.RefreshToken = tp2.RefreshToken := by
  simp only [GenerateTokenPair, Except.ok.injEq] at h1 h2
  subst h1 h2
  simp only [hiat, hexp]

/-! ## Lemmas: device certificates and the later stages of `Login` -/

/-- A filter is non-empty exactly when some element passes the test. -/
theorem filter_length_pos_iff_any {α : Type} (l : List α) (p : α → Bool) :
    0 < (l.filter p).length ↔ l.any p = true := by
  rw [List.length_pos_iff_exists_mem, List.any_eq_true]
  constructor
  · rintro ⟨a, ha⟩
    rw [List.mem_filter] at ha
    exact ⟨a, ha.1, ha.2⟩
  · rintro ⟨a, ha, hp⟩
    exact ⟨a, List.mem_filter.mpr ⟨ha, hp⟩⟩

/-- The lock test of `Login` on an account whose lock, if any, has expired. -/
theorem lock_test_false (u : User) (now : Time) (hunl : ∀ t, u.LockedUntil = some t → t ≤ now) :
    (match u.LockedUntil with
      | some lockedUntil => decide (now < lockedUntil)
      | none => false) = false := by
  cases h : u.LockedUntil with
  | none => rfl
  | some t =>
    have := hunl t h
    simp only [decide_eq_false_iff_not]
    unfold Time at *; omega

/-- A client address that is no loopback literal and no server address is not the
server machine. -/
theorem IsServerMachine_false (serverIPs : List String) (ip : String)
    (hip : ip ≠ "127.0.0.1" ∧ ip ≠ "::1" ∧ ip ≠ "localhost" ∧ ip ≠ "[::1]" ∧ ip ∉ serverIPs) :
    IsServerMachine serverIPs ip = false := by
  obtain ⟨h1, h2, h3, h4, h5⟩ := hip
  have hany : serverIPs.any (fun x => ip == x) = false := by
    rw [Bool.eq_false_iff]
    intro h
    rw [List.any_eq_true] at h
    obtain ⟨x, hx, hxe⟩ := h
    simp only [beq_iff_eq] at hxe
    exact h5 (hxe ▸ hx)
  simp [IsServerMachine, h1, h2, h3, h4, hany]

/-! ## Lemmas: `Authenticate` -/

/-- After `InvalidateSession` the session is not valid. -/
theorem IsSessionValid_InvalidateSession (db : DB) (now : Time) (sessionID : UUID) :
    postgres.IsSessionValid (postgres.InvalidateSession db sessionID) now sessionID = false := by
  simp only [postgres.IsSessionValid, postgres.InvalidateSession]
  rw [find?_map_preserve]
  · cases h : db.sessions.find? (fun s => s.ID == sessionID) with
    | none => rfl
    | some s =>
      have hs : s.ID = sessionID := by
        have := List.find?_some h
        simpa using this
      simp [hs]
  · intro x
    by_cases hx : x.ID = sessionID <;> simp [hx]

/-- What `Authenticate` returns, by cases. -/
theorem Authenticate_eq (cr : Crypto) (cfg : JWTConfig) (now : Time) (req : AuthRequest)
    (db : DB) :
    (Authenticate cr cfg now req db).1 =
      match ValidateAccessToken cr cfg now (presentedToken req) with
      | .error err =>
        if presentedToken req = emptyToken then
          .error ⟨401, .error "Authorization header or token query parameter required", []⟩
        else if err = .ErrTokenExpired then .error ⟨401, .error "Token expired", []⟩
        else .error ⟨401, .error "Invalid token", []⟩
      | .ok claims =>
        if postgres.IsSessionValid db now claims.SessionID = true then
          match postgres.GetByID db claims.UserID with
          | none => .error ⟨401, .error "User not found or inactive", []⟩
          | some user =>
            if user.IsActive = true then .ok (user, claims)
            else .error ⟨401, .error "User not found or inactive", []⟩
        else .error ⟨401, .error "Session expired or invalid", []⟩ := by
  by_cases he : presentedToken req = emptyToken
  · have hv : ValidateAccessToken cr cfg now emptyToken = .error .ErrInvalidToken := rfl
    simp [Authenticate, he, hv]
  · cases hv : ValidateAccessToken cr cfg now (presentedToken req) with
    | error err =>
      by_cases hx : err = .ErrTokenExpired <;> simp [Authenticate, he, hv, hx]
    | ok claims =>
      have hg : postgres.GetByID (postgres.UpdateSessionActivity db now claims.SessionID)
          claims.UserID = postgres.GetByID db claims.UserID := rfl
      by_cases hs : postgres.IsSessionValid db now claims.SessionID = true
      · cases hu : postgres.GetByID db claims.UserID with
        | none => simp [Authenticate, he, hv, hs, hg, hu]
        | some user =>
          by_cases ha : user.IsActive = true <;> simp [Authenticate, he, hv, hs, hg, hu, ha]
      · simp [Authenticate, he, hv, hs]

/-! ## Lemmas: the last stage of `Login` -/

/-- `GenerateTokenPair` always returns a pair. -/
theorem GenerateTokenPair_ok (cr : Crypto) (cfg : JWTConfig) (now : Time) (user : User)
    (sessionID : UUID) : ∃ tp, GenerateTokenPair cr cfg now user sessionID = .ok tp :=
  ⟨_, rfl⟩

/-- The answer of `Login` on its last stage: the checks before the device check
have passed and the device check, if any, returned trusted with state `d`. -/
theorem Login_success (cr : Crypto) (cfg : JWTConfig) (env : Env) (req : LoginRequest)
    (m : RequestMetadata) (db d : DB) (u : User) (tp : TokenPair)
    (hb : bindLoginRequest env.validEmail req = true)
    (hu : postgres.GetByEmail db req.Email = some u)
    (hunl : ∀ t, u.LockedUntil = some t → t ≤ env.now) (hact : u.IsActive = true)
    (hpw : VerifyPassword cr.argon2 req.Password u.PasswordHash = .ret true)
    (htotp : u.TOTPEnabled = true → req.TOTPCode ≠ "" ∧
      ∃ secret, u.TOTPSecret = some secret ∧ ValidateTOTP cr env.now secret req.TOTPCode = true)
    (hsm : u.Role = RoleSuperAdmin → IsServerMachine env.serverIPs m.IP = true)
    (hdev : (if (u.Role == RoleSuperAdmin && req.DeviceFingerprint != "") = true then
        postgres.VerifyDeviceCertificate db env.now env.newCertID u.ID req.DeviceFingerprint
          req.DeviceID
      else ((true, false), db)) = ((true, false), d))
    (htp : GenerateTokenPair cr cfg env.now u env.newUUID = .ok tp)
    (hnew : d.sessions.any (fun s => s.ID == env.newUUID) = false) :
    Login cr cfg env req m db =
      (⟨200, .login
          { User := some u, AccessToken := tp.AccessToken, RefreshToken := tp.RefreshToken,
            ExpiresAt := some tp.ExpiresAt, RequiresTOTP := false,
            RequiresPasswordChange := u.MustChangePassword,
            RequiresMFAEnrollment := u.MustEnrollMFA && !u.TOTPEnabled, ClientIP := m.IP },
          [("csrf_token", (GenerateCSRFToken env.urlEncode env.csrfRand).1)]⟩,
        LogLogin
          (postgres.UpdateLastLogin
            { postgres.ResetFailedLoginAttempts d env.now u.ID with
              sessions := d.sessions ++
                [{ ID := env.newUUID, UserID := u.ID, TokenHash := HashToken cr tp.AccessToken,
                   RefreshTokenHash := HashToken cr tp.RefreshToken, IPAddress := m.IP,
                   DeviceFingerprint := req.DeviceID, UserAgent := m.UserAgent,
                   CreatedAt := env.now, ExpiresAt := tp.ExpiresAt + 7 * 24 * Hour,
                   LastActivity := env.now, IsActive := true }] }
            env.now u.ID)
          u.ID u.Role m.IP m.DeviceID m.UserAgent true) := by
  have hlock := lock_test_false u env.now hunl
  have hsa : (u.Role == RoleSuperAdmin && !IsServerMachine env.serverIPs m.IP) = false := by
    by_cases hr : u.Role = RoleSuperAdmin
    · simp [hsm hr]
    · simp [hr]
  have hnew2 : (postgres.ResetFailedLoginAttempts d env.now u.ID).sessions.any
      (fun s => s.ID == env.newUUID) = false := hnew
  by_cases hen : u.TOTPEnabled = true
  · obtain ⟨hc, secret, hs, hv⟩ := htotp hen
    simp only [Login, hb, hu, hlock, hact, hpw, hen, hs, hv, hsa, hdev, htp]
    simp [hc, postgres.CreateSession, hnew2]
    rfl
  · simp only [Bool.not_eq_true] at hen
    simp only [Login, hb, hu, hlock, hact, hpw, hen, hsa, hdev, htp]
    simp [postgres.CreateSession, hnew2]
    rfl

/-- Past the TOTP check, a 200 answer of `Login` is the success of `Login_success`. -/
theorem Login_status_200_checked (cr : Crypto) (cfg : JWTConfig) (env : Env) (req : LoginRequest)
    (m : RequestMetadata) (db : DB) (u : User)
    (hb : bindLoginRequest env.validEmail req = true)
    (hu : postgres.GetByEmail db req.Email = some u)
    (hunl : ∀ t, u.LockedUntil = some t → t ≤ env.now) (hact : u.IsActive = true)
    (hpw : VerifyPassword cr.argon2 req.Password u.PasswordHash = .ret true)
    (htotp : u.TOTPEnabled = true → req.TOTPCode ≠ "" ∧
      ∃ secret, u.TOTPSecret = some secret ∧ ValidateTOTP cr env.now secret req.TOTPCode = true)
    (h : (Login cr cfg env req m db).1.status = 200) :
    ∃ (d : DB) (tp : TokenPair),
      GenerateTokenPair cr cfg env.now u env.newUUID = .ok tp ∧
      (if (u.Role == RoleSuperAdmin && req.DeviceFingerprint != "") = true then
        postgres.VerifyDeviceCertificate db env.now env.newCertID u.ID req.DeviceFingerprint
          req.DeviceID
      else ((true, false), db)) = ((true, false), d) ∧
      (u.Role = RoleSuperAdmin → IsServerMachine env.serverIPs m.IP = true) ∧
      d.sessions.any (fun s => s.ID == env.newUUID) = false := by
  have hlock := lock_test_false u env.now hunl
  obtain ⟨tp, htp⟩ := GenerateTokenPair_ok cr cfg env.now u env.newUUID
  -- the TOTP stage, as a rewriting of `Login`
  have hsm : u.Role = RoleSuperAdmin → IsServerMachine env.serverIPs m.IP = true := by
    intro hr
    by_contra hn
    simp only [Bool.not_eq_true] at hn
    by_cases hen : u.TOTPEnabled = true
    · obtain ⟨hc, secret, hs, hv⟩ := htotp hen
      simp [Login, hb, hu, hlock, hact, hpw, hen, hs, hv, hc, hr, hn] at h
    · simp only [Bool.not_eq_true] at hen
      simp [Login, hb, hu, hlock, hact, hpw, hen, hr, hn] at h
  have hsa : (u.Role == RoleSuperAdmin && !IsServerMachine env.serverIPs m.IP) = false := by
    by_cases hr : u.Role = RoleSuperAdmin
    · simp [hsm hr]
    · simp [hr]
  cases hdev : (if (u.Role == RoleSuperAdmin && req.DeviceFingerprint != "") = true then
        postgres.VerifyDeviceCertificate db env.now env.newCertID u.ID req.DeviceFingerprint
          req.DeviceID
      else ((true, false), db)) with
  | mk flags d =>
    obtain ⟨valid, err⟩ := flags
    have hstage : (valid, err) = (true, false) ∧
        d.sessions.any (fun s => s.ID == env.newUUID) = false := by
      by_cases hen : u.TOTPEnabled = true
      · obtain ⟨hc, secret, hs, hv⟩ := htotp hen
        simp only [Login, hb, hu, hlock, hact, hpw, hen, hs, hv, hsa, hdev, htp] at h
        cases err <;> cases valid <;> simp [hc] at h
        by_cases hany : d.sessions.any (fun s => s.ID == env.newUUID) = false
        · exact ⟨rfl, hany⟩
        · simp only [Bool.not_eq_false] at hany
          have hany2 : (postgres.ResetFailedLoginAttempts d env.now u.ID).sessions.any
              (fun s => s.ID == env.newUUID) = true := hany
          simp [postgres.CreateSession, hany2] at h
      · simp only [Bool.not_eq_true] at hen
        simp only [Login, hb, hu, hlock, hact, hpw, hen, hsa, hdev, htp] at h
        cases err <;> cases valid <;> simp at h
        by_cases hany : d.sessions.any (fun s => s.ID == env.newUUID) = false
        · exact ⟨rfl, hany⟩
        · simp only [Bool.not_eq_false] at hany
          have hany2 : (postgres.ResetFailedLoginAttempts d env.now u.ID).sessions.any
              (fun s => s.ID == env.newUUID) = true := hany
          simp [postgres.CreateSession, hany2] at h
    obtain ⟨hfl, hany⟩ := hstage
    rw [hfl]
    exact ⟨d, tp, htp, rfl, hsm, hany⟩

/-- A 200 answer of `Login` is either the request for a TOTP code, with the store
unchanged, or the success of `Login_success`. -/
theorem Login_status_200 (cr : Crypto) (cfg : JWTConfig) (env : Env) (req : LoginRequest)
    (m : RequestMetadata) (db : DB) (h : (Login cr cfg env req m db).1.status = 200) :
    (Login cr cfg env req m db =
      (⟨200, .login
          { User := none, AccessToken := emptyToken, RefreshToken := emptyToken,
            ExpiresAt := none, RequiresTOTP := true, RequiresPasswordChange := false,
            RequiresMFAEnrollment := false, ClientIP := "" }, []⟩, db)) ∨
    ∃ (u : User) (d : DB) (tp : TokenPair),
      postgres.GetByEmail db req.Email = some u ∧
      GenerateTokenPair cr cfg env.now u env.newUUID = .ok tp ∧
      (if (u.Role == RoleSuperAdmin && req.DeviceFingerprint != "") = true then
        postgres.VerifyDeviceCertificate db env.now env.newCertID u.ID req.DeviceFingerprint
          req.DeviceID
      else ((true, false), db)) = ((true, false), d) ∧
      Login cr cfg env req m db =
      (⟨200, .login
          { User := some u, AccessToken := tp.AccessToken, RefreshToken := tp.RefreshToken,
            ExpiresAt := some tp.ExpiresAt, RequiresTOTP := false,
            RequiresPasswordChange := u.MustChangePassword,
            RequiresMFAEnrollment := u.MustEnrollMFA && !u.TOTPEnabled, ClientIP := m.IP },
          [("csrf_token", (GenerateCSRFToken env.urlEncode env.csrfRand).1)]⟩,
        LogLogin
          (postgres.UpdateLastLogin
            { postgres.ResetFailedLoginAttempts d env.now u.ID with
              sessions := d.sessions ++
                [{ ID := env.newUUID, UserID := u.ID, TokenHash := HashToken cr tp.AccessToken,
                   RefreshTokenHash := HashToken cr tp.RefreshToken, IPAddress := m.IP,
                   DeviceFingerprint := req.DeviceID, UserAgent := m.UserAgent,
                   CreatedAt := env.now, ExpiresAt := tp.ExpiresAt + 7 * 24 * Hour,
                   LastActivity := env.now, IsActive := true }] }
            env.now u.ID)
          u.ID u.Role m.IP m.DeviceID m.UserAgent true) := by
  by_cases hb : bindLoginRequest env.validEmail req = true
  swap
  · simp [Login, hb] at h
  cases hu : postgres.GetByEmail db req.Email with
  | none => simp [Login, hb, hu] at h
  | some u =>
    by_cases hunl : ∀ t, u.LockedUntil = some t → t ≤ env.now
    swap
    · push_neg at hunl
      obtain ⟨t, ht, hlt⟩ := hunl
      rw [Login_locked_eq cr cfg env req m db u t hb hu ht hlt] at h
      simp at h
    have hlock := lock_test_false u env.now hunl
    by_cases hact : u.IsActive = true
    swap
    · simp only [Bool.not_eq_true] at hact
      simp [Login, hb, hu, hlock, hact] at h
    cases hpw : VerifyPassword cr.argon2 req.Password u.PasswordHash with
    | panic msg => simp [Login, hb, hu, hlock, hact, hpw] at h
    | ret ok =>
      cases ok with
      | false => simp [Login, hb, hu, hlock, hact, hpw] at h
      | true =>
        by_cases hen : u.TOTPEnabled = true
        · by_cases hc : req.TOTPCode = ""
          · left
            simp only [Login, hb, hu, hlock, hact, hpw, hen, hc]
            simp
          · cases hs : u.TOTPSecret with
            | none => simp [Login, hb, hu, hlock, hact, hpw, hen, hc, hs] at h
            | some secret =>
              by_cases hv : ValidateTOTP cr env.now secret req.TOTPCode = true
              swap
              · simp only [Bool.not_eq_true] at hv
                simp [Login, hb, hu, hlock, hact, hpw, hen, hc, hs, hv] at h
              obtain ⟨d, tp, htp, hdev, hsm, hnew⟩ := Login_status_200_checked cr cfg env req m db u
                hb hu hunl hact hpw (fun _ => ⟨hc, secret, hs, hv⟩) h
              exact Or.inr ⟨u, d, tp, rfl, htp, hdev,
                Login_success cr cfg env req m db d u tp hb hu hunl hact hpw
                  (fun _ => ⟨hc, secret, hs, hv⟩) hsm hdev htp hnew⟩
        · obtain ⟨d, tp, htp, hdev, hsm, hnew⟩ := Login_status_200_checked cr cfg env req m db u
            hb hu hunl hact hpw (fun he => absurd he hen) h
          exact Or.inr ⟨u, d, tp, rfl, htp, hdev,
            Login_success cr cfg env req m db d u tp hb hu hunl hact hpw
              (fun he => absurd he hen) hsm hdev htp hnew⟩

/-- The PostgreSQL `VerifyDeviceCertificate` writes to the certificate table only. -/
theorem postgres_VerifyDeviceCertificate_frame (db : DB) (now : Time) (certID userID : UUID)
    (fingerprint deviceID : String) :
    (postgres.VerifyDeviceCertificate db now certID userID fingerprint deviceID).2.users =
      db.users ∧
    (postgres.VerifyDeviceCertificate db now certID userID fingerprint deviceID).2.sessions =
      db.sessions ∧
    (postgres.VerifyDeviceCertificate db now certID userID fingerprint deviceID).2.auditLogs =
      db.auditLogs := by
  unfold postgres.VerifyDeviceCertificate
  simp only []
  repeat' split
  all_goals exact ⟨rfl, rfl, rfl⟩

/-- The state after the device check of `Login` differs from the state before it in
the certificate table only. -/
theorem Login_device_frame (db d : DB) (now : Time) (certID userID : UUID)
    (fingerprint deviceID : String) (c : Prop) [Decidable c] (flags : Bool × Bool)
    (hdev : (if c then postgres.VerifyDeviceCertificate db now certID userID fingerprint deviceID
      else ((true, false), db)) = (flags, d)) :
    d.users = db.users ∧ d.sessions = db.sessions ∧ d.auditLogs = db.auditLogs := by
  by_cases hc : c
  · rw [if_pos hc] at hdev
    have h := postgres_VerifyDeviceCertificate_frame db now certID userID fingerprint deviceID
    rw [hdev] at h
    exact h
  · rw [if_neg hc] at hdev
    simp only [Prod.mk.injEq] at hdev
    rw [← hdev.2]
    exact ⟨rfl, rfl, rfl⟩

/-! ## Lemmas: routes behind `Authenticate`, password change, refresh in two steps -/

/-- `Authenticate` writes to the session table only. -/
theorem Authenticate_frame (cr : Crypto) (cfg : JWTConfig) (now : Time) (req : AuthRequest)
    (db : DB) :
    (Authenticate cr cfg now req db).2.users = db.users ∧
    (Authenticate cr cfg now req db).2.deviceCertificates = db.deviceCertificates ∧
    (Authenticate cr cfg now req db).2.auditLogs = db.auditLogs := by
  unfold Authenticate
  simp only []
  repeat' split
  all_goals exact ⟨rfl, rfl, rfl⟩

/-- The state `Authenticate` hands to the next handler when it admits a request. -/
theorem Authenticate_ok_state (cr : Crypto) (cfg : JWTConfig) (now : Time) (req : AuthRequest)
    (db : DB) (user : User) (claims : TokenClaims)
    (h : (Authenticate cr cfg now req db).1 = .ok (user, claims)) :
    Authenticate cr cfg now req db =
      (.ok (user, claims), postgres.UpdateSessionActivity db now claims.SessionID) := by
  by_cases he : presentedToken req = emptyToken
  · simp [Authenticate, he] at h
  · cases hv : ValidateAccessToken cr cfg now (presentedToken req) with
    | error err =>
      by_cases hx : err = .ErrTokenExpired <;> simp [Authenticate, he, hv, hx] at h
    | ok c =>
      by_cases hs : postgres.IsSessionValid db now c.SessionID = true
      swap
      · simp [Authenticate, he, hv, hs] at h
      cases hu : postgres.GetByID (postgres.UpdateSessionActivity db now c.SessionID)
          c.UserID with
      | none => simp [Authenticate, he, hv, hs, hu] at h
      | some u2 =>
        by_cases ha : u2.IsActive = true
        swap
        · simp [Authenticate, he, hv, hs, hu, ha] at h
        simp [Authenticate, he, hv, hs, hu, ha] at h ⊢
        exact ⟨h, by rw [h.2]⟩

/-- A route behind `Authenticate` leaves the account table as it was when its
handler does. -/
theorem authenticatedRoute_users (cr : Crypto) (cfg : JWTConfig) (now : Time) (req : AuthRequest)
    (handler : Context → DB → Response × DB) (db : DB)
    (hh : ∀ ctx d, (handler ctx d).2.users = d.users) :
    (authenticatedRoute cr cfg now req handler db).2.users = db.users := by
  have hf := (Authenticate_frame cr cfg now req db).1
  unfold authenticatedRoute
  cases ha : Authenticate cr cfg now req db with
  | mk r d =>
    rw [ha] at hf
    cases r with
    | error resp => exact hf
    | ok uc =>
      obtain ⟨user, claims⟩ := uc
      simp only []
      rw [hh]
      exact hf

/-- The PostgreSQL `ChangePassword` writes to the account table only, and only when
it returns no error. -/
theorem postgres_ChangePassword_frame (kdf : Argon2) (db d : DB) (now : Time)
    (saltRand : Option (List Byte)) (id : UUID) (oldPassword newPassword : String)
    (err : Option GoError)
    (h : postgres.ChangePassword kdf db now saltRand id oldPassword newPassword = .ret (err, d)) :
    d.sessions = db.sessions ∧ d.auditLogs = db.auditLogs ∧
    d.deviceCertificates = db.deviceCertificates ∧
    (err ≠ none → d = db ∧ err ≠ some .authErrInvalidCredentials) := by
  unfold postgres.ChangePassword at h
  repeat' split at h
  all_goals first
    | (simp at h; done)
    | (simp only [Run.ret.injEq, Prod.mk.injEq] at h
       obtain ⟨h1, h2⟩ := h
       subst h1 h2
       simp)

/-- The 400 answer "Current password is incorrect" of `ChangePassword` is never
given. -/
theorem ChangePassword_never_400_incorrect (cr : Crypto) (now : Time)
    (saltRand : Option (List Byte)) (req : ChangePasswordRequest) (ctx : Context)
    (m : RequestMetadata) (db : DB) :
    (ChangePassword cr now saltRand req ctx m db).1 ≠
      ⟨400, .error "Current password is incorrect", []⟩ := by
  unfold ChangePassword
  by_cases hb : bindChangePasswordRequest req = true
  swap
  · simp [hb]
  simp only [hb, Bool.not_true, Bool.false_eq_true, if_false]
  cases hu : ctx.user with
  | none => simp
  | some user =>
    simp only []
    cases hcp : postgres.ChangePassword cr.argon2 db now saltRand user.ID req.CurrentPassword
        req.NewPassword with
    | panic msg => simp
    | ret r =>
      obtain ⟨err, d⟩ := r
      cases err with
      | none => simp
      | some e =>
        have hne : e ≠ .authErrInvalidCredentials := by
          intro he
          subst he
          unfold postgres.ChangePassword at hcp
          repeat' split at hcp
          all_goals simp at hcp
        simp [hne]

/-- The handler `Refresh` is its two steps run back to back. -/
theorem refreshSteps_eq_Refresh (cr : Crypto) (cfg : JWTConfig) (env : Env)
    (req : RefreshRequest) (m : RequestMetadata) (db : DB) :
    refreshSteps cr cfg env req m db = Refresh cr cfg env req m db := by
  unfold refreshSteps RefreshValidate Refresh RefreshRotate
  by_cases hb : bindRefreshRequest req = true
  swap
  · simp [hb]
  simp only [hb, Bool.not_true, Bool.false_eq_true, if_false]
  cases hv : ValidateRefreshToken cr cfg env.now req.RefreshToken with
  | error e => rfl
  | ok claims =>
    simp only []
    cases hh : postgres.ValidateRefreshTokenHash db claims.SessionID
        (HashToken cr req.RefreshToken) with
    | mk ok session =>
      cases ok with
      | false => cases session <;> rfl
      | true =>
        have hg : ∀ x, postgres.GetByID (AuditCreate db x) claims.UserID =
            postgres.GetByID db claims.UserID := fun _ => rfl
        cases hu : postgres.GetByID db claims.UserID with
        | none =>
          cases session with
          | none => simp [hu]
          | some s => by_cases hip : s.IPAddress = m.IP <;> simp [hu, hg, hip]
        | some user =>
          by_cases ha : user.IsActive = true
          · cases session with
            | none => simp [hu, ha, GenerateTokenPair]
            | some s =>
              by_cases hip : s.IPAddress = m.IP <;> simp [hu, hg, hip, ha, GenerateTokenPair]
          · cases session with
            | none => simp [hu, ha]
            | some s => by_cases hip : s.IPAddress = m.IP <;> simp [hu, hg, hip, ha]

/-! ## Lemmas: revocation -/

/-- On a store in which the user has a row with the fingerprint and no such row
is unrevoked, neither service reports the fingerprint trusted, and neither
changes the store. -/
theorem VerifyDeviceCertificate_revoked (db : DB) (now : Time) (certID userID : UUID)
    (fingerprint deviceID : String)
    (hrow : db.deviceCertificates.any
      (fun c => c.UserID == userID && c.Fingerprint == fingerprint) = true)
    (hrev : db.deviceCertificates.any
      (fun c => c.UserID == userID && c.Fingerprint == fingerprint && c.RevokedAt.isNone) =
        false) :
    postgres.VerifyDeviceCertificate db now certID userID fingerprint deviceID =
      ((false, true), db) ∧
    (sqlite.VerifyDeviceCertificate db now certID userID fingerprint deviceID).1.1 = false ∧
    (sqlite.VerifyDeviceCertificate db now certID userID fingerprint deviceID).2 = db := by
  have hm : ¬ ((db.deviceCertificates.filter
      (fun c => c.UserID == userID && c.Fingerprint == fingerprint && c.RevokedAt.isNone)).length
        > 0) := by
    rw [gt_iff_lt, filter_length_pos_iff_any, hrev]
    simp
  refine ⟨?_, ?_, ?_⟩
  · unfold postgres.VerifyDeviceCertificate
    simp only [postgres.certificateConflict, hrow, hrev]
    repeat' split
    all_goals first | rfl | simp_all
  · unfold sqlite.VerifyDeviceCertificate
    simp only [hrow, hm]
    repeat' split
    all_goals first | rfl | simp_all
  · unfold sqlite.VerifyDeviceCertificate
    simp only [hrow, hm]
    repeat' split
    all_goals first | rfl | simp_all

/-- After `RevokeDeviceCertificate` no row with the fingerprint is unrevoked, and the
rows keep their owners and fingerprints. -/
theorem RevokeDeviceCertificate_any (db : DB) (t : Time) (userID revokedBy : UUID)
    (fingerprint : String) :
    (postgres.RevokeDeviceCertificate db t fingerprint revokedBy).deviceCertificates.any
      (fun c => c.UserID == userID && c.Fingerprint == fingerprint && c.RevokedAt.isNone) =
        false ∧
    (postgres.RevokeDeviceCertificate db t fingerprint revokedBy).deviceCertificates.any
      (fun c => c.UserID == userID && c.Fingerprint == fingerprint) =
    db.deviceCertificates.any (fun c => c.UserID == userID && c.Fingerprint == fingerprint) := by
  simp only [postgres.RevokeDeviceCertificate, List.any_map]
  constructor
  · rw [Bool.eq_false_iff]
    intro h
    rw [List.any_eq_true] at h
    obtain ⟨c, _, hc⟩ := h
    by_cases hf : c.Fingerprint = fingerprint <;> simp [hf] at hc
  · congr 1
    funext c
    by_cases hf : c.Fingerprint = fingerprint <;> simp [hf]

/-! ## Lemmas: the failed-attempt counter through `Login` -/

/-- C1. With `postgres.UserService`, a refresh with `T2` after the replay of `T1`
is not rejected.  Login at 1.5 s issues `T1`; `Refresh(T1)` at 3.5 s answers 200
with `T2 ≠ T1`; the replay of `T1` at 5 s is answered 401 and leaves session 7
invalid; `Refresh(T2)` at 6 s is nevertheless answered 200 with a new token
pair.  On the same state the SQLite sibling of `ValidateRefreshTokenHash`
refuses `T2`. -/
theorem Refresh_after_replay_succeeds :
    afterRefresh.1.status = 200 ∧ tokenT2 ≠ tokenT1 ∧
    afterReplay.1 = ⟨401, .error "Session expired or token reused", []⟩ ∧
    postgres.IsSessionValid afterReplay.2 6000000000 7 = false ∧
    (refreshAt 6000000000 tokenT2 afterReplay.2).1.status = 200 ∧
    (refreshAt 6000000000 tokenT2 afterReplay.2).1.body.refreshToken ≠ emptyToken ∧
    (sqlite.ValidateRefreshTokenHash afterReplay.2 6000000000 7
      (HashToken toyCrypto tokenT2)).1 = false := by
  decide

/-- C2. A refresh token can be used twice.  Login at 1.5 s issues `T1`;
`Refresh(T1)` at 1.8 s, in the same second, answers 200 and the refresh token it
issues is `T1` again, so the stored hash is still `HashToken(T1)`; a second
`Refresh(T1)` at 5 s is answered 200, not 401. -/
theorem Refresh_same_token_twice :
    afterQuickRefresh.1.status = 200 ∧
    afterQuickRefresh.1.body.refreshToken = tokenT1 ∧
    (afterQuickRefresh.2.sessions.map (fun s => s.RefreshTokenHash)) =
      [HashToken toyCrypto tokenT1] ∧
    (refreshAt 5000000000 tokenT1 afterQuickRefresh.2).1.status = 200 := by
  decide

/-- C3. For every existing session that is active and unexpired, a `Refresh` whose
validly signed refresh token hashes to a value other than the stored
`refresh_token_hash` is answered 401 with no tokens, leaves the session inactive
(`IsSessionValid` is false) and leaves its stored hash as it was. -/
theorem Refresh_hash_mismatch (cr : Crypto) (cfg : JWTConfig) (env : Env) (req : RefreshRequest)
    (m : RequestMetadata) (db : DB) (claims : TokenClaims) (s : Session)
    (hb : bindRefreshRequest req = true)
    (hvalid : ValidateRefreshToken cr cfg env.now req.RefreshToken = .ok claims)
    (hs : db.sessions.find? (fun x => x.ID == claims.SessionID) = some s)
    (_hactive : s.IsActive = true) (_hunexpired : env.now < s.ExpiresAt)
    (hmis : HashToken cr req.RefreshToken ≠ s.RefreshTokenHash) :
    (Refresh cr cfg env req m db).1 = ⟨401, .error "Session expired or token reused", []⟩ ∧
    (Refresh cr cfg env req m db).2.sessions.find? (fun x => x.ID == claims.SessionID) =
      some { s with IsActive := false } ∧
    postgres.IsSessionValid (Refresh cr cfg env req m db).2 env.now claims.SessionID = false ∧
    (Refresh cr cfg env req m db).2.users = db.users := by
  have hv : postgres.ValidateRefreshTokenHash db claims.SessionID (HashToken cr req.RefreshToken) =
      (false, some s) := by
    simp only [postgres.ValidateRefreshTokenHash, hs]
    simp [Ne.symm hmis]
  have hr : Refresh cr cfg env req m db =
      (⟨401, .error "Session expired or token reused", []⟩,
        AuditCreate (postgres.InvalidateSession db claims.SessionID)
          { ActorID := some claims.UserID, ActorRole := "system",
            ActionType := "refresh_token_reuse_detected", TargetType := "session",
            TargetID := some claims.SessionID,
            Metadata := [("reason", .str "potential_token_theft")],
            IPAddress := m.IP, DeviceID := m.DeviceID, UserAgent := m.UserAgent }) := by
    simp only [Refresh, hb, hvalid, hv]
    simp
  have hfind : (postgres.InvalidateSession db claims.SessionID).sessions.find?
      (fun x => x.ID == claims.SessionID) = some { s with IsActive := false } := by
    have hsid : s.ID = claims.SessionID := by
      have := List.find?_some hs
      simpa using this
    simp only [postgres.InvalidateSession]
    rw [find?_map_preserve, hs]
    · simp [hsid]
    · intro x
      by_cases hx : x.ID = claims.SessionID <;> simp [hx]
  rw [hr]
  refine ⟨rfl, hfind, ?_, rfl⟩
  simp only [postgres.IsSessionValid, AuditCreate, hfind]
  simp

/-- Witness for C3: `exampleRefreshToken` presented at 2 s against
`exampleSessionDB`, whose session 7 stores another hash. -/
theorem Refresh_hash_mismatch_witness :
    (ValidateRefreshToken toyCrypto exampleConfig (exampleEnv 2000000000).now
        exampleRefreshToken = .ok exampleRefreshClaims ∧
      exampleSessionDB.sessions.find? (fun x => x.ID == exampleRefreshClaims.SessionID) =
        some exampleSession ∧
      exampleSession.IsActive = true ∧ (exampleEnv 2000000000).now < exampleSession.ExpiresAt ∧
      HashToken toyCrypto exampleRefreshToken ≠ exampleSession.RefreshTokenHash) ∧
    ((Refresh toyCrypto exampleConfig (exampleEnv 2000000000) ⟨exampleRefreshToken⟩ exampleMeta
        exampleSessionDB).1 = ⟨401, .error "Session expired or token reused", []⟩ ∧
      (Refresh toyCrypto exampleConfig (exampleEnv 2000000000) ⟨exampleRefreshToken⟩ exampleMeta
        exampleSessionDB).2.sessions.find? (fun x => x.ID == exampleRefreshClaims.SessionID) =
        some { exampleSession with IsActive := false } ∧
      postgres.IsSessionValid (Refresh toyCrypto exampleConfig (exampleEnv 2000000000)
        ⟨exampleRefreshToken⟩ exampleMeta exampleSessionDB).2 (exampleEnv 2000000000).now
        exampleRefreshClaims.SessionID = false ∧
      (Refresh toyCrypto exampleConfig (exampleEnv 2000000000) ⟨exampleRefreshToken⟩ exampleMeta
        exampleSessionDB).2.users = exampleSessionDB.users) :=
  ⟨by decide,
    Refresh_hash_mismatch toyCrypto exampleConfig (exampleEnv 2000000000) ⟨exampleRefreshToken⟩
      exampleMeta exampleSessionDB exampleRefreshClaims exampleSession (by decide) (by decide)
      (by decide) (by decide) (by decide) (by decide)⟩

/-- C4. For every active, unlocked account with `failed_attempts = 0`: after five
consecutive `Login` attempts with a wrong password the account has
`failed_attempts = 5` and `locked_until` = (instant of the fifth attempt) + 15
minutes, and a sixth `Login` with the correct password at any instant before
that `locked_until` is answered 429 carrying that `locked_until`, and no session
is created by any of the six requests. -/
theorem Login_lockout (cr : Crypto) (cfg : JWTConfig) (db : DB) (email : String) (u : User)
    (a1 a2 a3 a4 a5 a6 : Attempt)
    (hu : postgres.GetByEmail db email = some u) (hact : u.IsActive = true)
    (hzero : u.FailedLoginAttempts = 0)
    (hfive : ∀ a ∈ [a1, a2, a3, a4, a5], bindLoginRequest a.env.validEmail a.req = true ∧
      a.req.Email = email ∧
      VerifyPassword cr.argon2 a.req.Password u.PasswordHash = .ret false ∧
      ∀ t, u.LockedUntil = some t → t ≤ a.env.now)
    (h6bind : bindLoginRequest a6.env.validEmail a6.req = true)
    (h6mail : a6.req.Email = email)
    (_h6pw : VerifyPassword cr.argon2 a6.req.Password u.PasswordHash = .ret true)
    (h6time : a6.env.now < a5.env.now + 15 * Minute) :
    (∃ u5, postgres.GetByEmail (runLogins cr cfg db [a1, a2, a3, a4, a5]) email = some u5 ∧
      u5.FailedLoginAttempts = 5 ∧ u5.LockedUntil = some (a5.env.now + 15 * Minute)) ∧
    (Login cr cfg a6.env a6.req a6.meta (runLogins cr cfg db [a1, a2, a3, a4, a5])).1 =
      ⟨429, .locked "Account temporarily locked due to too many failed attempts"
        (some (a5.env.now + 15 * Minute)), []⟩ ∧
    (Login cr cfg a6.env a6.req a6.meta (runLogins cr cfg db [a1, a2, a3, a4, a5])).2.sessions =
      db.sessions := by
  obtain ⟨u4, g4, f4, l4, act4, pw4, s4⟩ :=
    runLogins_wrong_passwords cr cfg email u.PasswordHash u.LockedUntil [a1, a2, a3, a4] db u hu
      hact rfl rfl (fun a ha => hfive a (by simp at ha ⊢; tauto))
      (by rw [hzero]; simp only [List.length_cons, List.length_nil]; omega)
  obtain ⟨hbind5, hmail5, hwrong5, htime5⟩ := hfive a5 (by simp)
  have hstep := Login_wrong_password cr cfg a5.env a5.req a5.meta
    (runLogins cr cfg db [a1, a2, a3, a4]) u4 hbind5 (hmail5 ▸ g4)
    (fun t ht => htime5 t (l4 ▸ ht)) act4 (pw4 ▸ hwrong5)
  have hget := GetByEmail_IncrementFailedLoginAttempts (runLogins cr cfg db [a1, a2, a3, a4])
    a5.env.now email u4 g4
  have hf4 : u4.FailedLoginAttempts = 4 := by rw [f4, hzero]; rfl
  have hge : u4.FailedLoginAttempts + 1 ≥ 5 := by omega
  simp only [hge, if_true] at hget
  have hrun : runLogins cr cfg db [a1, a2, a3, a4, a5] =
      (Login cr cfg a5.env a5.req a5.meta (runLogins cr cfg db [a1, a2, a3, a4])).2 := rfl
  have hget5 : postgres.GetByEmail (runLogins cr cfg db [a1, a2, a3, a4, a5]) email =
      some { u4 with FailedLoginAttempts := u4.FailedLoginAttempts + 1,
                     LockedUntil := some (a5.env.now + 15 * Minute),
                     UpdatedAt := a5.env.now } := by
    rw [hrun, hstep]; exact hget
  have hsess5 : (runLogins cr cfg db [a1, a2, a3, a4, a5]).sessions = db.sessions := by
    rw [hrun, hstep, ← s4]; rfl
  have h6 := Login_locked_eq cr cfg a6.env a6.req a6.meta (runLogins cr cfg db [a1, a2, a3, a4, a5])
    _ (a5.env.now + 15 * Minute) h6bind (h6mail ▸ hget5) rfl h6time
  refine ⟨⟨_, hget5, ?_, rfl⟩, ?_, ?_⟩
  · simp only [hf4]; rfl
  · rw [h6]
  · rw [h6, ← hsess5]; rfl

/-- Witness for C4: five wrong passwords on `exampleUser` at 1 s to 5 s, then the
right password at 6 s. -/
theorem Login_lockout_witness :
    (postgres.GetByEmail exampleDB "user@x.com" = some exampleUser ∧
      exampleUser.IsActive = true ∧ exampleUser.FailedLoginAttempts = 0 ∧
      VerifyPassword toyCrypto.argon2 (rightAttempt 6000000000).req.Password
        exampleUser.PasswordHash = .ret true ∧
      (rightAttempt 6000000000).env.now < (wrongAttempt 5000000000).env.now + 15 * Minute) ∧
    ((∃ u5, postgres.GetByEmail (runLogins toyCrypto exampleConfig exampleDB
        [wrongAttempt 1000000000, wrongAttempt 2000000000, wrongAttempt 3000000000,
          wrongAttempt 4000000000, wrongAttempt 5000000000]) "user@x.com" = some u5 ∧
        u5.FailedLoginAttempts = 5 ∧
        u5.LockedUntil = some ((wrongAttempt 5000000000).env.now + 15 * Minute)) ∧
      (Login toyCrypto exampleConfig (rightAttempt 6000000000).env (rightAttempt 6000000000).req
        (rightAttempt 6000000000).meta (runLogins toyCrypto exampleConfig exampleDB
        [wrongAttempt 1000000000, wrongAttempt 2000000000, wrongAttempt 3000000000,
          wrongAttempt 4000000000, wrongAttempt 5000000000])).1 =
        ⟨429, .locked "Account temporarily locked due to too many failed attempts"
          (some ((wrongAttempt 5000000000).env.now + 15 * Minute)), []⟩ ∧
      (Login toyCrypto exampleConfig (rightAttempt 6000000000).env (rightAttempt 6000000000).req
        (rightAttempt 6000000000).meta (runLogins toyCrypto exampleConfig exampleDB
        [wrongAttempt 1000000000, wrongAttempt 2000000000, wrongAttempt 3000000000,
          wrongAttempt 4000000000, wrongAttempt 5000000000])).2.sessions = exampleDB.sessions) :=
  ⟨by decide,
    Login_lockout toyCrypto exampleConfig exampleDB "user@x.com" exampleUser
      (wrongAttempt 1000000000) (wrongAttempt 2000000000) (wrongAttempt 3000000000)
      (wrongAttempt 4000000000) (wrongAttempt 5000000000) (rightAttempt 6000000000)
      (by decide) (by decide) (by decide) (by decide) (by decide) (by decide) (by decide)
      (by decide)⟩

/-- C5. For every account with `locked_until > now` and every submitted password
and TOTP code, `Login` answers 429 with that `locked_until`, leaves every
account row (so `failed_attempts` and `locked_until`) and every session as they
were, and its result is the same whatever the password, the TOTP code and the
primitives behind `VerifyPassword` are: the password is not checked. -/
theorem Login_while_locked (cr : Crypto) (cfg : JWTConfig) (env : Env) (req : LoginRequest)
    (m : RequestMetadata) (db : DB) (u : User) (lockedUntil : Time)
    (hb : bindLoginRequest env.validEmail req = true)
    (hu : postgres.GetByEmail db req.Email = some u)
    (hl : u.LockedUntil = some lockedUntil) (hnow : env.now < lockedUntil) :
    (Login cr cfg env req m db).1 =
      ⟨429, .locked "Account temporarily locked due to too many failed attempts"
        (some lockedUntil), []⟩ ∧
    (Login cr cfg env req m db).2.users = db.users ∧
    (Login cr cfg env req m db).2.sessions = db.sessions ∧
    postgres.GetByEmail (Login cr cfg env req m db).2 req.Email = some u ∧
    ∀ (cr2 : Crypto) (password totp : String), password ≠ "" →
      Login cr2 cfg env { req with Password := password, TOTPCode := totp } m db =
        Login cr cfg env req m db := by
  have h := Login_locked_eq cr cfg env req m db u lockedUntil hb hu hl hnow
  refine ⟨by rw [h], by rw [h]; rfl, by rw [h]; rfl, by rw [h]; exact hu, ?_⟩
  intro cr2 password totp hpw
  have hb2 : bindLoginRequest env.validEmail
      { req with Password := password, TOTPCode := totp } = true := by
    simp only [bindLoginRequest, Bool.and_eq_true, bne_iff_ne, ne_eq] at hb ⊢
    exact ⟨hb.1, hpw⟩
  rw [h, Login_locked_eq cr2 cfg env { req with Password := password, TOTPCode := totp } m db u
    lockedUntil hb2 hu hl hnow]

/-- Witness for C5: `exampleUser` after five wrong passwords, asked at 6 s. -/
theorem Login_while_locked_witness :
    (postgres.GetByEmail (runLogins toyCrypto exampleConfig exampleDB fiveWrongAttempts)
        (rightAttempt 6000000000).req.Email =
        some { exampleUser with FailedLoginAttempts := 5, LockedUntil := some 905000000000,
                                UpdatedAt := 5000000000 } ∧
      (exampleEnv 6000000000).now < 905000000000) ∧
    ((Login toyCrypto exampleConfig (exampleEnv 6000000000) (rightAttempt 6000000000).req
        exampleMeta (runLogins toyCrypto exampleConfig exampleDB fiveWrongAttempts)).1 =
        ⟨429, .locked "Account temporarily locked due to too many failed attempts"
          (some 905000000000), []⟩ ∧
      (Login toyCrypto exampleConfig (exampleEnv 6000000000) (rightAttempt 6000000000).req
        exampleMeta (runLogins toyCrypto exampleConfig exampleDB fiveWrongAttempts)).2.users =
        (runLogins toyCrypto exampleConfig exampleDB fiveWrongAttempts).users ∧
      (Login toyCrypto exampleConfig (exampleEnv 6000000000) (rightAttempt 6000000000).req
        exampleMeta (runLogins toyCrypto exampleConfig exampleDB fiveWrongAttempts)).2.sessions =
        (runLogins toyCrypto exampleConfig exampleDB fiveWrongAttempts).sessions ∧
      postgres.GetByEmail (Login toyCrypto exampleConfig (exampleEnv 6000000000)
        (rightAttempt 6000000000).req exampleMeta
        (runLogins toyCrypto exampleConfig exampleDB fiveWrongAttempts)).2
        (rightAttempt 6000000000).req.Email =
        some { exampleUser with FailedLoginAttempts := 5, LockedUntil := some 905000000000,
                                UpdatedAt := 5000000000 } ∧
      ∀ (cr2 : Crypto) (password totp : String), password ≠ "" →
        Login cr2 exampleConfig (exampleEnv 6000000000)
          { (rightAttempt 6000000000).req with Password := password, TOTPCode := totp }
          exampleMeta (runLogins toyCrypto exampleConfig exampleDB fiveWrongAttempts) =
        Login toyCrypto exampleConfig (exampleEnv 6000000000) (rightAttempt 6000000000).req
          exampleMeta (runLogins toyCrypto exampleConfig exampleDB fiveWrongAttempts)) :=
  ⟨by decide,
    Login_while_locked toyCrypto exampleConfig (exampleEnv 6000000000)
      (rightAttempt 6000000000).req exampleMeta
      (runLogins toyCrypto exampleConfig exampleDB fiveWrongAttempts) _ 905000000000
      (by decide) (by decide) rfl (by decide)⟩

/-- C7. For every password and every 16-byte salt drawn by `HashPassword`, the
string it returns splits on `$` into exactly six parts, its parameter segment is
`m=65536,t=1,p=4` and scans back to those numbers, its salt and hash segments
decode to the octets that were encoded, and `VerifyPassword` accepts the
password against it. -/
theorem VerifyPassword_HashPassword (kdf : Argon2) (p : String) (salt : List Byte)
    (_hsalt : salt.length = saltLen) :
    ∃ enc p4 p5,
      HashPassword kdf (some salt) p = .ret (.ok enc) ∧
      enc.toList.splitOn '$' =
        [[], "argon2id".toList, "v=19".toList, "m=65536,t=1,p=4".toList, p4, p5] ∧
      SscanfParams "m=65536,t=1,p=4".toList = some (65536, 1, 4) ∧
      DecodeString p4 = some salt ∧
      DecodeString p5 = some (kdf.derive p salt 1 65536 4 32) ∧
      VerifyPassword kdf p enc = .ret true := by
  have hlen : (kdf.derive p salt 1 65536 4 32).length = 32 := kdf.length_derive _ _ _ _ _ _
  refine ⟨encodeHash 65536 1 4 (EncodeToString salt)
    (EncodeToString (kdf.derive p salt 1 65536 4 32)), EncodeToString salt,
    EncodeToString (kdf.derive p salt 1 65536 4 32), ?_, ?_, ?_, ?_, ?_, ?_⟩
  · simp [HashPassword, IDKey, argonTime, argonMemory, argonThreads, argonKeyLen]
  · rw [split_encodeHash _ _ _ _ _ (fun h => (EncodeToString_no_special _ _ h).1 rfl)
      (fun h => (EncodeToString_no_special _ _ h).1 rfl)]
    rfl
  · decide
  · exact DecodeString_EncodeToString salt
  · exact DecodeString_EncodeToString _
  · rw [VerifyPassword_encodeHash kdf p 65536 1 4 salt _ (by decide) (by decide) (by decide)
      (by decide) (by decide) (by omega) (by omega), hlen]
    simp [ConstantTimeCompare]

/-- Witness for C7: the stand-in derivation, password `"pw"` and a salt of sixteen
octets 7. -/
theorem VerifyPassword_HashPassword_witness :
    (List.replicate 16 (toByte 7)).length = saltLen ∧
    ∃ enc p4 p5,
      HashPassword toyArgon2 (some (List.replicate 16 (toByte 7))) "pw" = .ret (.ok enc) ∧
      enc.toList.splitOn '$' =
        [[], "argon2id".toList, "v=19".toList, "m=65536,t=1,p=4".toList, p4, p5] ∧
      SscanfParams "m=65536,t=1,p=4".toList = some (65536, 1, 4) ∧
      DecodeString p4 = some (List.replicate 16 (toByte 7)) ∧
      DecodeString p5 = some (toyArgon2.derive "pw" (List.replicate 16 (toByte 7)) 1 65536 4 32) ∧
      VerifyPassword toyArgon2 "pw" enc = .ret true :=
  ⟨by decide, VerifyPassword_HashPassword toyArgon2 "pw" (List.replicate 16 (toByte 7)) (by decide)⟩

/-- C8. `VerifyPassword` does not return `false` on every malformed stored string:
on a stored string whose parameter segment scans but carries `t=0` or `p=0`, the
call to `argon2.IDKey` panics, for every derivation and password `"x"`. -/
theorem VerifyPassword_zero_parameter_panics (kdf : Argon2) :
    VerifyPassword kdf "x" "$argon2id$v=19$m=65536,t=0,p=4$c2FsdA$aGFzaA" =
      .panic "argon2: number of rounds too small" ∧
    VerifyPassword kdf "x" "$argon2id$v=19$m=65536,t=1,p=0$c2FsdA$aGFzaA" =
      .panic "argon2: parallelism degree too low" :=
  ⟨rfl, rfl⟩

/-- C9. For every password, salt, parameters `m`, `t ≥ 1`, `par ≥ 1` within their
types (`uint32`, `uint32`, `uint8`), whether or not they are the package
defaults, and key length `1 ≤ L < 2^32`: `VerifyPassword` accepts the password
against `$argon2id$v=19$m=<m>,t=<t>,p=<par>$<b64(s)>$<b64(Argon2id(p,s,t,m,par,L))>`,
so the key is re-derived with the stored parameters and the stored key length. -/
theorem VerifyPassword_stored_parameters (kdf : Argon2) (p : String) (s : List Byte)
    (m t par L : Nat) (hm : m < 2 ^ 32) (ht1 : 1 ≤ t) (ht : t < 2 ^ 32) (hp1 : 1 ≤ par)
    (hp : par < 2 ^ 8) (hL1 : 1 ≤ L) (hL : L < 2 ^ 32) :
    VerifyPassword kdf p
      (encodeHash m t par (EncodeToString s) (EncodeToString (kdf.derive p s t m par L))) =
      .ret true := by
  have hlen : (kdf.derive p s t m par L).length = L := kdf.length_derive _ _ _ _ _ _
  rw [VerifyPassword_encodeHash kdf p m t par s _ hm ht1 ht hp1 hp (by omega) (by omega), hlen]
  simp [ConstantTimeCompare]

/-- Witness for C9: parameters `m=1024, t=3, p=2`, key length 16, none of them a
package default. -/
theorem VerifyPassword_stored_parameters_witness :
    (1024 < 2 ^ 32 ∧ 1 ≤ 3 ∧ 3 < 2 ^ 32 ∧ 1 ≤ 2 ∧ 2 < 2 ^ 8 ∧ 1 ≤ 16 ∧ 16 < 2 ^ 32) ∧
    VerifyPassword toyArgon2 "pw"
      (encodeHash 1024 3 2 (EncodeToString [toByte 1, toByte 2])
        (EncodeToString (toyArgon2.derive "pw" [toByte 1, toByte 2] 3 1024 2 16))) = .ret true :=
  ⟨by decide, VerifyPassword_stored_parameters toyArgon2 "pw" [toByte 1, toByte 2] 1024 3 2 16
    (by decide) (by decide) (by decide) (by decide) (by decide) (by decide) (by decide)⟩

/-- C10, counterexample. With the default expiry of fifteen minutes, a pair issued
at 1.5 s carries `ExpiresAt` = 901.5 s, yet its access token is already refused
as expired at 901.2 s, before that expiry time. -/
theorem ValidateAccessToken_expired_before_ExpiresAt :
    ∃ tp, GenerateTokenPair toyCrypto exampleConfig 1500000000 exampleUser 7 = .ok tp ∧
      0 < exampleConfig.AccessExpiry ∧ tp.ExpiresAt = 901500000000 ∧
      (1500000000 : Time) ≤ 901200000000 ∧ (901200000000 : Time) < tp.ExpiresAt ∧
      ValidateAccessToken toyCrypto exampleConfig 901200000000 tp.AccessToken =
        .error .ErrTokenExpired :=
  ⟨_, rfl, by decide, by decide, by decide, by decide, by decide⟩

/-- C10, amended. For every user, session id and configuration with
`AccessExpiry > 0`, the access token returned by `GenerateTokenPair` at instant
`issue` has as expiry time its `exp` claim, the instant `issue + AccessExpiry`
truncated down to a whole second.  `ValidateAccessToken` applied at `t`, not
before `issue` and before that expiry time, succeeds with `UserID = user.ID`,
`SessionID = sessionID` and `Role = user.Role`; applied at or after that expiry
time it fails with `ErrTokenExpired`. -/
theorem ValidateAccessToken_GenerateTokenPair (cr : Crypto) (cfg : JWTConfig) (issue t : Time)
    (user : User) (sessionID : UUID) (_hexp : 0 < cfg.AccessExpiry) :
    ∃ tp, GenerateTokenPair cr cfg issue user sessionID = .ok tp ∧
      (issue ≤ t → t < NewNumericDate (issue + cfg.AccessExpiry) →
        ∃ claims, ValidateAccessToken cr cfg t tp.AccessToken = .ok claims ∧
          claims.UserID = user.ID ∧ claims.SessionID = sessionID ∧ claims.Role = user.Role) ∧
      (NewNumericDate (issue + cfg.AccessExpiry) ≤ t →
        ValidateAccessToken cr cfg t tp.AccessToken = .error .ErrTokenExpired) := by
  refine ⟨_, rfl, ?_, ?_⟩
  · intro h1 h2
    have h3 : ¬ NewNumericDate (issue + cfg.AccessExpiry) ≤ t := by
      unfold Time at *; omega
    have h4 : ¬ t < NewNumericDate issue := by
      have := NewNumericDate_le issue
      unfold Time at *; omega
    rw [ValidateAccessToken_issued cr cfg issue t user sessionID _ rfl]
    simp only [h3, h4, if_false]
    exact ⟨_, rfl, rfl, rfl, rfl⟩
  · intro h1
    rw [ValidateAccessToken_issued cr cfg issue t user sessionID _ rfl]
    simp only [h1, if_true]

/-- Witness for C10: default configuration, issue at 1.5 s; validation at 900 s
succeeds and validation at 901 s, the truncated expiry, fails as expired. -/
theorem ValidateAccessToken_GenerateTokenPair_witness :
    0 < exampleConfig.AccessExpiry ∧
    (1500000000 : Time) ≤ 900000000000 ∧
    (900000000000 : Time) < NewNumericDate (1500000000 + exampleConfig.AccessExpiry) ∧
    ∃ tp, GenerateTokenPair toyCrypto exampleConfig 1500000000 exampleUser 7 = .ok tp ∧
      ((1500000000 : Time) ≤ 900000000000 →
        (900000000000 : Time) < NewNumericDate (1500000000 + exampleConfig.AccessExpiry) →
        ∃ claims, ValidateAccessToken toyCrypto exampleConfig 900000000000 tp.AccessToken =
            .ok claims ∧
          claims.UserID = exampleUser.ID ∧ claims.SessionID = 7 ∧
          claims.Role = exampleUser.Role) ∧
      (NewNumericDate (1500000000 + exampleConfig.AccessExpiry) ≤ 900000000000 →
        ValidateAccessToken toyCrypto exampleConfig 900000000000 tp.AccessToken =
          .error .ErrTokenExpired) :=
  ⟨by decide, by decide, by decide,
    ValidateAccessToken_GenerateTokenPair toyCrypto exampleConfig 1500000000 900000000000
      exampleUser 7 (by decide)⟩

/-- C11, counterexample. The claims `ValidateRefreshToken` recovers from the
refresh token issued to `exampleUser` have an empty email and an empty role,
not the email and role of the user. -/
theorem refresh_claims_without_email_role :
    ∃ tp claims, GenerateTokenPair toyCrypto exampleConfig 1500000000 exampleUser 7 = .ok tp ∧
      ValidateRefreshToken toyCrypto exampleConfig 2000000000 tp.RefreshToken = .ok claims ∧
      claims.Email = "" ∧ claims.Role = "" ∧
      claims.Email ≠ exampleUser.Email ∧ claims.Role ≠ exampleUser.Role :=
  ⟨_, exampleRefreshClaims, rfl, by decide, by decide, by decide, by decide, by decide⟩

/-- C11, amended. For every user and session id, while both tokens returned by
`GenerateTokenPair` are unexpired: the claims of the access token have
`UserID = user.ID`, `SessionID = sessionID`, `Email = user.Email` and
`Role = user.Role`; the claims `ValidateRefreshToken` recovers from the refresh
token have `UserID = user.ID` and `SessionID = sessionID` but an empty `Email`
and an empty `Role`; both carry the issuer, the issue instant and an expiry. -/
theorem GenerateTokenPair_claims (cr : Crypto) (cfg : JWTConfig) (issue t : Time) (user : User)
    (sessionID : UUID) (ht : issue ≤ t) (hta : t < NewNumericDate (issue + cfg.AccessExpiry))
    (htr : t < NewNumericDate (issue + cfg.RefreshExpiry)) :
    ∃ tp ca cf, GenerateTokenPair cr cfg issue user sessionID = .ok tp ∧
      ValidateAccessToken cr cfg t tp.AccessToken = .ok ca ∧
      ValidateRefreshToken cr cfg t tp.RefreshToken = .ok cf ∧
      ca.UserID = user.ID ∧ ca.SessionID = sessionID ∧ ca.Email = user.Email ∧
      ca.Role = user.Role ∧
      cf.UserID = user.ID ∧ cf.SessionID = sessionID ∧ cf.Email = "" ∧ cf.Role = "" ∧
      ca.Registered.Issuer = "srams" ∧ cf.Registered.Issuer = "srams" ∧
      ca.Registered.IssuedAt = some (NewNumericDate issue) ∧
      cf.Registered.IssuedAt = some (NewNumericDate issue) ∧
      ca.Registered.ExpiresAt = some (NewNumericDate (issue + cfg.AccessExpiry)) ∧
      cf.Registered.ExpiresAt = some (NewNumericDate (issue + cfg.RefreshExpiry)) := by
  have h3 : ¬ NewNumericDate (issue + cfg.AccessExpiry) ≤ t := by
    unfold Time at *; omega
  have h4 : ¬ t < NewNumericDate issue := by
    have := NewNumericDate_le issue
    unfold Time at *; omega
  have h5 : ¬ NewNumericDate (issue + cfg.RefreshExpiry) ≤ t := by
    unfold Time at *; omega
  have hA := ValidateAccessToken_issued cr cfg issue t user sessionID _ rfl
  have hR := ValidateRefreshToken_issued cr cfg issue t user sessionID _ rfl
  simp only [h3, h4, if_false] at hA
  simp only [h5, if_false] at hR
  exact ⟨_, _, _, rfl, hA, hR, rfl, rfl, rfl, rfl, rfl, rfl, rfl, rfl, rfl, rfl, rfl, rfl, rfl,
    rfl⟩

/-- Witness for C11: `exampleUser`, issue at 1.5 s, validation at 2 s. -/
theorem GenerateTokenPair_claims_witness :
    ((1500000000 : Time) ≤ 2000000000 ∧
      (2000000000 : Time) < NewNumericDate (1500000000 + exampleConfig.AccessExpiry) ∧
      (2000000000 : Time) < NewNumericDate (1500000000 + exampleConfig.RefreshExpiry)) ∧
    ∃ tp ca cf, GenerateTokenPair toyCrypto exampleConfig 1500000000 exampleUser 7 = .ok tp ∧
      ValidateAccessToken toyCrypto exampleConfig 2000000000 tp.AccessToken = .ok ca ∧
      ValidateRefreshToken toyCrypto exampleConfig 2000000000 tp.RefreshToken = .ok cf ∧
      ca.UserID = exampleUser.ID ∧ ca.SessionID = 7 ∧ ca.Email = exampleUser.Email ∧
      ca.Role = exampleUser.Role ∧
      cf.UserID = exampleUser.ID ∧ cf.SessionID = 7 ∧ cf.Email = "" ∧ cf.Role = "" ∧
      ca.Registered.Issuer = "srams" ∧ cf.Registered.Issuer = "srams" ∧
      ca.Registered.IssuedAt = some (NewNumericDate 1500000000) ∧
      cf.Registered.IssuedAt = some (NewNumericDate 1500000000) ∧
      ca.Registered.ExpiresAt = some (NewNumericDate (1500000000 + exampleConfig.AccessExpiry)) ∧
      cf.Registered.ExpiresAt =
        some (NewNumericDate (1500000000 + exampleConfig.RefreshExpiry)) :=
  ⟨by decide,
    GenerateTokenPair_claims toyCrypto exampleConfig 1500000000 2000000000 exampleUser 7
      (by decide) (by decide) (by decide)⟩

/-- C12. For every input string, `ValidateAccessToken` and `ValidateRefreshToken`
return claims or fail with `ErrTokenExpired` or with `ErrInvalidToken`.
`ErrTokenExpired` is returned only for a well-formed token with an HMAC
algorithm, signed with the secret of that validator, whose `exp` has passed;
a malformed string, a non-HMAC algorithm and a signature that is not the one
the validator's secret gives are `ErrInvalidToken`, and so is a token of a
generated pair presented to the other validator when the two secrets give
different signatures. -/
theorem ValidateToken_failures (cr : Crypto) (cfg : JWTConfig) (now : Time) (tok : TokenString) :
    ((∃ c, ValidateAccessToken cr cfg now tok = .ok c) ∨
      ValidateAccessToken cr cfg now tok = .error .ErrTokenExpired ∨
      ValidateAccessToken cr cfg now tok = .error .ErrInvalidToken) ∧
    ((∃ c, ValidateRefreshToken cr cfg now tok = .ok c) ∨
      ValidateRefreshToken cr cfg now tok = .error .ErrTokenExpired ∨
      ValidateRefreshToken cr cfg now tok = .error .ErrInvalidToken) ∧
    (ValidateAccessToken cr cfg now tok = .error .ErrTokenExpired →
      ∃ alg c exp, tok = .jws alg c (cr.hmac alg cfg.AccessSecret (alg, c)) ∧
        isHMAC alg = true ∧ c.Registered.ExpiresAt = some exp ∧ exp ≤ now) ∧
    (ValidateRefreshToken cr cfg now tok = .error .ErrTokenExpired →
      ∃ alg c exp, tok = .jws alg c (cr.hmac alg cfg.RefreshSecret (alg, c)) ∧
        isHMAC alg = true ∧ c.Registered.ExpiresAt = some exp ∧ exp ≤ now) ∧
    (∀ raw, tok = .malformed raw →
      ValidateAccessToken cr cfg now tok = .error .ErrInvalidToken ∧
      ValidateRefreshToken cr cfg now tok = .error .ErrInvalidToken) ∧
    (∀ alg c sig, tok = .jws alg c sig → isHMAC alg = false →
      ValidateAccessToken cr cfg now tok = .error .ErrInvalidToken ∧
      ValidateRefreshToken cr cfg now tok = .error .ErrInvalidToken) ∧
    (∀ alg c sig, tok = .jws alg c sig → sig ≠ cr.hmac alg cfg.AccessSecret (alg, c) →
      ValidateAccessToken cr cfg now tok = .error .ErrInvalidToken) ∧
    (∀ alg c sig, tok = .jws alg c sig → sig ≠ cr.hmac alg cfg.RefreshSecret (alg, c) →
      ValidateRefreshToken cr cfg now tok = .error .ErrInvalidToken) ∧
    (∀ issue user sessionID tp, GenerateTokenPair cr cfg issue user sessionID = .ok tp →
      (∀ x, cr.hmac "HS256" cfg.AccessSecret x ≠ cr.hmac "HS256" cfg.RefreshSecret x) →
      ValidateRefreshToken cr cfg now tp.AccessToken = .error .ErrInvalidToken ∧
      ValidateAccessToken cr cfg now tp.RefreshToken = .error .ErrInvalidToken) := by
  have hsig : ∀ (secret : String) alg c sig, sig ≠ cr.hmac alg secret (alg, c) →
      ∃ e, ParseWithClaims cr now secret (.jws alg c sig) = .error e ∧ e.isExpired = false := by
    intro secret alg c sig hs
    by_cases hh : isHMAC alg = true
    · exact ⟨_, (ParseWithClaims_error_cases cr now secret _).2.2 alg c sig rfl hh hs, rfl⟩
    · simp only [Bool.not_eq_true] at hh
      exact ⟨_, (ParseWithClaims_error_cases cr now secret _).2.1 alg c sig rfl hh, rfl⟩
  have hout : ∀ (r : Except AuthError TokenClaims),
      (∃ c, r = .ok c) ∨ r = .error .ErrTokenExpired ∨ r = .error .ErrInvalidToken := by
    intro r
    cases r with
    | ok c => exact Or.inl ⟨c, rfl⟩
    | error e => cases e <;> simp
  have hexp : ∀ (secret : String),
      (match ParseWithClaims cr now secret tok with
        | .error err =>
          if err.isExpired then (Except.error AuthError.ErrTokenExpired : Except AuthError TokenClaims)
          else .error .ErrInvalidToken
        | .ok claims => .ok claims) = .error .ErrTokenExpired →
      ∃ alg c exp, tok = .jws alg c (cr.hmac alg secret (alg, c)) ∧
        isHMAC alg = true ∧ c.Registered.ExpiresAt = some exp ∧ exp ≤ now := by
    intro secret h
    cases hp : ParseWithClaims cr now secret tok with
    | ok c => simp [hp] at h
    | error e =>
      by_cases hx : e.isExpired = true
      · exact ParseWithClaims_expired cr now secret tok e hp hx
      · simp [hp, hx] at h
  refine ⟨hout _, hout _, hexp cfg.AccessSecret, hexp cfg.RefreshSecret, ?_, ?_, ?_, ?_, ?_⟩
  · intro raw h; subst h; exact ⟨rfl, rfl⟩
  · intro alg c sig h hh
    subst h
    have h1 := (ParseWithClaims_error_cases cr now cfg.AccessSecret _).2.1 alg c sig rfl hh
    have h2 := (ParseWithClaims_error_cases cr now cfg.RefreshSecret _).2.1 alg c sig rfl hh
    simp [ValidateAccessToken, ValidateRefreshToken, h1, h2, JwtError.isExpired]
  · intro alg c sig h hs
    subst h
    obtain ⟨e, h1, h2⟩ := hsig cfg.AccessSecret alg c sig hs
    simp [ValidateAccessToken, h1, h2]
  · intro alg c sig h hs
    subst h
    obtain ⟨e, h1, h2⟩ := hsig cfg.RefreshSecret alg c sig hs
    simp [ValidateRefreshToken, h1, h2]
  · intro issue user sessionID tp hg hdiff
    simp only [GenerateTokenPair, Except.ok.injEq] at hg
    subst hg
    obtain ⟨e1, h1, h2⟩ := hsig cfg.RefreshSecret "HS256" _ _ (hdiff _)
    obtain ⟨e3, h3, h4⟩ := hsig cfg.AccessSecret "HS256" _ _ (Ne.symm (hdiff _))
    refine ⟨?_, ?_⟩
    · simp only [ValidateRefreshToken, SignedString]
      rw [h1]; simp [h2]
    · simp only [ValidateAccessToken, SignedString]
      rw [h3]; simp [h4]

/-- Witness for C12: a malformed string, and the cross use of a generated pair
under the stand-in primitives. -/
theorem ValidateToken_failures_witness :
    (ValidateAccessToken toyCrypto exampleConfig 2000000000 (.malformed "garbage") =
        .error .ErrInvalidToken ∧
      ValidateRefreshToken toyCrypto exampleConfig 2000000000 (.malformed "garbage") =
        .error .ErrInvalidToken) ∧
    (∀ x, toyCrypto.hmac "HS256" exampleConfig.AccessSecret x ≠
      toyCrypto.hmac "HS256" exampleConfig.RefreshSecret x) ∧
    (∀ tp, GenerateTokenPair toyCrypto exampleConfig 1500000000 exampleUser 7 = .ok tp →
      ValidateRefreshToken toyCrypto exampleConfig 2000000000 tp.AccessToken =
        .error .ErrInvalidToken ∧
      ValidateAccessToken toyCrypto exampleConfig 2000000000 tp.RefreshToken =
        .error .ErrInvalidToken) := by
  have hdiff : ∀ x, toyCrypto.hmac "HS256" exampleConfig.AccessSecret x ≠
      toyCrypto.hmac "HS256" exampleConfig.RefreshSecret x := by
    intro x h
    simp only [toyCrypto, exampleConfig, toByte, List.cons.injEq, and_true] at h
    have h2 := congrArg Fin.val h
    simp only [String.length] at h2
    simp at h2
    omega
  have h := ValidateToken_failures toyCrypto exampleConfig 2000000000 (.malformed "garbage")
  exact ⟨h.2.2.2.2.1 "garbage" rfl, hdiff,
    fun tp htp => h.2.2.2.2.2.2.2.2 1500000000 exampleUser 7 tp htp hdiff⟩

/-- C14. A device mismatch is not answered 403.  `exampleAdmin`, a super_admin with
the unrevoked certificate `F1` and none with `F2`, logs in from 127.0.0.1 with
the right password presenting `F2`: `Login` answers 500 "Device verification
failed" and the store is unchanged, so no audit event is written (and no
session or certificate is created).  The PostgreSQL `VerifyDeviceCertificate`
returns an error on a mismatch; the SQLite sibling returns false without
error, which is what the 403 branch of the handler expects. -/
theorem Login_device_mismatch_is_500 :
    certF1.UserID = exampleAdmin.ID ∧ certF1.RevokedAt = none ∧ certF1.Fingerprint ≠ "F2" ∧
    exampleAdmin.Role = RoleSuperAdmin ∧
    IsServerMachine (exampleEnv 6000000000).serverIPs localMeta.IP = true ∧
    VerifyPassword toyCrypto.argon2 (adminRequest "F2").Password exampleAdmin.PasswordHash =
      .ret true ∧
    Login toyCrypto exampleConfig (exampleEnv 6000000000) (adminRequest "F2") localMeta
      exampleAdminDB = (⟨500, .error "Device verification failed", []⟩, exampleAdminDB) ∧
    sqlite.VerifyDeviceCertificate exampleAdminDB 6000000000 8 2 "F2" "dev" =
      ((false, false), exampleAdminDB) := by
  decide

/-- C15. For every active, unlocked account with `totp_enabled = true`, `Login`
with the correct password and an empty `totp_code` answers 200 with
`requires_totp = true` and no tokens, and leaves the store as it was: no
session is created and the account row, with `failed_attempts` and
`locked_until`, is unchanged. -/
theorem Login_requires_totp (cr : Crypto) (cfg : JWTConfig) (env : Env) (req : LoginRequest)
    (m : RequestMetadata) (db : DB) (u : User)
    (hb : bindLoginRequest env.validEmail req = true)
    (hu : postgres.GetByEmail db req.Email = some u)
    (hunl : ∀ t, u.LockedUntil = some t → t ≤ env.now) (hact : u.IsActive = true)
    (htotp : u.TOTPEnabled = true)
    (hpw : VerifyPassword cr.argon2 req.Password u.PasswordHash = .ret true)
    (hcode : req.TOTPCode = "") :
    Login cr cfg env req m db =
      (⟨200, .login
          { User := none, AccessToken := emptyToken, RefreshToken := emptyToken,
            ExpiresAt := none, RequiresTOTP := true, RequiresPasswordChange := false,
            RequiresMFAEnrollment := false, ClientIP := "" }, []⟩, db) ∧
    postgres.GetByEmail (Login cr cfg env req m db).2 req.Email = some u ∧
    (Login cr cfg env req m db).2.sessions = db.sessions := by
  have hlock := lock_test_false u env.now hunl
  have h : Login cr cfg env req m db =
      (⟨200, .login
          { User := none, AccessToken := emptyToken, RefreshToken := emptyToken,
            ExpiresAt := none, RequiresTOTP := true, RequiresPasswordChange := false,
            RequiresMFAEnrollment := false, ClientIP := "" }, []⟩, db) := by
    simp only [Login, hb, hu, hlock, hact, hpw, htotp, hcode]
    simp
  rw [h]
  exact ⟨rfl, hu, rfl⟩

/-- Witness for C15: `totpUser` logs in at 6 s with the right password and no code. -/
theorem Login_requires_totp_witness :
    (bindLoginRequest (exampleEnv 6000000000).validEmail ⟨"totp@x.com", "pw", "", "", ""⟩ = true ∧
      postgres.GetByEmail totpDB "totp@x.com" = some totpUser ∧ totpUser.IsActive = true ∧
      totpUser.TOTPEnabled = true ∧
      VerifyPassword toyCrypto.argon2 "pw" totpUser.PasswordHash = .ret true) ∧
    (Login toyCrypto exampleConfig (exampleEnv 6000000000) ⟨"totp@x.com", "pw", "", "", ""⟩
        exampleMeta totpDB =
      (⟨200, .login
          { User := none, AccessToken := emptyToken, RefreshToken := emptyToken,
            ExpiresAt := none, RequiresTOTP := true, RequiresPasswordChange := false,
            RequiresMFAEnrollment := false, ClientIP := "" }, []⟩, totpDB) ∧
      postgres.GetByEmail (Login toyCrypto exampleConfig (exampleEnv 6000000000)
        ⟨"totp@x.com", "pw", "", "", ""⟩ exampleMeta totpDB).2 "totp@x.com" = some totpUser ∧
      (Login toyCrypto exampleConfig (exampleEnv 6000000000) ⟨"totp@x.com", "pw", "", "", ""⟩
        exampleMeta totpDB).2.sessions = totpDB.sessions) :=
  ⟨by decide,
    Login_requires_totp toyCrypto exampleConfig (exampleEnv 6000000000)
      ⟨"totp@x.com", "pw", "", "", ""⟩ exampleMeta totpDB totpUser (by decide) (by decide)
      (by decide) (by decide) (by decide) (by decide) rfl⟩

/-- C16. The answer of `Login` for an email with no account is the answer of `Login`
with a wrong password for an existing active, unlocked account, for every such
pair of requests: status 401, body `error: Invalid credentials`, no cookie. -/
theorem Login_unknown_email_same_answer (cr : Crypto) (cfg : JWTConfig) (env1 env2 : Env)
    (req1 req2 : LoginRequest) (m1 m2 : RequestMetadata) (db1 db2 : DB) (u : User)
    (hb1 : bindLoginRequest env1.validEmail req1 = true)
    (hnone : postgres.GetByEmail db1 req1.Email = none)
    (hb2 : bindLoginRequest env2.validEmail req2 = true)
    (hu : postgres.GetByEmail db2 req2.Email = some u)
    (hunl : ∀ t, u.LockedUntil = some t → t ≤ env2.now) (hact : u.IsActive = true)
    (hw : VerifyPassword cr.argon2 req2.Password u.PasswordHash = .ret false) :
    (Login cr cfg env1 req1 m1 db1).1 = (Login cr cfg env2 req2 m2 db2).1 ∧
    (Login cr cfg env1 req1 m1 db1).1 = ⟨401, .error "Invalid credentials", []⟩ := by
  have h2 := Login_wrong_password cr cfg env2 req2 m2 db2 u hb2 hu hunl hact hw
  have h1 : (Login cr cfg env1 req1 m1 db1).1 = ⟨401, .error "Invalid credentials", []⟩ := by
    simp only [Login, hb1, hnone]
    simp
  rw [h1, h2]
  exact ⟨rfl, rfl⟩

/-- Witness for C16: `nobody@x.com` against a wrong password of `exampleUser`. -/
theorem Login_unknown_email_same_answer_witness :
    (postgres.GetByEmail exampleDB "nobody@x.com" = none ∧
      postgres.GetByEmail exampleDB (wrongAttempt 6000000000).req.Email = some exampleUser ∧
      VerifyPassword toyCrypto.argon2 (wrongAttempt 6000000000).req.Password
        exampleUser.PasswordHash = .ret false) ∧
    ((Login toyCrypto exampleConfig (exampleEnv 6000000000) ⟨"nobody@x.com", "pw", "", "", ""⟩
        exampleMeta exampleDB).1 =
      (Login toyCrypto exampleConfig (exampleEnv 6000000000) (wrongAttempt 6000000000).req
        exampleMeta exampleDB).1 ∧
      (Login toyCrypto exampleConfig (exampleEnv 6000000000) ⟨"nobody@x.com", "pw", "", "", ""⟩
        exampleMeta exampleDB).1 = ⟨401, .error "Invalid credentials", []⟩) :=
  ⟨by decide,
    Login_unknown_email_same_answer toyCrypto exampleConfig (exampleEnv 6000000000)
      (exampleEnv 6000000000) ⟨"nobody@x.com", "pw", "", "", ""⟩ (wrongAttempt 6000000000).req
      exampleMeta exampleMeta exampleDB exampleDB exampleUser (by decide) (by decide) (by decide)
      (by decide) (by decide) (by decide) (by decide)⟩

/-- C17. `Authenticate` sets user and claims and continues exactly when the
presented token validates as an access token, `IsSessionValid` holds for the
session of its claims and the account of its claims exists and is active;
every other answer is a 401 that aborts.  In particular, after
`InvalidateSession(S)` every valid access token whose session is `S` is
rejected. -/
theorem Authenticate_admits_iff (cr : Crypto) (cfg : JWTConfig) (now : Time) (req : AuthRequest)
    (db : DB) :
    (∀ user claims, (Authenticate cr cfg now req db).1 = .ok (user, claims) ↔
      (ValidateAccessToken cr cfg now (presentedToken req) = .ok claims ∧
        postgres.IsSessionValid db now claims.SessionID = true ∧
        postgres.GetByID db claims.UserID = some user ∧ user.IsActive = true)) ∧
    (∀ resp, (Authenticate cr cfg now req db).1 = .error resp → resp.status = 401) ∧
    (∀ S claims, ValidateAccessToken cr cfg now (presentedToken req) = .ok claims →
      claims.SessionID = S →
      (Authenticate cr cfg now req (postgres.InvalidateSession db S)).1 =
        .error ⟨401, .error "Session expired or invalid", []⟩) := by
  refine ⟨?_, ?_, ?_⟩
  · intro user claims
    rw [Authenticate_eq]
    constructor
    · intro h
      cases hv : ValidateAccessToken cr cfg now (presentedToken req) with
      | error err =>
        rw [hv] at h
        simp only at h
        split at h
        · simp at h
        · split at h <;> simp at h
      | ok c =>
        rw [hv] at h
        simp only at h
        split at h
        · rename_i hs
          cases hu : postgres.GetByID db c.UserID with
          | none => rw [hu] at h; simp at h
          | some u2 =>
            rw [hu] at h
            simp only at h
            split at h
            · rename_i ha
              simp only [Except.ok.injEq, Prod.mk.injEq] at h
              obtain ⟨h1, h2⟩ := h
              subst h1 h2
              exact ⟨rfl, hs, hu, ha⟩
            · simp at h
        · simp at h
    · rintro ⟨hv, hs, hu, ha⟩
      rw [hv]
      simp [hs, hu, ha]
  · intro resp h
    rw [Authenticate_eq] at h
    cases hv : ValidateAccessToken cr cfg now (presentedToken req) with
    | error err =>
      rw [hv] at h
      simp only at h
      split at h
      · simp only [Except.error.injEq] at h; subst h; rfl
      · split at h <;> (simp only [Except.error.injEq] at h; subst h; rfl)
    | ok c =>
      rw [hv] at h
      simp only at h
      split at h
      · cases hu : postgres.GetByID db c.UserID with
        | none => rw [hu] at h; simp only [Except.error.injEq] at h; subst h; rfl
        | some u2 =>
          rw [hu] at h
          simp only at h
          split at h
          · simp at h
          · simp only [Except.error.injEq] at h; subst h; rfl
      · simp only [Except.error.injEq] at h; subst h; rfl
  · intro S claims hv hS
    rw [Authenticate_eq, hv]
    subst hS
    simp [IsSessionValid_InvalidateSession]

/-- Witness for C17: the access token of session 7 after the login of `afterLogin`,
presented at 2 s once session 7 has been invalidated. -/
theorem Authenticate_admits_iff_witness :
    (ValidateAccessToken toyCrypto exampleConfig 2000000000 (presentedToken logoutRequest) =
        .ok exampleAccessClaims ∧ exampleAccessClaims.SessionID = 7) ∧
    (Authenticate toyCrypto exampleConfig 2000000000 logoutRequest
        (postgres.InvalidateSession afterLogin.2 7)).1 =
      .error ⟨401, .error "Session expired or invalid", []⟩ :=
  ⟨by decide,
    (Authenticate_admits_iff toyCrypto exampleConfig 2000000000 logoutRequest afterLogin.2).2.2 7
      exampleAccessClaims (by decide) (by decide)⟩

/-- C18. Logout does not invalidate the caller's session.  The route `/auth/logout`
is registered without `Authenticate`, so the handler finds no claims and, for
every request, leaves the store as it was.  After the login of `afterLogin`, a
logout request carrying the valid access token of session 7 is answered 200
"Logged out successfully" and session 7 is still valid; the same handler
behind `Authenticate` would have invalidated it. -/
theorem Logout_leaves_session_valid :
    (∀ (req : AuthRequest) (m : RequestMetadata) (db : DB), (logoutRoute req m db).2 = db) ∧
    postgres.IsSessionValid afterLogin.2 2000000000 7 = true ∧
    (Authenticate toyCrypto exampleConfig 2000000000 logoutRequest afterLogin.2).1.toOption.map
      (fun uc => uc.2.SessionID) = some 7 ∧
    (logoutRoute logoutRequest exampleMeta afterLogin.2).1 =
      ⟨200, .message "Logged out successfully", []⟩ ∧
    postgres.IsSessionValid (logoutRoute logoutRequest exampleMeta afterLogin.2).2 2000000000 7 =
      true ∧
    postgres.IsSessionValid
      (authenticatedRoute toyCrypto exampleConfig 2000000000 logoutRequest
        (fun ctx db => Logout ctx exampleMeta db) afterLogin.2).2 2000000000 7 = false :=
  ⟨fun _ _ _ => rfl, by decide, by decide, by decide, by decide, by decide⟩

/-- C19. Rotation can shorten the expiry of a session.  The session created by the
login of `afterLogin` at 1.5 s expires at 1.5 s + 15 min + 7 days;
`RotateRefreshToken` at 61.5 s stores the new hash and keeps the id but sets
the expiry to 61.5 s + 7 days, which is earlier; so does the refresh handled
at 3.5 s.  The SQLite sibling leaves the expiry as it was. -/
theorem RotateRefreshToken_shortens_expiry :
    afterLogin.2.sessions.map (fun s => (s.ID, s.ExpiresAt)) =
      [(7, 1500000000 + 15 * Minute + 7 * 24 * Hour)] ∧
    (1500000000 : Time) < 61500000000 ∧
    (postgres.RotateRefreshToken afterLogin.2 61500000000 7 "h").sessions.map
        (fun s => (s.ID, s.RefreshTokenHash, s.ExpiresAt)) =
      [(7, "h", 61500000000 + 7 * 24 * Hour)] ∧
    (61500000000 + 7 * 24 * Hour : Time) < 1500000000 + 15 * Minute + 7 * 24 * Hour ∧
    afterRefresh.1.status = 200 ∧
    afterRefresh.2.sessions.map (fun s => (s.ID, s.ExpiresAt)) =
      [(7, 3500000000 + 7 * 24 * Hour)] ∧
    (sqlite.RotateRefreshToken afterLogin.2 61500000000 7 "h").sessions.map
        (fun s => (s.ID, s.RefreshTokenHash, s.ExpiresAt)) =
      [(7, "h", 1500000000 + 15 * Minute + 7 * 24 * Hour)] := by
  decide

/-- C20. For every active, unlocked super_admin account whose password (and TOTP
code, if enabled) verifies, a `Login` whose client address is none of
`127.0.0.1`, `::1`, `localhost`, `[::1]` and no entry of the server-IP list is
answered 403 with no tokens; no certificate, session or account row changes,
and the result is the same whatever device id and fingerprint are presented:
the device check is not reached. -/
theorem Login_superadmin_remote (cr : Crypto) (cfg : JWTConfig) (env : Env) (req : LoginRequest)
    (m : RequestMetadata) (db : DB) (u : User)
    (hb : bindLoginRequest env.validEmail req = true)
    (hu : postgres.GetByEmail db req.Email = some u)
    (hunl : ∀ t, u.LockedUntil = some t → t ≤ env.now) (hact : u.IsActive = true)
    (hrole : u.Role = RoleSuperAdmin)
    (hpw : VerifyPassword cr.argon2 req.Password u.PasswordHash = .ret true)
    (htotp : u.TOTPEnabled = true → req.TOTPCode ≠ "" ∧
      ∃ secret, u.TOTPSecret = some secret ∧ ValidateTOTP cr env.now secret req.TOTPCode = true)
    (hip : m.IP ≠ "127.0.0.1" ∧ m.IP ≠ "::1" ∧ m.IP ≠ "localhost" ∧ m.IP ≠ "[::1]" ∧
      m.IP ∉ env.serverIPs) :
    (Login cr cfg env req m db).1 =
      ⟨403, .error "Login restricted: Super Admin requires local server access", []⟩ ∧
    (Login cr cfg env req m db).2.deviceCertificates = db.deviceCertificates ∧
    (Login cr cfg env req m db).2.sessions = db.sessions ∧
    (Login cr cfg env req m db).2.users = db.users ∧
    ∀ (fingerprint deviceID : String),
      Login cr cfg env { req with DeviceID := deviceID, DeviceFingerprint := fingerprint } m db =
        Login cr cfg env req m db := by
  have hlock := lock_test_false u env.now hunl
  have hsm := IsServerMachine_false env.serverIPs m.IP hip
  have key : ∀ (r : LoginRequest), bindLoginRequest env.validEmail r = true →
      r.Email = req.Email → r.Password = req.Password → r.TOTPCode = req.TOTPCode →
      Login cr cfg env r m db =
        (⟨403, .error "Login restricted: Super Admin requires local server access", []⟩,
          AuditCreate db
            { ActorID := some u.ID, ActorRole := u.Role,
              ActionType := "login_blocked_superadmin_not_localhost", TargetType := "user",
              TargetID := some u.ID,
              Metadata := [("ip", .str m.IP), ("reason", .str "superadmin_requires_localhost")],
              IPAddress := m.IP, DeviceID := m.DeviceID, UserAgent := m.UserAgent }) := by
    intro r hbr he hp ht
    by_cases hen : u.TOTPEnabled = true
    · obtain ⟨hc, secret, hs, hv⟩ := htotp hen
      simp only [Login, hbr, he, hp, ht, hu, hlock, hact, hpw, hen, hs, hv, hrole, hsm]
      simp [hc]
    · simp only [Bool.not_eq_true] at hen
      simp only [Login, hbr, he, hp, ht, hu, hlock, hact, hpw, hen, hrole, hsm]
      simp
  have h := key req hb rfl rfl rfl
  refine ⟨by rw [h], by rw [h]; rfl, by rw [h]; rfl, by rw [h]; rfl, ?_⟩
  intro fingerprint deviceID
  rw [h]
  exact key { req with DeviceID := deviceID, DeviceFingerprint := fingerprint }
    (by simpa [bindLoginRequest] using hb) rfl rfl rfl

/-- Witness for C20: `exampleAdmin` logs in from 10.0.0.5 with the right password. -/
theorem Login_superadmin_remote_witness :
    (postgres.GetByEmail exampleAdminDB (adminRequest "F1").Email = some exampleAdmin ∧
      exampleAdmin.Role = RoleSuperAdmin ∧
      VerifyPassword toyCrypto.argon2 (adminRequest "F1").Password exampleAdmin.PasswordHash =
        .ret true ∧
      exampleMeta.IP ∉ (exampleEnv 6000000000).serverIPs) ∧
    ((Login toyCrypto exampleConfig (exampleEnv 6000000000) (adminRequest "F1") exampleMeta
        exampleAdminDB).1 =
        ⟨403, .error "Login restricted: Super Admin requires local server access", []⟩ ∧
      (Login toyCrypto exampleConfig (exampleEnv 6000000000) (adminRequest "F1") exampleMeta
        exampleAdminDB).2.deviceCertificates = exampleAdminDB.deviceCertificates ∧
      (Login toyCrypto exampleConfig (exampleEnv 6000000000) (adminRequest "F1") exampleMeta
        exampleAdminDB).2.sessions = exampleAdminDB.sessions ∧
      (Login toyCrypto exampleConfig (exampleEnv 6000000000) (adminRequest "F1") exampleMeta
        exampleAdminDB).2.users = exampleAdminDB.users ∧
      ∀ (fingerprint deviceID : String),
        Login toyCrypto exampleConfig (exampleEnv 6000000000)
          { adminRequest "F1" with DeviceID := deviceID, DeviceFingerprint := fingerprint }
          exampleMeta exampleAdminDB =
        Login toyCrypto exampleConfig (exampleEnv 6000000000) (adminRequest "F1") exampleMeta
          exampleAdminDB) :=
  ⟨by decide,
    Login_superadmin_remote toyCrypto exampleConfig (exampleEnv 6000000000) (adminRequest "F1")
      exampleMeta exampleAdminDB exampleAdmin (by decide) (by decide) (by decide) (by decide)
      (by decide) (by decide) (by decide) (by decide)⟩

/-- C21. `SetupTOTP` returns the store as it was, whatever the context, and so does
`EnableTOTP` when the code does not validate against the submitted secret; behind
`Authenticate`, as both routes are registered, the account table is then
unchanged, so `totp_secret`, `totp_enabled`, `must_enroll_mfa` and the backup
codes are what they were.  When the code validates (and the ten backup codes
could be generated), `EnableTOTP` answers 200 and the row of the caller gets the
submitted secret, `totp_enabled = true`, `must_enroll_mfa = false` and the new
codes, every other row staying as it was. -/
theorem TOTP_secret_persisted_only_by_valid_code (cr : Crypto) (cfg : JWTConfig) (now : Time)
    (generate : String → Option (String × String)) (rnd : Nat → Option (List Byte))
    (areq : AuthRequest) (req : EnableTOTPRequest) (ctx : Context) (db : DB) :
    (SetupTOTP generate ctx db).2 = db ∧
    (setupTOTPRoute cr cfg now generate areq db).2.users = db.users ∧
    (ValidateTOTP cr now req.Secret req.Code = false →
      (EnableTOTP cr now rnd req ctx db).2 = db ∧
      (enableTOTPRoute cr cfg now rnd areq req db).2.users = db.users) ∧
    (∀ (user : User) (codes : List String), ctx.user = some user →
      bindEnableTOTPRequest req = true → ValidateTOTP cr now req.Secret req.Code = true →
      GenerateBackupCodes rnd 10 = some codes →
      (EnableTOTP cr now rnd req ctx db).1 = ⟨200, .backupCodes "TOTP enabled" codes, []⟩ ∧
      (EnableTOTP cr now rnd req ctx db).2.users = db.users.map (fun u =>
        if u.ID = user.ID then
          { u with TOTPSecret := some req.Secret, TOTPEnabled := true, MustEnrollMFA := false,
                   BackupCodes := codes, UpdatedAt := now }
        else u)) := by
  have hsetup : ∀ c d, (SetupTOTP generate c d).2 = d := by
    intro c d
    unfold SetupTOTP
    repeat' split
    all_goals rfl
  have henable : ∀ c d, ValidateTOTP cr now req.Secret req.Code = false →
      (EnableTOTP cr now rnd req c d).2 = d := by
    intro c d hv
    unfold EnableTOTP
    by_cases hb : bindEnableTOTPRequest req = true <;> simp [hb, hv]
  refine ⟨hsetup ctx db, ?_, ?_, ?_⟩
  · exact authenticatedRoute_users cr cfg now areq _ db (fun c d => by rw [hsetup c d])
  · intro hv
    exact ⟨henable ctx db hv,
      authenticatedRoute_users cr cfg now areq _ db (fun c d => by rw [henable c d hv])⟩
  · intro user codes hu hb hv hc
    simp only [EnableTOTP, hb, hv, hc, hu]
    refine ⟨by simp, ?_⟩
    simp only [postgres.EnableTOTP, postgres.StoreBackupCodes, postgres.SetTOTPSecret,
      List.map_map]
    simp only [Bool.not_true, Bool.false_eq_true, if_false]
    apply List.map_congr_left
    intro u _
    by_cases hid : u.ID = user.ID <;> simp [hid]

/-- Witness for C21: `exampleUser` submits the secret `s` with the code `bad`, which
does not validate, and then with the code `s`, which does under the stand-in
primitives. -/
theorem TOTP_secret_persisted_only_by_valid_code_witness :
    (ValidateTOTP toyCrypto 2000000000 "s" "bad" = false ∧
      ValidateTOTP toyCrypto 2000000000 "s" "s" = true ∧
      GenerateBackupCodes exampleRand 10 = some exampleCodes) ∧
    ((EnableTOTP toyCrypto 2000000000 exampleRand ⟨"s", "bad"⟩ exampleContext exampleDB).2 =
        exampleDB ∧
      (enableTOTPRoute toyCrypto exampleConfig 2000000000 exampleRand logoutRequest ⟨"s", "bad"⟩
        afterLogin.2).2.users = afterLogin.2.users) ∧
    ((EnableTOTP toyCrypto 2000000000 exampleRand ⟨"s", "s"⟩ exampleContext exampleDB).1 =
        ⟨200, .backupCodes "TOTP enabled" exampleCodes, []⟩ ∧
      (EnableTOTP toyCrypto 2000000000 exampleRand ⟨"s", "s"⟩ exampleContext exampleDB).2.users =
        exampleDB.users.map (fun u =>
          if u.ID = exampleUser.ID then
            { u with TOTPSecret := some "s", TOTPEnabled := true, MustEnrollMFA := false,
                     BackupCodes := exampleCodes, UpdatedAt := 2000000000 }
          else u)) :=
  ⟨by decide,
    ⟨((TOTP_secret_persisted_only_by_valid_code toyCrypto exampleConfig 2000000000
        (fun _ => none) exampleRand logoutRequest ⟨"s", "bad"⟩ exampleContext exampleDB).2.2.1
        (by decide)).1,
      ((TOTP_secret_persisted_only_by_valid_code toyCrypto exampleConfig 2000000000
        (fun _ => none) exampleRand logoutRequest ⟨"s", "bad"⟩ exampleContext afterLogin.2).2.2.1
        (by decide)).2⟩,
    (TOTP_secret_persisted_only_by_valid_code toyCrypto exampleConfig 2000000000
      (fun _ => none) exampleRand logoutRequest ⟨"s", "s"⟩ exampleContext exampleDB).2.2.2
      exampleUser exampleCodes rfl (by decide) (by decide) (by decide)⟩

/-- C22. An error of the random-number generator is discarded by `Login`.  When
`rand.Read` fails, `GenerateCSRFToken` returns an error (and the empty token);
`Login` drops it (`csrfToken, _ :=`) and answers 200 with the token pair, the
new session and an empty `csrf_token` cookie, exactly as when the generator
works, the cookie aside. -/
theorem Login_discards_csrf_error :
    GenerateCSRFToken (exampleEnv 1500000000).urlEncode none = ("", true) ∧
    (Login toyCrypto exampleConfig { exampleEnv 1500000000 with csrfRand := none }
        (rightAttempt 1500000000).req exampleMeta exampleDB).1.status = 200 ∧
    (Login toyCrypto exampleConfig { exampleEnv 1500000000 with csrfRand := none }
        (rightAttempt 1500000000).req exampleMeta exampleDB).1.cookies = [("csrf_token", "")] ∧
    (Login toyCrypto exampleConfig { exampleEnv 1500000000 with csrfRand := none }
        (rightAttempt 1500000000).req exampleMeta exampleDB).1.body = afterLogin.1.body ∧
    afterLogin.1.body.accessToken ≠ emptyToken ∧ afterLogin.1.body.refreshToken ≠ emptyToken ∧
    (Login toyCrypto exampleConfig { exampleEnv 1500000000 with csrfRand := none }
        (rightAttempt 1500000000).req exampleMeta exampleDB).2 = afterLogin.2 ∧
    afterLogin.2.sessions.map (fun s => (s.ID, s.IsActive)) = [(7, true)] := by
  decide

/-- C23. Two refreshes that present the one valid refresh token both succeed when
their steps interleave.  `Refresh` is `RefreshValidate` followed by
`RefreshRotate`, two separate storage round trips with no lock and no
comparison of the stored hash in the update: the second step answers 200
whatever the store holds.  After the login of `afterLogin`,
two requests carrying `T1`, served at 3.5 s and 4.5 s in the order validate-1,
validate-2, rotate-1, rotate-2, are both answered 200 with a token pair, and
the two refresh tokens issued differ; served one after the other, the second
is answered 401. -/
theorem Refresh_interleaved_both_succeed :
    (∀ (cr : Crypto) (cfg : JWTConfig) (env : Env) (req : RefreshRequest) (m : RequestMetadata)
      (db : DB), refreshSteps cr cfg env req m db = Refresh cr cfg env req m db) ∧
    (∀ (cr : Crypto) (env : Env) (p : PendingRefresh) (db : DB),
      (RefreshRotate cr env p db).1.status = 200) ∧
    (interleavedRefresh toyCrypto exampleConfig (exampleEnv 3500000000) (exampleEnv 4500000000)
      ⟨tokenT1⟩ ⟨tokenT1⟩ exampleMeta exampleMeta afterLogin.2).1.status = 200 ∧
    (interleavedRefresh toyCrypto exampleConfig (exampleEnv 3500000000) (exampleEnv 4500000000)
      ⟨tokenT1⟩ ⟨tokenT1⟩ exampleMeta exampleMeta afterLogin.2).2.1.status = 200 ∧
    (interleavedRefresh toyCrypto exampleConfig (exampleEnv 3500000000) (exampleEnv 4500000000)
      ⟨tokenT1⟩ ⟨tokenT1⟩ exampleMeta exampleMeta afterLogin.2).1.body.refreshToken ≠ emptyToken ∧
    (interleavedRefresh toyCrypto exampleConfig (exampleEnv 3500000000) (exampleEnv 4500000000)
      ⟨tokenT1⟩ ⟨tokenT1⟩ exampleMeta exampleMeta afterLogin.2).2.1.body.refreshToken ≠
        emptyToken ∧
    (interleavedRefresh toyCrypto exampleConfig (exampleEnv 3500000000) (exampleEnv 4500000000)
      ⟨tokenT1⟩ ⟨tokenT1⟩ exampleMeta exampleMeta afterLogin.2).1.body.refreshToken ≠
    (interleavedRefresh toyCrypto exampleConfig (exampleEnv 3500000000) (exampleEnv 4500000000)
      ⟨tokenT1⟩ ⟨tokenT1⟩ exampleMeta exampleMeta afterLogin.2).2.1.body.refreshToken ∧
    (refreshAt 4500000000 tokenT1 (refreshAt 3500000000 tokenT1 afterLogin.2).2).1.status = 401 :=
  ⟨refreshSteps_eq_Refresh, fun _ _ _ _ => rfl, by decide, by decide, by decide, by decide,
    by decide, by decide⟩

/-- C24, counterexample. Four branches of `Login` record no audit event: the
request for a TOTP code (`totpUser`, right password, no code), the disabled
account (`disabledUser`), the invalid TOTP code (`totpUser`, code `bad`) and
the device mismatch (`exampleAdmin` presenting `F2`). -/
theorem Login_branches_without_audit_event :
    (Login toyCrypto exampleConfig (exampleEnv 6000000000) ⟨"totp@x.com", "pw", "", "", ""⟩
        exampleMeta totpDB).1.status = 200 ∧
    (Login toyCrypto exampleConfig (exampleEnv 6000000000) ⟨"totp@x.com", "pw", "", "", ""⟩
        exampleMeta totpDB).2.auditLogs = [] ∧
    Login toyCrypto exampleConfig (exampleEnv 6000000000) ⟨"off@x.com", "pw", "", "", ""⟩
        exampleMeta disabledDB = (⟨401, .error "Account is disabled", []⟩, disabledDB) ∧
    disabledDB.auditLogs = [] ∧
    (Login toyCrypto exampleConfig (exampleEnv 6000000000) ⟨"totp@x.com", "pw", "bad", "", ""⟩
        exampleMeta totpDB).1 = ⟨401, .error "Invalid TOTP code", []⟩ ∧
    (Login toyCrypto exampleConfig (exampleEnv 6000000000) ⟨"totp@x.com", "pw", "bad", "", ""⟩
        exampleMeta totpDB).2.auditLogs = [] ∧
    (Login toyCrypto exampleConfig (exampleEnv 6000000000) (adminRequest "F2") localMeta
        exampleAdminDB).1 = ⟨500, .error "Device verification failed", []⟩ ∧
    (Login toyCrypto exampleConfig (exampleEnv 6000000000) (adminRequest "F2") localMeta
        exampleAdminDB).2.auditLogs = [] := by
  decide

/-- C24, amended. The branches unknown email, Locked, wrong password, super_admin
not on the server machine and success of `Login` each record exactly one audit
event, with action type `login_failed`, `login_blocked_locked`, `login_failed`,
`login_blocked_superadmin_not_localhost` and `login`; the request for a TOTP
code records none. -/
theorem Login_audit_events (cr : Crypto) (cfg : JWTConfig) (env : Env) (req : LoginRequest)
    (m : RequestMetadata) (db : DB) :
    (bindLoginRequest env.validEmail req = true → postgres.GetByEmail db req.Email = none →
      (Login cr cfg env req m db).1.status = 401 ∧
      ∃ e, (Login cr cfg env req m db).2.auditLogs = db.auditLogs ++ [e] ∧
        e.ActionType = ActionLoginFailed) ∧
    (∀ (u : User) (t : Time), bindLoginRequest env.validEmail req = true →
      postgres.GetByEmail db req.Email = some u → u.LockedUntil = some t → env.now < t →
      (Login cr cfg env req m db).1.status = 429 ∧
      ∃ e, (Login cr cfg env req m db).2.auditLogs = db.auditLogs ++ [e] ∧
        e.ActionType = "login_blocked_locked" ∧ e.ActorID = some u.ID) ∧
    (∀ u : User, bindLoginRequest env.validEmail req = true →
      postgres.GetByEmail db req.Email = some u → (∀ t, u.LockedUntil = some t → t ≤ env.now) →
      u.IsActive = true → VerifyPassword cr.argon2 req.Password u.PasswordHash = .ret false →
      (Login cr cfg env req m db).1.status = 401 ∧
      ∃ e, (Login cr cfg env req m db).2.auditLogs = db.auditLogs ++ [e] ∧
        e.ActionType = ActionLoginFailed ∧ e.ActorID = some u.ID) ∧
    (∀ u : User, bindLoginRequest env.validEmail req = true →
      postgres.GetByEmail db req.Email = some u → (∀ t, u.LockedUntil = some t → t ≤ env.now) →
      u.IsActive = true → VerifyPassword cr.argon2 req.Password u.PasswordHash = .ret true →
      u.TOTPEnabled = true → req.TOTPCode = "" →
      (Login cr cfg env req m db).1.status = 200 ∧
      (Login cr cfg env req m db).1.body.accessToken = emptyToken ∧
      (Login cr cfg env req m db).2.auditLogs = db.auditLogs) ∧
    (∀ u : User, bindLoginRequest env.validEmail req = true →
      postgres.GetByEmail db req.Email = some u → (∀ t, u.LockedUntil = some t → t ≤ env.now) →
      u.IsActive = true → VerifyPassword cr.argon2 req.Password u.PasswordHash = .ret true →
      (u.TOTPEnabled = true → req.TOTPCode ≠ "" ∧
        ∃ secret, u.TOTPSecret = some secret ∧
          ValidateTOTP cr env.now secret req.TOTPCode = true) →
      u.Role = RoleSuperAdmin → IsServerMachine env.serverIPs m.IP = false →
      (Login cr cfg env req m db).1.status = 403 ∧
      ∃ e, (Login cr cfg env req m db).2.auditLogs = db.auditLogs ++ [e] ∧
        e.ActionType = "login_blocked_superadmin_not_localhost" ∧ e.ActorID = some u.ID) ∧
    ((Login cr cfg env req m db).1.status = 200 →
      (Login cr cfg env req m db).1.body.accessToken ≠ emptyToken →
      ∃ e, (Login cr cfg env req m db).2.auditLogs = db.auditLogs ++ [e] ∧
        e.ActionType = ActionLogin) := by
  refine ⟨?_, ?_, ?_, ?_, ?_, ?_⟩
  · intro hb hnone
    have h : Login cr cfg env req m db =
        (⟨401, .error "Invalid credentials", []⟩,
          LogLogin db uuidNil "" m.IP m.DeviceID m.UserAgent false) := by
      simp only [Login, hb, hnone]
      simp
    rw [h]
    exact ⟨rfl, _, rfl, rfl⟩
  · intro u t hb hu hl hnow
    rw [Login_locked_eq cr cfg env req m db u t hb hu hl hnow]
    exact ⟨rfl, _, rfl, rfl, rfl⟩
  · intro u hb hu hunl hact hw
    rw [Login_wrong_password cr cfg env req m db u hb hu hunl hact hw]
    exact ⟨rfl, _, rfl, rfl, rfl⟩
  · intro u hb hu hunl hact hpw hen hc
    have hlock := lock_test_false u env.now hunl
    have h : Login cr cfg env req m db =
        (⟨200, .login
            { User := none, AccessToken := emptyToken, RefreshToken := emptyToken,
              ExpiresAt := none, RequiresTOTP := true, RequiresPasswordChange := false,
              RequiresMFAEnrollment := false, ClientIP := "" }, []⟩, db) := by
      simp only [Login, hb, hu, hlock, hact, hpw, hen, hc]
      simp
    rw [h]
    exact ⟨rfl, rfl, rfl⟩
  · intro u hb hu hunl hact hpw htotp hrole hsm
    have hlock := lock_test_false u env.now hunl
    have h : Login cr cfg env req m db =
        (⟨403, .error "Login restricted: Super Admin requires local server access", []⟩,
          AuditCreate db
            { ActorID := some u.ID, ActorRole := u.Role,
              ActionType := "login_blocked_superadmin_not_localhost", TargetType := "user",
              TargetID := some u.ID,
              Metadata := [("ip", .str m.IP), ("reason", .str "superadmin_requires_localhost")],
              IPAddress := m.IP, DeviceID := m.DeviceID, UserAgent := m.UserAgent }) := by
      by_cases hen : u.TOTPEnabled = true
      · obtain ⟨hc, secret, hs, hv⟩ := htotp hen
        simp only [Login, hb, hu, hlock, hact, hpw, hen, hs, hv, hrole, hsm]
        simp [hc]
      · simp only [Bool.not_eq_true] at hen
        simp only [Login, hb, hu, hlock, hact, hpw, hen, hrole, hsm]
        simp
    rw [h]
    exact ⟨rfl, _, rfl, rfl, rfl⟩
  · intro h200 htok
    rcases Login_status_200 cr cfg env req m db h200 with h | ⟨u, d, tp, hu, htp, hdev, h⟩
    · rw [h] at htok
      exact absurd rfl htok
    · obtain ⟨_, _, hd⟩ := Login_device_frame db d env.now env.newCertID u.ID
        req.DeviceFingerprint req.DeviceID _ (true, false) hdev
      rw [h]
      refine ⟨{ ActorID := some u.ID, ActorRole := u.Role, ActionType := ActionLogin,
                TargetType := "user", TargetID := some u.ID,
                Metadata := [("success", .bool true)], IPAddress := m.IP,
                DeviceID := m.DeviceID, UserAgent := m.UserAgent }, ?_, rfl⟩
      simp only [LogLogin, AuditCreate, postgres.UpdateLastLogin,
        postgres.ResetFailedLoginAttempts, hd]
      rfl

/-- Witness for C24: one login on each of the six branches, at 6 s. -/
theorem Login_audit_events_witness :
    (postgres.GetByEmail exampleDB "nobody@x.com" = none ∧
      ((Login toyCrypto exampleConfig (exampleEnv 6000000000) ⟨"nobody@x.com", "pw", "", "", ""⟩
        exampleMeta exampleDB).1.status = 401 ∧
      ∃ e, (Login toyCrypto exampleConfig (exampleEnv 6000000000) ⟨"nobody@x.com", "pw", "", "", ""⟩
        exampleMeta exampleDB).2.auditLogs =
        exampleDB.auditLogs ++ [e] ∧ e.ActionType = ActionLoginFailed)) ∧
    (postgres.GetByEmail lockedDB "locked@x.com" = some lockedUser ∧
      lockedUser.LockedUntil = some 905000000000 ∧
      ((Login toyCrypto exampleConfig (exampleEnv 6000000000) ⟨"locked@x.com", "pw", "", "", ""⟩
        exampleMeta lockedDB).1.status = 429 ∧
      ∃ e, (Login toyCrypto exampleConfig (exampleEnv 6000000000) ⟨"locked@x.com", "pw", "", "", ""⟩
        exampleMeta lockedDB).2.auditLogs =
        lockedDB.auditLogs ++ [e] ∧ e.ActionType = "login_blocked_locked" ∧ e.ActorID = some lockedUser.ID)) ∧
    (VerifyPassword toyCrypto.argon2 (wrongAttempt 6000000000).req.Password exampleUser.PasswordHash =
        .ret false ∧
      ((Login toyCrypto exampleConfig (exampleEnv 6000000000) (wrongAttempt 6000000000).req
        exampleMeta exampleDB).1.status = 401 ∧
      ∃ e, (Login toyCrypto exampleConfig (exampleEnv 6000000000) (wrongAttempt 6000000000).req
        exampleMeta exampleDB).2.auditLogs =
        exampleDB.auditLogs ++ [e] ∧ e.ActionType = ActionLoginFailed ∧ e.ActorID = some exampleUser.ID)) ∧
    (totpUser.TOTPEnabled = true ∧
      ((Login toyCrypto exampleConfig (exampleEnv 6000000000) ⟨"totp@x.com", "pw", "", "", ""⟩
        exampleMeta totpDB).1.status = 200 ∧
      (Login toyCrypto exampleConfig (exampleEnv 6000000000) ⟨"totp@x.com", "pw", "", "", ""⟩
        exampleMeta totpDB).1.body.accessToken = emptyToken ∧
      (Login toyCrypto exampleConfig (exampleEnv 6000000000) ⟨"totp@x.com", "pw", "", "", ""⟩
        exampleMeta totpDB).2.auditLogs = totpDB.auditLogs)) ∧
    (exampleAdmin.Role = RoleSuperAdmin ∧
      IsServerMachine (exampleEnv 6000000000).serverIPs exampleMeta.IP = false ∧
      ((Login toyCrypto exampleConfig (exampleEnv 6000000000) (adminRequest "F1")
        exampleMeta exampleAdminDB).1.status = 403 ∧
      ∃ e, (Login toyCrypto exampleConfig (exampleEnv 6000000000) (adminRequest "F1")
        exampleMeta exampleAdminDB).2.auditLogs =
        exampleAdminDB.auditLogs ++ [e] ∧ e.ActionType = "login_blocked_superadmin_not_localhost" ∧ e.ActorID = some exampleAdmin.ID)) ∧
    ((Login toyCrypto exampleConfig (exampleEnv 6000000000) (rightAttempt 6000000000).req
        exampleMeta exampleDB).1.status = 200 ∧
      (Login toyCrypto exampleConfig (exampleEnv 6000000000) (rightAttempt 6000000000).req
        exampleMeta exampleDB).1.body.accessToken ≠ emptyToken ∧
      ∃ e, (Login toyCrypto exampleConfig (exampleEnv 6000000000) (rightAttempt 6000000000).req
        exampleMeta exampleDB).2.auditLogs =
        exampleDB.auditLogs ++ [e] ∧ e.ActionType = ActionLogin) :=
  ⟨⟨by decide,
      (Login_audit_events toyCrypto exampleConfig (exampleEnv 6000000000) ⟨"nobody@x.com", "pw", "", "", ""⟩ exampleMeta exampleDB).1
        (by decide) (by decide)⟩,
    ⟨by decide, by decide,
      (Login_audit_events toyCrypto exampleConfig (exampleEnv 6000000000) ⟨"locked@x.com", "pw", "", "", ""⟩ exampleMeta lockedDB).2.1
        lockedUser 905000000000 (by decide) (by decide) rfl (by decide)⟩,
    ⟨by decide,
      (Login_audit_events toyCrypto exampleConfig (exampleEnv 6000000000) (wrongAttempt 6000000000).req exampleMeta exampleDB).2.2.1
        exampleUser (by decide) (by decide) (by decide) (by decide) (by decide)⟩,
    ⟨by decide,
      (Login_audit_events toyCrypto exampleConfig (exampleEnv 6000000000) ⟨"totp@x.com", "pw", "", "", ""⟩ exampleMeta totpDB).2.2.2.1
        totpUser (by decide) (by decide) (by decide) (by decide) (by decide) (by decide) rfl⟩,
    ⟨by decide, by decide,
      (Login_audit_events toyCrypto exampleConfig (exampleEnv 6000000000) (adminRequest "F1") exampleMeta exampleAdminDB).2.2.2.2.1
        exampleAdmin (by decide) (by decide) (by decide) (by decide) (by decide) (by decide)
        (by decide) (by decide)⟩,
    ⟨by decide, by decide,
      (Login_audit_events toyCrypto exampleConfig (exampleEnv 6000000000) (rightAttempt 6000000000).req exampleMeta exampleDB).2.2.2.2.2
        (by decide) (by decide)⟩⟩

/-- C25, counterexample. `exampleUser` logs in at 1.5 s from 10.0.0.5 with user
agent `ua`, presenting device id `dev` and device fingerprint `F1`.  The login
succeeds and the stored session has the client address and the user agent, but
its `device_fingerprint` is `dev`, the device id, not `F1`. -/
theorem Login_session_device_is_device_id :
    (Login toyCrypto exampleConfig (exampleEnv 1500000000) ⟨"user@x.com", "pw", "", "dev", "F1"⟩
        exampleMeta exampleDB).1.status = 200 ∧
    (Login toyCrypto exampleConfig (exampleEnv 1500000000) ⟨"user@x.com", "pw", "", "dev", "F1"⟩
        exampleMeta exampleDB).1.body.accessToken ≠ emptyToken ∧
    (Login toyCrypto exampleConfig (exampleEnv 1500000000) ⟨"user@x.com", "pw", "", "dev", "F1"⟩
        exampleMeta exampleDB).2.sessions.map
        (fun s => (s.ID, s.IPAddress, s.UserAgent, s.DeviceFingerprint)) =
      [(7, "10.0.0.5", "ua", "dev")] ∧
    ¬ ∀ s ∈ (Login toyCrypto exampleConfig (exampleEnv 1500000000)
        ⟨"user@x.com", "pw", "", "dev", "F1"⟩ exampleMeta exampleDB).2.sessions,
      s.DeviceFingerprint = "F1" := by
  decide

/-- C25, amended. For every `Login` answered 200 with an access token, exactly one
session is added to the stored ones; its id is the new session id, its
`ip_address` is the client address, its `user_agent` the User-Agent of the
request, and its `device_fingerprint` the `device_id` of the login request. -/
theorem Login_session_binding (cr : Crypto) (cfg : JWTConfig) (env : Env) (req : LoginRequest)
    (m : RequestMetadata) (db : DB)
    (h200 : (Login cr cfg env req m db).1.status = 200)
    (htok : (Login cr cfg env req m db).1.body.accessToken ≠ emptyToken) :
    ∃ s : Session,
      (Login cr cfg env req m db).2.sessions = db.sessions ++ [s] ∧
      s.ID = env.newUUID ∧ s.IPAddress = m.IP ∧ s.UserAgent = m.UserAgent ∧
      s.DeviceFingerprint = req.DeviceID ∧ s.IsActive = true := by
  rcases Login_status_200 cr cfg env req m db h200 with h | ⟨u, d, tp, hu, htp, hdev, h⟩
  · rw [h] at htok
    exact absurd rfl htok
  · obtain ⟨_, hd, _⟩ := Login_device_frame db d env.now env.newCertID u.ID
      req.DeviceFingerprint req.DeviceID _ (true, false) hdev
    rw [h]
    refine ⟨{ ID := env.newUUID, UserID := u.ID, TokenHash := HashToken cr tp.AccessToken,
              RefreshTokenHash := HashToken cr tp.RefreshToken, IPAddress := m.IP,
              DeviceFingerprint := req.DeviceID, UserAgent := m.UserAgent,
              CreatedAt := env.now, ExpiresAt := tp.ExpiresAt + 7 * 24 * Hour,
              LastActivity := env.now, IsActive := true }, ?_, rfl, rfl, rfl, rfl, rfl⟩
    simp only [LogLogin, AuditCreate, postgres.UpdateLastLogin, hd]

/-- Witness for C25: the login in the counterexample of C25. -/
theorem Login_session_binding_witness :
    ((Login toyCrypto exampleConfig (exampleEnv 1500000000) ⟨"user@x.com", "pw", "", "dev", "F1"⟩
        exampleMeta exampleDB).1.status = 200 ∧
      (Login toyCrypto exampleConfig (exampleEnv 1500000000)
        ⟨"user@x.com", "pw", "", "dev", "F1"⟩ exampleMeta exampleDB).1.body.accessToken ≠
          emptyToken) ∧
    ∃ s : Session,
      (Login toyCrypto exampleConfig (exampleEnv 1500000000)
        ⟨"user@x.com", "pw", "", "dev", "F1"⟩ exampleMeta exampleDB).2.sessions =
          exampleDB.sessions ++ [s] ∧
      s.ID = 7 ∧ s.IPAddress = "10.0.0.5" ∧ s.UserAgent = "ua" ∧
      s.DeviceFingerprint = "dev" ∧ s.IsActive = true :=
  ⟨by decide,
    Login_session_binding toyCrypto exampleConfig (exampleEnv 1500000000)
      ⟨"user@x.com", "pw", "", "dev", "F1"⟩ exampleMeta exampleDB (by decide) (by decide)⟩

/-- C26. Once the certificate of an account with fingerprint `F` has been revoked
by `RevokeDeviceCertificate`, `VerifyDeviceCertificate` for that account and
`F` does not report trusted, whatever other certificates are stored and also
when the revoked one was the only one; it registers nothing.  This holds for the
PostgreSQL service and for its SQLite sibling. -/
theorem VerifyDeviceCertificate_after_revocation (db : DB) (tRevoke now : Time)
    (certID userID revokedBy : UUID) (F deviceID : String)
    (hrow : ∃ c ∈ db.deviceCertificates, c.UserID = userID ∧ c.Fingerprint = F) :
    (postgres.VerifyDeviceCertificate (postgres.RevokeDeviceCertificate db tRevoke F revokedBy)
      now certID userID F deviceID).1.1 = false ∧
    (postgres.VerifyDeviceCertificate (postgres.RevokeDeviceCertificate db tRevoke F revokedBy)
      now certID userID F deviceID).2 = postgres.RevokeDeviceCertificate db tRevoke F revokedBy ∧
    (sqlite.VerifyDeviceCertificate (postgres.RevokeDeviceCertificate db tRevoke F revokedBy)
      now certID userID F deviceID).1.1 = false ∧
    (sqlite.VerifyDeviceCertificate (postgres.RevokeDeviceCertificate db tRevoke F revokedBy)
      now certID userID F deviceID).2 = postgres.RevokeDeviceCertificate db tRevoke F revokedBy := by
  obtain ⟨hnone, hsame⟩ := RevokeDeviceCertificate_any db tRevoke userID revokedBy F
  have hany : db.deviceCertificates.any (fun c => c.UserID == userID && c.Fingerprint == F) =
      true := by
    rw [List.any_eq_true]
    obtain ⟨c, hc, h1, h2⟩ := hrow
    exact ⟨c, hc, by simp [h1, h2]⟩
  obtain ⟨h1, h2, h3⟩ := VerifyDeviceCertificate_revoked
    (postgres.RevokeDeviceCertificate db tRevoke F revokedBy) now certID userID F deviceID
    (hsame.trans hany) hnone
  rw [h1]
  exact ⟨rfl, rfl, h2, h3⟩

/-- Witness for C26: `certF1`, the only certificate of `exampleAdmin`, is revoked at
5 s and `F1` is presented at 6 s. -/
theorem VerifyDeviceCertificate_after_revocation_witness :
    (∃ c ∈ exampleAdminDB.deviceCertificates, c.UserID = 2 ∧ c.Fingerprint = "F1") ∧
    postgres.RevokeDeviceCertificate exampleAdminDB 5000000000 "F1" 2 = revokedAdminDB ∧
    ((postgres.VerifyDeviceCertificate
        (postgres.RevokeDeviceCertificate exampleAdminDB 5000000000 "F1" 2)
        6000000000 8 2 "F1" "dev").1.1 = false ∧
      (postgres.VerifyDeviceCertificate
        (postgres.RevokeDeviceCertificate exampleAdminDB 5000000000 "F1" 2)
        6000000000 8 2 "F1" "dev").2 =
          postgres.RevokeDeviceCertificate exampleAdminDB 5000000000 "F1" 2 ∧
      (sqlite.VerifyDeviceCertificate
        (postgres.RevokeDeviceCertificate exampleAdminDB 5000000000 "F1" 2)
        6000000000 8 2 "F1" "dev").1.1 = false ∧
      (sqlite.VerifyDeviceCertificate
        (postgres.RevokeDeviceCertificate exampleAdminDB 5000000000 "F1" 2)
        6000000000 8 2 "F1" "dev").2 =
          postgres.RevokeDeviceCertificate exampleAdminDB 5000000000 "F1" 2) :=
  ⟨⟨certF1, by decide, by decide, by decide⟩, by decide,
    VerifyDeviceCertificate_after_revocation exampleAdminDB 5000000000 6000000000 8 2 2 "F1"
      "dev" ⟨certF1, by decide, by decide, by decide⟩⟩

/-- C27. After a successful `ChangePassword` made through session `K` of account `A`,
on the route as it is registered (behind `Authenticate`): every session of `A`
other than `K` is inactive, session `K` keeps its active flag and its refresh
hash (only its `last_activity` moved, by `Authenticate`), and every session
of another account is as it was. -/
theorem ChangePassword_invalidates_other_sessions (cr : Crypto) (cfg : JWTConfig) (now : Time)
    (saltRand : Option (List Byte)) (areq : AuthRequest) (req : ChangePasswordRequest)
    (m : RequestMetadata) (db : DB) (A : User) (claims : TokenClaims)
    (hauth : (Authenticate cr cfg now areq db).1 = .ok (A, claims))
    (hK : ∀ s ∈ db.sessions, s.ID = claims.SessionID → s.UserID = A.ID)
    (hok : (changePasswordRoute cr cfg now saltRand areq req m db).1.status = 200) :
    ∃ g : Session → Session,
      (changePasswordRoute cr cfg now saltRand areq req m db).2.sessions = db.sessions.map g ∧
      (∀ s ∈ db.sessions, s.UserID = A.ID → s.ID ≠ claims.SessionID →
        g s = { s with IsActive := false }) ∧
      (∀ s ∈ db.sessions, s.ID = claims.SessionID →
        (g s).IsActive = s.IsActive ∧ (g s).RefreshTokenHash = s.RefreshTokenHash ∧
        (g s).ID = s.ID ∧ (g s).UserID = s.UserID) ∧
      (∀ s ∈ db.sessions, s.UserID ≠ A.ID → g s = s) := by
  have hst := Authenticate_ok_state cr cfg now areq db A claims hauth
  refine ⟨fun s =>
    if s.ID = claims.SessionID then { s with LastActivity := now }
    else if s.UserID = A.ID then { s with IsActive := false } else s, ?_, ?_, ?_, ?_⟩
  · unfold changePasswordRoute authenticatedRoute at hok ⊢
    rw [hst] at hok ⊢
    simp only [] at hok ⊢
    unfold ChangePassword at hok ⊢
    by_cases hb : bindChangePasswordRequest req = true
    swap
    · simp [hb] at hok
    simp only [hb, Bool.not_true, Bool.false_eq_true, if_false] at hok ⊢
    cases hcp : postgres.ChangePassword cr.argon2
        (postgres.UpdateSessionActivity db now claims.SessionID) now saltRand A.ID
        req.CurrentPassword req.NewPassword with
    | panic msg => simp [hcp] at hok
    | ret r =>
      obtain ⟨err, d⟩ := r
      obtain ⟨hs, _, _, _⟩ := postgres_ChangePassword_frame _ _ _ _ _ _ _ _ _ hcp
      cases err with
      | some e =>
        rw [hcp] at hok
        simp only [] at hok
        split at hok <;> simp at hok
      | none =>
        simp only [postgres.InvalidateAllSessionsExcept, AuditCreate, hs,
          postgres.UpdateSessionActivity, List.map_map]
        apply List.map_congr_left
        intro s _
        by_cases h1 : s.ID = claims.SessionID <;> by_cases h2 : s.UserID = A.ID <;>
          simp [h1, h2]
  · intro s _ h1 h2
    simp [h1, h2]
  · intro s _ h1
    simp [h1]
  · intro s hs h1
    have h2 : s.ID ≠ claims.SessionID := fun h => h1 (hK s hs h)
    simp [h1, h2]

/-- Witness for C27: in `threeSessionsDB`, `exampleUser` changes the password at 2 s
through session 7.  Session 8, the other session of the account, becomes
inactive; session 7 and session 9, which belongs to another account, stay
active with their hashes. -/
theorem ChangePassword_invalidates_other_sessions_witness :
    ((Authenticate toyCrypto exampleConfig 2000000000 logoutRequest threeSessionsDB).1 =
        .ok (exampleUser, exampleAccessClaims) ∧
      (changePasswordRoute toyCrypto exampleConfig 2000000000 (some exampleSalt) logoutRequest
        ⟨"pw", "password2"⟩ exampleMeta threeSessionsDB).1.status = 200 ∧
      threeSessionsDB.sessions.map (fun s => (s.ID, s.UserID, s.IsActive)) =
        [(7, 1, true), (8, 1, true), (9, 3, true)] ∧
      (changePasswordRoute toyCrypto exampleConfig 2000000000 (some exampleSalt) logoutRequest
        ⟨"pw", "password2"⟩ exampleMeta threeSessionsDB).2.sessions.map
          (fun s => (s.ID, s.UserID, s.IsActive)) =
        [(7, 1, true), (8, 1, false), (9, 3, true)]) ∧
    ∃ g : Session → Session,
      (changePasswordRoute toyCrypto exampleConfig 2000000000 (some exampleSalt) logoutRequest
        ⟨"pw", "password2"⟩ exampleMeta threeSessionsDB).2.sessions =
          threeSessionsDB.sessions.map g ∧
      (∀ s ∈ threeSessionsDB.sessions, s.UserID = exampleUser.ID →
        s.ID ≠ exampleAccessClaims.SessionID → g s = { s with IsActive := false }) ∧
      (∀ s ∈ threeSessionsDB.sessions, s.ID = exampleAccessClaims.SessionID →
        (g s).IsActive = s.IsActive ∧ (g s).RefreshTokenHash = s.RefreshTokenHash ∧
        (g s).ID = s.ID ∧ (g s).UserID = s.UserID) ∧
      (∀ s ∈ threeSessionsDB.sessions, s.UserID ≠ exampleUser.ID → g s = s) :=
  ⟨by decide,
    ChangePassword_invalidates_other_sessions toyCrypto exampleConfig 2000000000
      (some exampleSalt) logoutRequest ⟨"pw", "password2"⟩ exampleMeta threeSessionsDB
      exampleUser exampleAccessClaims (by decide) (by decide) (by decide)⟩

/-- C28. An admin can create a super_admin account.  `UserHandler.Create` refuses
only the role `admin` to a requester who is not super_admin, and the PostgreSQL
`Create` accepts the role `super_admin`.  `exampleManager`, whose role is
`admin`, logged in with session 7, posts `superAdminInput` at 2 s on the route
as registered: the answer is 201 and the account table has a new active row
with role `super_admin`. -/
theorem Create_admin_creates_super_admin :
    exampleManager.Role = RoleAdmin ∧ superAdminInput.Role = RoleSuperAdmin ∧
    (Authenticate toyCrypto exampleConfig 2000000000 managerRequest afterManagerLogin.2).1.toOption.map
      (fun uc => (uc.1.ID, uc.1.Role)) = some (4, "admin") ∧
    (createUserRoute toyCrypto exampleConfig 2000000000 (exampleEnv 2000000000).validEmail
      (some exampleSalt) 50 managerRequest superAdminInput exampleMeta
      afterManagerLogin.2).1.status = 201 ∧
    (createUserRoute toyCrypto exampleConfig 2000000000 (exampleEnv 2000000000).validEmail
      (some exampleSalt) 50 managerRequest superAdminInput exampleMeta
      afterManagerLogin.2).2.users.map (fun u => (u.ID, u.Email, u.Role, u.IsActive)) =
        [(4, "admin@x.com", "admin", true), (50, "new@x.com", "super_admin", true)] := by
  decide

/-- C29. A wrong current password is answered 500, not 400.  The PostgreSQL
`ChangePassword` returns a fresh `errors.New("current password is incorrect")`,
which is not `auth.ErrInvalidCredentials`, so the 400 branch of the handler is
never taken, whatever the request.  After the login of `afterLogin`, a
change-password request through session 7 with the current password `bad`
(which does not verify) is answered 500 "Failed to change password"; the
password hash and the sessions' ids, owners, hashes and flags are as they
were. -/
theorem ChangePassword_wrong_password_is_500 :
    (∀ (cr : Crypto) (now : Time) (saltRand : Option (List Byte)) (req : ChangePasswordRequest)
      (ctx : Context) (m : RequestMetadata) (db : DB),
      (ChangePassword cr now saltRand req ctx m db).1 ≠
        ⟨400, .error "Current password is incorrect", []⟩) ∧
    VerifyPassword toyCrypto.argon2 "bad" exampleUser.PasswordHash = .ret false ∧
    (changePasswordRoute toyCrypto exampleConfig 2000000000 (some exampleSalt) logoutRequest
      ⟨"bad", "password2"⟩ exampleMeta afterLogin.2).1 =
        ⟨500, .error "Failed to change password", []⟩ ∧
    (changePasswordRoute toyCrypto exampleConfig 2000000000 (some exampleSalt) logoutRequest
      ⟨"bad", "password2"⟩ exampleMeta afterLogin.2).2.users = afterLogin.2.users ∧
    (changePasswordRoute toyCrypto exampleConfig 2000000000 (some exampleSalt) logoutRequest
      ⟨"bad", "password2"⟩ exampleMeta afterLogin.2).2.sessions.map
        (fun s => (s.ID, s.UserID, s.RefreshTokenHash, s.IsActive)) =
      afterLogin.2.sessions.map (fun s => (s.ID, s.UserID, s.RefreshTokenHash, s.IsActive)) :=
  ⟨ChangePassword_never_400_incorrect, by decide, by decide, by decide, by decide⟩

/-- C30. For every active, unlocked super_admin account whose password (and TOTP
code, if enabled) verifies, a `Login` from the server machine with an empty
`device_fingerprint` is answered 200 with a token pair and creates the session,
also when the account has unrevoked certificates: the guard of the
device check is false, so `VerifyDeviceCertificate` is not called, the stored
certificates are left as they are and the answer is the same whatever they
are. -/
theorem Login_superadmin_without_fingerprint (cr : Crypto) (cfg : JWTConfig) (env : Env)
    (req : LoginRequest) (m : RequestMetadata) (db : DB) (u : User)
    (hb : bindLoginRequest env.validEmail req = true)
    (hu : postgres.GetByEmail db req.Email = some u)
    (hunl : ∀ t, u.LockedUntil = some t → t ≤ env.now) (hact : u.IsActive = true)
    (hrole : u.Role = RoleSuperAdmin)
    (hpw : VerifyPassword cr.argon2 req.Password u.PasswordHash = .ret true)
    (htotp : u.TOTPEnabled = true → req.TOTPCode ≠ "" ∧
      ∃ secret, u.TOTPSecret = some secret ∧ ValidateTOTP cr env.now secret req.TOTPCode = true)
    (hsm : IsServerMachine env.serverIPs m.IP = true)
    (hfp : req.DeviceFingerprint = "")
    (hnew : db.sessions.any (fun s => s.ID == env.newUUID) = false) :
    (u.Role == RoleSuperAdmin && req.DeviceFingerprint != "") = false ∧
    (Login cr cfg env req m db).1.status = 200 ∧
    (Login cr cfg env req m db).1.body.accessToken ≠ emptyToken ∧
    (Login cr cfg env req m db).1.body.refreshToken ≠ emptyToken ∧
    (∃ s : Session, (Login cr cfg env req m db).2.sessions = db.sessions ++ [s] ∧
      s.ID = env.newUUID ∧ s.UserID = u.ID ∧ s.IsActive = true) ∧
    (Login cr cfg env req m db).2.deviceCertificates = db.deviceCertificates ∧
    ∀ certs : List DeviceCertificate,
      (Login cr cfg env req m { db with deviceCertificates := certs }).1 =
        (Login cr cfg env req m db).1 ∧
      (Login cr cfg env req m { db with deviceCertificates := certs }).2.deviceCertificates =
        certs := by
  obtain ⟨tp, htp⟩ := GenerateTokenPair_ok cr cfg env.now u env.newUUID
  have key : ∀ certs : List DeviceCertificate,
      Login cr cfg env req m { db with deviceCertificates := certs } = _ :=
    fun certs => Login_success cr cfg env req m { db with deviceCertificates := certs }
      { db with deviceCertificates := certs } u tp hb hu hunl hact hpw htotp (fun _ => hsm)
      (by simp [hfp]) htp hnew
  have h := key db.deviceCertificates
  have hdb : ({ db with deviceCertificates := db.deviceCertificates } : DB) = db := rfl
  rw [hdb] at h
  have htok : tp.AccessToken ≠ emptyToken ∧ tp.RefreshToken ≠ emptyToken := by
    simp only [GenerateTokenPair, Except.ok.injEq] at htp
    subst htp
    exact ⟨by simp [SignedString, emptyToken], by simp [SignedString, emptyToken]⟩
  refine ⟨by simp [hrole, hfp], by rw [h], by rw [h]; exact htok.1, by rw [h]; exact htok.2, ?_,
    by rw [h]; rfl, ?_⟩
  · rw [h]
    exact ⟨{ ID := env.newUUID, UserID := u.ID, TokenHash := HashToken cr tp.AccessToken,
             RefreshTokenHash := HashToken cr tp.RefreshToken, IPAddress := m.IP,
             DeviceFingerprint := req.DeviceID, UserAgent := m.UserAgent,
             CreatedAt := env.now, ExpiresAt := tp.ExpiresAt + 7 * 24 * Hour,
             LastActivity := env.now, IsActive := true }, rfl, rfl, rfl, rfl⟩
  · intro certs
    rw [key certs, h]
    exact ⟨rfl, rfl⟩

/-- Witness for C30: `exampleAdmin`, who has the unrevoked certificate `certF1`, logs
in from 127.0.0.1 with the right password and no fingerprint. -/
theorem Login_superadmin_without_fingerprint_witness :
    (postgres.GetByEmail exampleAdminDB (adminRequest "").Email = some exampleAdmin ∧
      exampleAdmin.Role = RoleSuperAdmin ∧ exampleAdmin.IsActive = true ∧
      VerifyPassword toyCrypto.argon2 (adminRequest "").Password exampleAdmin.PasswordHash =
        .ret true ∧
      IsServerMachine (exampleEnv 6000000000).serverIPs localMeta.IP = true ∧
      exampleAdminDB.deviceCertificates = [certF1] ∧ certF1.RevokedAt = none) ∧
    ((exampleAdmin.Role == RoleSuperAdmin && (adminRequest "").DeviceFingerprint != "") = false ∧
      (Login toyCrypto exampleConfig (exampleEnv 6000000000) (adminRequest "") localMeta
        exampleAdminDB).1.status = 200 ∧
      (Login toyCrypto exampleConfig (exampleEnv 6000000000) (adminRequest "") localMeta
        exampleAdminDB).1.body.accessToken ≠ emptyToken ∧
      (Login toyCrypto exampleConfig (exampleEnv 6000000000) (adminRequest "") localMeta
        exampleAdminDB).1.body.refreshToken ≠ emptyToken ∧
      (∃ s : Session, (Login toyCrypto exampleConfig (exampleEnv 6000000000) (adminRequest "")
          localMeta exampleAdminDB).2.sessions = exampleAdminDB.sessions ++ [s] ∧
        s.ID = 7 ∧ s.UserID = 2 ∧ s.IsActive = true) ∧
      (Login toyCrypto exampleConfig (exampleEnv 6000000000) (adminRequest "") localMeta
        exampleAdminDB).2.deviceCertificates = exampleAdminDB.deviceCertificates ∧
      ∀ certs : List DeviceCertificate,
        (Login toyCrypto exampleConfig (exampleEnv 6000000000) (adminRequest "") localMeta
          { exampleAdminDB with deviceCertificates := certs }).1 =
          (Login toyCrypto exampleConfig (exampleEnv 6000000000) (adminRequest "") localMeta
            exampleAdminDB).1 ∧
        (Login toyCrypto exampleConfig (exampleEnv 6000000000) (adminRequest "") localMeta
          { exampleAdminDB with deviceCertificates := certs }).2.deviceCertificates = certs) :=
  ⟨by decide,
    Login_superadmin_without_fingerprint toyCrypto exampleConfig (exampleEnv 6000000000)
      (adminRequest "") localMeta exampleAdminDB exampleAdmin (by decide) (by decide) (by decide)
      (by decide) (by decide) (by decide) (by decide) (by decide) rfl (by decide)⟩

end SRAMS
